import Mathlib

/-!
VulkanRenderer: swapchain lifecycle and frame loop.

A shallow embedding of `vk_renderer/src/vk_renderer.cpp` and
`vk_renderer/include/vk_renderer/vk_renderer.hpp`.

* Vulkan handles are natural numbers, `VK_NULL_HANDLE` is `0`.
* `uint32_t` values are natural numbers; the only arithmetic the renderer does
  on them is `std::max`, `std::min`, `std::clamp` and comparison, none of which
  can leave the 32-bit range.
* `VkResult` is an integer, with the values of the Vulkan headers.
* Every member function is a state transformer over `Renderer` that also
  produces the list of graphics-API calls it issued, and ends in one of four
  ways: it returns, the process aborts (`std::abort` inside `VK_CHECK`), the
  thread blocks forever (a wait with timeout `UINT64_MAX` that is never
  satisfied), or the C++ behaviour is undefined (vector index out of range).
* What the driver answers to a call is an explicit argument (the `...Env`
  records).
-/

namespace VkRenderer

/-! ## Vulkan constants (values of `vulkan_core.h`) -/

abbrev Handle := Nat

abbrev VkResult := Int

def VK_NULL_HANDLE : Handle := 0

def VK_SUCCESS : VkResult := 0

def VK_SUBOPTIMAL_KHR : VkResult := 1000001003

def VK_ERROR_OUT_OF_DATE_KHR : VkResult := -1000001004

def VK_FORMAT_UNDEFINED : Nat := 0

def VK_FORMAT_B8G8R8A8_UNORM : Nat := 44

def VK_COMPOSITE_ALPHA_OPAQUE_BIT_KHR : Nat := 1

def VK_COMPOSITE_ALPHA_PRE_MULTIPLIED_BIT_KHR : Nat := 2

def VK_COMPOSITE_ALPHA_POST_MULTIPLIED_BIT_KHR : Nat := 4

def VK_COMPOSITE_ALPHA_INHERIT_BIT_KHR : Nat := 8

def VK_SURFACE_TRANSFORM_IDENTITY_BIT_KHR : Nat := 1

def VK_PRESENT_MODE_FIFO_KHR : Nat := 2

def VK_QUEUE_GRAPHICS_BIT : Nat := 1

def VK_INSTANCE_CREATE_ENUMERATE_PORTABILITY_BIT_KHR : Nat := 1

def VK_KHR_SURFACE_EXTENSION_NAME : String := "VK_KHR_surface"

def VK_EXT_METAL_SURFACE_EXTENSION_NAME : String := "VK_EXT_metal_surface"

def VK_KHR_PORTABILITY_ENUMERATION_EXTENSION_NAME : String := "VK_KHR_portability_enumeration"

def VK_KHR_SWAPCHAIN_EXTENSION_NAME : String := "VK_KHR_swapchain"

def kPortabilitySubset : String := "VK_KHR_portability_subset"

/-! ## Surface queries -/

structure VkExtent2D where
  width : Nat
  height : Nat
  deriving DecidableEq, Repr

structure VkSurfaceFormatKHR where
  format : Nat
  colorSpace : Nat
  deriving DecidableEq, Repr

structure VkSurfaceCapabilitiesKHR where
  minImageCount : Nat
  maxImageCount : Nat
  currentExtent : VkExtent2D
  minImageExtent : VkExtent2D
  maxImageExtent : VkExtent2D
  supportedTransforms : Nat
  currentTransform : Nat
  supportedCompositeAlpha : Nat
  deriving DecidableEq, Repr

/-! ## The negotiation steps of `createSwapchain` (lines 349-390) -/

/-- The loop of lines 350-357: the first entry whose format is
`VK_FORMAT_B8G8R8A8_UNORM` replaces the current choice and ends the loop. -/
def scanFormats (chosen : VkSurfaceFormatKHR) : List VkSurfaceFormatKHR → VkSurfaceFormatKHR
  | [] => chosen
  | f :: rest => if f.format = VK_FORMAT_B8G8R8A8_UNORM then f else scanFormats chosen rest

/-- Lines 349-357. `formats[0]` on an empty vector has no defined value: `none`. -/
def chosenFormat (formats : List VkSurfaceFormatKHR) : Option VkSurfaceFormatKHR :=
  match formats with
  | [] => none
  | f0 :: _ => some (scanFormats f0 formats)

/-- The reference implementation of `std::clamp(v, lo, hi)`:
`(v < lo) ? lo : (hi < v) ? hi : v`. -/
def clamp (v lo hi : Nat) : Nat :=
  if v < lo then lo else if hi < v then hi else v

/-- Lines 359-368. -/
def extent (caps : VkSurfaceCapabilitiesKHR) (width height : Nat) : VkExtent2D :=
  if caps.currentExtent.width ≠ 0xFFFFFFFF then
    caps.currentExtent
  else
    { width := clamp width caps.minImageExtent.width caps.maxImageExtent.width
      height := clamp height caps.minImageExtent.height caps.maxImageExtent.height }

/-- Lines 370-374. -/
def minImages (caps : VkSurfaceCapabilitiesKHR) : Nat :=
  let minImages := max 2 caps.minImageCount
  if caps.maxImageCount > 0 then min minImages caps.maxImageCount else minImages

/-- The loop of lines 382-389 over the candidate array. -/
def scanAlpha (supportedAlpha : Nat) (compositeAlpha : Nat) : List Nat → Nat
  | [] => compositeAlpha
  | c :: rest => if supportedAlpha &&& c ≠ 0 then c else scanAlpha supportedAlpha compositeAlpha rest

/-- Lines 376-390. -/
def compositeAlpha (caps : VkSurfaceCapabilitiesKHR) : Nat :=
  let supportedAlpha := caps.supportedCompositeAlpha
  if supportedAlpha &&& VK_COMPOSITE_ALPHA_OPAQUE_BIT_KHR = 0 then
    scanAlpha supportedAlpha VK_COMPOSITE_ALPHA_OPAQUE_BIT_KHR
      [VK_COMPOSITE_ALPHA_PRE_MULTIPLIED_BIT_KHR, VK_COMPOSITE_ALPHA_POST_MULTIPLIED_BIT_KHR,
       VK_COMPOSITE_ALPHA_INHERIT_BIT_KHR]
  else
    VK_COMPOSITE_ALPHA_OPAQUE_BIT_KHR

/-- Lines 402-403. -/
def preTransform (caps : VkSurfaceCapabilitiesKHR) : Nat :=
  if caps.supportedTransforms &&& VK_SURFACE_TRANSFORM_IDENTITY_BIT_KHR ≠ 0 then
    VK_SURFACE_TRANSFORM_IDENTITY_BIT_KHR
  else caps.currentTransform

/-! ## Renderer state -/

/-- Driver-side status of a fence object. A wait on the fence with an unbounded
timeout completes when the fence is signaled, or when a queue submission that
will signal it is pending; it never completes when the fence is unsignaled and
nothing was submitted with it. -/
inductive FenceStatus where
  | signaled
  | unsignaledPending
  | unsignaledNoSubmit
  deriving DecidableEq, Repr

/-- What the driver holds for the objects of the renderer (not a member of the
C++ class): the status of the fence `inFlight_` and the images that belong to
the swapchain object `swapchain_`. -/
structure Gpu where
  inFlight : FenceStatus
  images : List Handle
  deriving DecidableEq, Repr

/-- The data members of `class VulkanRenderer` (header, lines 76-112), with the
default member initialisers as defaults, and the driver-side state `gpu`.
`recordCallback_` is the identity of the stored function, `none` for an empty
`std::function`. -/
structure Renderer where
  initialized_ : Bool := false
  swapchainDirty_ : Bool := false
  width_ : Nat := 1
  height_ : Nat := 1
  recordCallback_ : Option Nat := none
  instance_ : Handle := VK_NULL_HANDLE
  surface_ : Handle := VK_NULL_HANDLE
  physicalDevice_ : Handle := VK_NULL_HANDLE
  device_ : Handle := VK_NULL_HANDLE
  queue_ : Handle := VK_NULL_HANDLE
  queueFamilyIndex_ : Nat := 0
  swapchain_ : Handle := VK_NULL_HANDLE
  swapchainFormat_ : Nat := VK_FORMAT_UNDEFINED
  swapchainExtent_ : VkExtent2D := ⟨0, 0⟩
  swapchainMinImageCount_ : Nat := 2
  swapchainImages_ : List Handle := []
  swapchainImageViews_ : List Handle := []
  renderPass_ : Handle := VK_NULL_HANDLE
  framebuffers_ : List Handle := []
  commandPool_ : Handle := VK_NULL_HANDLE
  commandBuffers_ : List Handle := []
  imageAvailable_ : Handle := VK_NULL_HANDLE
  renderFinished_ : Handle := VK_NULL_HANDLE
  inFlight_ : Handle := VK_NULL_HANDLE
  gpu : Gpu := ⟨FenceStatus.unsignaledNoSubmit, []⟩
  deriving DecidableEq, Repr

/-- The fields of `VkSwapchainCreateInfoKHR` that `createSwapchain` sets
(lines 392-407). -/
structure VkSwapchainCreateInfoKHR where
  surface : Handle
  minImageCount : Nat
  imageFormat : Nat
  imageColorSpace : Nat
  imageExtent : VkExtent2D
  preTransform : Nat
  compositeAlpha : Nat
  presentMode : Nat
  oldSwapchain : Handle
  deriving DecidableEq, Repr

/-- One graphics-API call, with the arguments that matter. The invocation of
the stored record callback is listed among them. -/
inductive Call where
  | enumerateInstanceExtensionProperties
  | createInstance (extensions : List String) (flags : Nat)
  | createMetalSurface (inst : Handle) (layer : Handle)
  | enumeratePhysicalDevices (inst : Handle)
  | enumerateDeviceExtensionProperties (pd : Handle)
  | getPhysicalDeviceQueueFamilyProperties (pd : Handle)
  | getPhysicalDeviceSurfaceSupport (pd : Handle) (family : Nat) (surface : Handle)
  | createDevice (pd : Handle) (family : Nat) (extensions : List String)
  | getDeviceQueue (device : Handle) (family : Nat)
  | getPhysicalDeviceSurfaceCapabilities (pd : Handle) (surface : Handle)
  | getPhysicalDeviceSurfaceFormats (pd : Handle) (surface : Handle)
  | createSwapchain (device : Handle) (sci : VkSwapchainCreateInfoKHR)
  | getSwapchainImages (device : Handle) (swapchain : Handle)
  | createImageView (device : Handle) (image : Handle) (format : Nat)
  | createRenderPass (device : Handle) (format : Nat)
  | createFramebuffer (device : Handle) (renderPass : Handle) (view : Handle) (extent : VkExtent2D)
  | createCommandPool (device : Handle) (family : Nat)
  | allocateCommandBuffers (device : Handle) (pool : Handle) (count : Nat)
  | createSemaphore (device : Handle)
  | createFence (device : Handle) (signaled : Bool)
  | deviceWaitIdle (device : Handle)
  | freeCommandBuffers (device : Handle) (pool : Handle) (buffers : List Handle)
  | destroyFramebuffer (device : Handle) (fb : Handle)
  | destroyRenderPass (device : Handle) (rp : Handle)
  | destroyImageView (device : Handle) (view : Handle)
  | destroySwapchain (device : Handle) (swapchain : Handle)
  | destroyCommandPool (device : Handle) (pool : Handle)
  | destroyFence (device : Handle) (fence : Handle)
  | destroySemaphore (device : Handle) (sem : Handle)
  | destroyDevice (device : Handle)
  | destroySurface (inst : Handle) (surface : Handle)
  | destroyInstance (inst : Handle)
  | waitForFences (device : Handle) (fence : Handle)
  | resetFences (device : Handle) (fence : Handle)
  | acquireNextImage (device : Handle) (swapchain : Handle) (sem : Handle)
  | resetCommandBuffer (cmd : Handle)
  | beginCommandBuffer (cmd : Handle)
  | cmdBeginRenderPass (cmd : Handle) (renderPass : Handle) (fb : Handle) (extent : VkExtent2D)
  | recordCallback (cb : Nat) (cmd : Handle)
  | cmdEndRenderPass (cmd : Handle)
  | endCommandBuffer (cmd : Handle)
  | queueSubmit (queue : Handle) (cmd : Handle) (wait : Handle) (signal : Handle) (fence : Handle)
  | queuePresent (queue : Handle) (wait : Handle) (swapchain : Handle) (imageIndex : Nat)
  deriving DecidableEq, Repr

/-! ## Outcomes and sequencing -/

/-- How a member function ends, with the calls issued up to that point. -/
inductive Res (α : Type) where
  | ok (val : α) (s : Renderer) (log : List Call)
  | abort (log : List Call)
  | hang (log : List Call)
  | undef (log : List Call)
  deriving DecidableEq, Repr

/-- The calls issued. -/
def Res.log {α : Type} : Res α → List Call
  | .ok _ _ l => l
  | .abort l => l
  | .hang l => l
  | .undef l => l

/-- The same outcome after the calls `l`. -/
def Res.prepend {α : Type} (l : List Call) : Res α → Res α
  | .ok a s l2 => .ok a s (l ++ l2)
  | .abort l2 => .abort (l ++ l2)
  | .hang l2 => .hang (l ++ l2)
  | .undef l2 => .undef (l ++ l2)

/-- A piece of renderer code: from the state before, an outcome. -/
structure VkM (α : Type) where
  run : Renderer → Res α

/-- Continue with `f` after an outcome that returned; any other outcome ends
the function. -/
def Res.bind {α β : Type} (r : Res α) (f : α → Renderer → Res β) : Res β :=
  match r with
  | .ok a s1 l1 => (f a s1).prepend l1
  | .abort l => .abort l
  | .hang l => .hang l
  | .undef l => .undef l

instance : Monad VkM where
  pure a := ⟨fun s => .ok a s []⟩
  bind m f := ⟨fun s => (m.run s).bind fun a s1 => (f a).run s1⟩

/-- Read the data members. -/
def get : VkM Renderer := ⟨fun s => .ok s s []⟩

/-- Assign data members. -/
def modify (f : Renderer → Renderer) : VkM Unit := ⟨fun s => .ok () (f s) []⟩

/-- Issue one call. -/
def call (c : Call) : VkM Unit := ⟨fun s => .ok () s [c]⟩

/-- The process ends in `std::abort()`. -/
def abort {α : Type} : VkM α := ⟨fun _ => .abort []⟩

/-- The thread waits forever. -/
def hang {α : Type} : VkM α := ⟨fun _ => .hang []⟩

/-- Undefined behaviour of the C++ program. -/
def undef {α : Type} : VkM α := ⟨fun _ => .undef []⟩

/-- The macro `VK_CHECK` (lines 16-25) applied to a call that returned `r`. -/
def VK_CHECK (r : VkResult) : VkM Unit :=
  if r ≠ VK_SUCCESS then abort else pure ()

/-- A range-based `for` without `break`. -/
def forEach {α : Type} (body : α → VkM Unit) : List α → VkM Unit
  | [] => pure ()
  | x :: rest => do body x; forEach body rest

/-- The loop `for( i = 0; i < n; ++i )`. -/
def forIdx (n : Nat) (body : Nat → VkM Unit) : VkM Unit :=
  forEach body (List.range n)

/-- The call `v.resize( n, VK_NULL_HANDLE )` of `std::vector`. -/
def vectorResize (v : List Handle) (n : Nat) : List Handle :=
  v.take n ++ List.replicate (n - v.length) VK_NULL_HANDLE

/-- A driver writing the array `src` into the storage of `v` (as many entries
as both have). -/
def writeInto (v : List Handle) (src : List Handle) : List Handle :=
  src.take v.length ++ v.drop src.length

/-! ## What the driver answers -/

/-- The answers to the calls of `createSwapchain`, `createRenderPass` and
`createFramebuffers`. `formats` is the array the second format query fills (its
length is the count the first one reports); `images` are the images the driver
creates for the new swapchain. -/
structure SwapchainEnv where
  capsResult : VkResult
  caps : VkSurfaceCapabilitiesKHR
  formatCountResult : VkResult
  formatsResult : VkResult
  formats : List VkSurfaceFormatKHR
  createResult : VkResult
  swapchain : Handle
  images : List Handle
  imageCountResult : VkResult
  imagesResult : VkResult
  viewResult : Nat → VkResult
  view : Nat → Handle
  renderPassResult : VkResult
  renderPass : Handle
  framebufferResult : Nat → VkResult
  framebuffer : Nat → Handle

/-- The answers to the calls of `createCommandResources`. -/
structure CommandEnv where
  poolResult : VkResult
  pool : Handle
  allocResult : VkResult
  buffer : Nat → Handle

/-- The answers to the calls of `createSyncObjects`. -/
structure SyncEnv where
  imageAvailableResult : VkResult
  imageAvailable : Handle
  renderFinishedResult : VkResult
  renderFinished : Handle
  fenceResult : VkResult
  fence : Handle

/-- One entry of `vkGetPhysicalDeviceQueueFamilyProperties`, with the answer of
`vkGetPhysicalDeviceSurfaceSupportKHR` for that family. -/
structure QueueFamily where
  queueFlags : Nat
  supportResult : VkResult
  presentSupported : Bool

/-- One enumerated adapter. -/
structure PhysicalDevice where
  handle : Handle
  extensions : List String
  queueFamilies : List QueueFamily

/-- The answers to the calls of `init`. `devices` is the array the second
enumeration fills (its length is the count the first one reports). -/
structure InitEnv where
  instanceExtensions : List String
  instanceResult : VkResult
  inst : Handle
  surfaceResult : VkResult
  surface : Handle
  deviceCountResult : VkResult
  devicesResult : VkResult
  devices : List PhysicalDevice
  deviceResult : VkResult
  device : Handle
  queue : Handle
  swapchain : SwapchainEnv
  commands : CommandEnv
  sync : SyncEnv

/-- The answers to the calls of one `drawFrame`. -/
structure FrameEnv where
  swapchain : SwapchainEnv
  commands : CommandEnv
  waitResult : VkResult
  resetResult : VkResult
  acquireResult : VkResult
  imageIndex : Nat
  resetCommandBufferResult : VkResult
  beginResult : VkResult
  endResult : VkResult
  submitResult : VkResult
  presentResult : VkResult

/-! ## Driver calls that change driver-side state -/

/-- The call `vkDeviceWaitIdle( device_ )` (result ignored by the renderer):
all submitted work completes, so a pending fence becomes signaled. -/
def vkDeviceWaitIdle : VkM Unit := do
  let s ← get
  call (.deviceWaitIdle s.device_)
  if s.gpu.inFlight = .unsignaledPending then
    modify fun s => { s with gpu := { s.gpu with inFlight := .signaled } }

/-- The call `vkWaitForFences( device_, 1, &inFlight_, VK_TRUE, UINT64_MAX )`
answering `r` when the wait completes. -/
def vkWaitForFences (r : VkResult) : VkM VkResult := do
  let s ← get
  call (.waitForFences s.device_ s.inFlight_)
  match s.gpu.inFlight with
  | .unsignaledNoSubmit => hang
  | .unsignaledPending =>
    modify fun s => { s with gpu := { s.gpu with inFlight := .signaled } }
    pure r
  | .signaled => pure r

/-- The call `vkResetFences( device_, 1, &inFlight_ )` answering `r`. -/
def vkResetFences (r : VkResult) : VkM VkResult := do
  let s ← get
  call (.resetFences s.device_ s.inFlight_)
  if r = VK_SUCCESS then
    modify fun s => { s with gpu := { s.gpu with inFlight := .unsignaledNoSubmit } }
  pure r

/-- The call `vkQueueSubmit( queue_, 1, &si, inFlight_ )` answering `r`. -/
def vkQueueSubmit (cmd : Handle) (r : VkResult) : VkM VkResult := do
  let s ← get
  call (.queueSubmit s.queue_ cmd s.imageAvailable_ s.renderFinished_ s.inFlight_)
  if r = VK_SUCCESS then
    modify fun s => { s with gpu := { s.gpu with inFlight := .unsignaledPending } }
  pure r

/-! ## Member functions -/

/-- The functions `hasInstanceExtension` and `hasDeviceExtension` (lines 27-55)
on the enumerated names. -/
def hasExtension (exts : List String) (name : String) : Bool :=
  exts.any fun e => e == name

/-- Lines 117-122. -/
def resize (width height : Nat) : VkM Unit :=
  modify fun s =>
    { s with width_ := max 1 width, height_ := max 1 height, swapchainDirty_ := true }

/-- Lines 112-115. -/
def setRecordCallback (cb : Option Nat) : VkM Unit :=
  modify fun s => { s with recordCallback_ := cb }

/-- Lines 156-187. -/
def createInstanceForMetalSurface (env : InitEnv) : VkM Unit := do
  call .enumerateInstanceExtensionProperties
  call .enumerateInstanceExtensionProperties
  let extensions :=
    [VK_KHR_SURFACE_EXTENSION_NAME, VK_EXT_METAL_SURFACE_EXTENSION_NAME] ++
      (if hasExtension env.instanceExtensions VK_KHR_PORTABILITY_ENUMERATION_EXTENSION_NAME then
        [VK_KHR_PORTABILITY_ENUMERATION_EXTENSION_NAME] else [])
  let flags :=
    if hasExtension extensions VK_KHR_PORTABILITY_ENUMERATION_EXTENSION_NAME then
      VK_INSTANCE_CREATE_ENUMERATE_PORTABILITY_BIT_KHR else 0
  call (.createInstance extensions flags)
  VK_CHECK env.instanceResult
  modify fun s => { s with instance_ := env.inst }

/-- Lines 246-253. -/
def createSurfaceFromMetalLayer (env : InitEnv) (nativeLayer : Handle) : VkM Unit := do
  let s ← get
  call (.createMetalSurface s.instance_ nativeLayer)
  VK_CHECK env.surfaceResult
  modify fun s => { s with surface_ := env.surface }

/-- The inner loop of `pickPhysicalDevice` (lines 288-301) from family `i` on;
`true` when a family was selected and the function returned. -/
def scanQueueFamilies (pd : Handle) : Nat → List QueueFamily → VkM Bool
  | _, [] => pure false
  | i, q :: rest =>
    if q.queueFlags &&& VK_QUEUE_GRAPHICS_BIT = 0 then
      scanQueueFamilies pd (i + 1) rest
    else do
      let s ← get
      call (.getPhysicalDeviceSurfaceSupport pd i s.surface_)
      VK_CHECK q.supportResult
      if q.presentSupported then do
        modify fun s => { s with physicalDevice_ := pd, queueFamilyIndex_ := i }
        pure true
      else
        scanQueueFamilies pd (i + 1) rest

/-- The outer loop of `pickPhysicalDevice` (lines 278-302); `true` when a
device was selected and the function returned. -/
def scanDevices : List PhysicalDevice → VkM Bool
  | [] => pure false
  | pd :: rest => do
    call (.enumerateDeviceExtensionProperties pd.handle)
    call (.enumerateDeviceExtensionProperties pd.handle)
    if !hasExtension pd.extensions VK_KHR_SWAPCHAIN_EXTENSION_NAME then
      scanDevices rest
    else do
      call (.getPhysicalDeviceQueueFamilyProperties pd.handle)
      call (.getPhysicalDeviceQueueFamilyProperties pd.handle)
      let found ← scanQueueFamilies pd.handle 0 pd.queueFamilies
      if found then pure true else scanDevices rest

/-- Lines 265-306. -/
def pickPhysicalDevice (env : InitEnv) : VkM Unit := do
  let s ← get
  call (.enumeratePhysicalDevices s.instance_)
  VK_CHECK env.deviceCountResult
  if env.devices.length = 0 then
    abort
  else do
    call (.enumeratePhysicalDevices s.instance_)
    VK_CHECK env.devicesResult
    let found ← scanDevices env.devices
    if found then pure () else abort

/-- The extension names the driver enumerates for the adapter `pd`. -/
def deviceExtensions (env : InitEnv) (pd : Handle) : List String :=
  match env.devices.find? fun d => d.handle = pd with
  | some d => d.extensions
  | none => []

/-- Lines 308-337. -/
def createDeviceAndQueues (env : InitEnv) : VkM Unit := do
  let s ← get
  let pdExtensions := deviceExtensions env s.physicalDevice_
  call (.enumerateDeviceExtensionProperties s.physicalDevice_)
  call (.enumerateDeviceExtensionProperties s.physicalDevice_)
  let devExts :=
    [VK_KHR_SWAPCHAIN_EXTENSION_NAME] ++
      (if hasExtension pdExtensions kPortabilitySubset then [kPortabilitySubset] else [])
  call (.createDevice s.physicalDevice_ s.queueFamilyIndex_ devExts)
  VK_CHECK env.deviceResult
  modify fun s => { s with device_ := env.device }
  call (.getDeviceQueue env.device s.queueFamilyIndex_)
  modify fun s => { s with queue_ := env.queue }

/-- Lines 467-509. -/
def createRenderPass (env : SwapchainEnv) : VkM Unit := do
  let s ← get
  if s.renderPass_ ≠ VK_NULL_HANDLE then
    pure ()
  else do
    call (.createRenderPass s.device_ s.swapchainFormat_)
    VK_CHECK env.renderPassResult
    modify fun s => { s with renderPass_ := env.renderPass }

/-- Lines 511-518. -/
def destroyRenderPass : VkM Unit := do
  let s ← get
  if s.renderPass_ ≠ VK_NULL_HANDLE then
    call (.destroyRenderPass s.device_ s.renderPass_)
    modify fun s => { s with renderPass_ := VK_NULL_HANDLE }

/-- Lines 520-539. -/
def createFramebuffers (env : SwapchainEnv) : VkM Unit := do
  modify fun s =>
    { s with framebuffers_ := vectorResize s.framebuffers_ s.swapchainImageViews_.length }
  let s ← get
  forIdx s.swapchainImageViews_.length fun i => do
    let s ← get
    match s.swapchainImageViews_[i]? with
    | none => undef
    | some view =>
      call (.createFramebuffer s.device_ s.renderPass_ view s.swapchainExtent_)
      VK_CHECK (env.framebufferResult i)
      modify fun s => { s with framebuffers_ := s.framebuffers_.set i (env.framebuffer i) }

/-- Lines 541-551. -/
def destroyFramebuffers : VkM Unit := do
  let s ← get
  forEach (fun fb => if fb ≠ VK_NULL_HANDLE then call (.destroyFramebuffer s.device_ fb) else pure ())
    s.framebuffers_
  modify fun s => { s with framebuffers_ := [] }

/-- Lines 339-439. -/
def createSwapchain (env : SwapchainEnv) (width height : Nat) : VkM Unit := do
  let s ← get
  call (.getPhysicalDeviceSurfaceCapabilities s.physicalDevice_ s.surface_)
  VK_CHECK env.capsResult
  let caps := env.caps
  call (.getPhysicalDeviceSurfaceFormats s.physicalDevice_ s.surface_)
  VK_CHECK env.formatCountResult
  call (.getPhysicalDeviceSurfaceFormats s.physicalDevice_ s.surface_)
  VK_CHECK env.formatsResult
  match chosenFormat env.formats with
  | none => undef
  | some chosen =>
    let sci : VkSwapchainCreateInfoKHR :=
      { surface := s.surface_
        minImageCount := minImages caps
        imageFormat := chosen.format
        imageColorSpace := chosen.colorSpace
        imageExtent := extent caps width height
        preTransform := preTransform caps
        compositeAlpha := compositeAlpha caps
        presentMode := VK_PRESENT_MODE_FIFO_KHR
        oldSwapchain := VK_NULL_HANDLE }
    call (.createSwapchain s.device_ sci)
    VK_CHECK env.createResult
    modify fun s =>
      { s with swapchain_ := env.swapchain, gpu := { s.gpu with images := env.images } }
    modify fun s =>
      { s with swapchainFormat_ := chosen.format
               swapchainExtent_ := extent caps width height
               swapchainMinImageCount_ := minImages caps }
    call (.getSwapchainImages s.device_ env.swapchain)
    VK_CHECK env.imageCountResult
    let imageCount := env.images.length
    modify fun s => { s with swapchainImages_ := vectorResize s.swapchainImages_ imageCount }
    call (.getSwapchainImages s.device_ env.swapchain)
    VK_CHECK env.imagesResult
    modify fun s => { s with swapchainImages_ := writeInto s.swapchainImages_ s.gpu.images }
    modify fun s =>
      { s with swapchainImageViews_ := vectorResize s.swapchainImageViews_ imageCount }
    forIdx imageCount fun i => do
      let s ← get
      match s.swapchainImages_[i]? with
      | none => undef
      | some image =>
        call (.createImageView s.device_ image s.swapchainFormat_)
        VK_CHECK (env.viewResult i)
        modify fun s =>
          { s with swapchainImageViews_ := s.swapchainImageViews_.set i (env.view i) }
    createRenderPass env
    createFramebuffers env

/-- Lines 441-465. -/
def destroySwapchain : VkM Unit := do
  destroyFramebuffers
  destroyRenderPass
  let s ← get
  forEach (fun view => if view ≠ VK_NULL_HANDLE then call (.destroyImageView s.device_ view) else pure ())
    s.swapchainImageViews_
  modify fun s => { s with swapchainImageViews_ := [], swapchainImages_ := [] }
  if s.swapchain_ ≠ VK_NULL_HANDLE then
    call (.destroySwapchain s.device_ s.swapchain_)
    modify fun s => { s with swapchain_ := VK_NULL_HANDLE }
  modify fun s =>
    { s with swapchainFormat_ := VK_FORMAT_UNDEFINED
             swapchainExtent_ := ⟨0, 0⟩
             swapchainMinImageCount_ := 2 }

/-- Lines 553-572. -/
def createCommandResources (env : CommandEnv) : VkM Unit := do
  let s ← get
  if s.commandPool_ = VK_NULL_HANDLE then
    call (.createCommandPool s.device_ s.queueFamilyIndex_)
    VK_CHECK env.poolResult
    modify fun s => { s with commandPool_ := env.pool }
  modify fun s =>
    { s with commandBuffers_ := vectorResize s.commandBuffers_ s.swapchainImages_.length }
  let s ← get
  call (.allocateCommandBuffers s.device_ s.commandPool_ s.commandBuffers_.length)
  VK_CHECK env.allocResult
  modify fun s =>
    { s with commandBuffers_ := (List.range s.commandBuffers_.length).map env.buffer }

/-- Lines 574-587. -/
def destroyCommandResources : VkM Unit := do
  let s ← get
  if !s.commandBuffers_.isEmpty && s.commandPool_ ≠ VK_NULL_HANDLE then
    call (.freeCommandBuffers s.device_ s.commandPool_ s.commandBuffers_)
    modify fun s => { s with commandBuffers_ := [] }
  if s.commandPool_ ≠ VK_NULL_HANDLE then
    call (.destroyCommandPool s.device_ s.commandPool_)
    modify fun s => { s with commandPool_ := VK_NULL_HANDLE }

/-- Lines 589-600. The fence is created with `VK_FENCE_CREATE_SIGNALED_BIT`. -/
def createSyncObjects (env : SyncEnv) : VkM Unit := do
  let s ← get
  call (.createSemaphore s.device_)
  VK_CHECK env.imageAvailableResult
  modify fun s => { s with imageAvailable_ := env.imageAvailable }
  call (.createSemaphore s.device_)
  VK_CHECK env.renderFinishedResult
  modify fun s => { s with renderFinished_ := env.renderFinished }
  call (.createFence s.device_ true)
  VK_CHECK env.fenceResult
  modify fun s =>
    { s with inFlight_ := env.fence, gpu := { s.gpu with inFlight := .signaled } }

/-- Lines 602-619. -/
def destroySyncObjects : VkM Unit := do
  let s ← get
  if s.inFlight_ ≠ VK_NULL_HANDLE then
    call (.destroyFence s.device_ s.inFlight_)
    modify fun s => { s with inFlight_ := VK_NULL_HANDLE }
  if s.renderFinished_ ≠ VK_NULL_HANDLE then
    call (.destroySemaphore s.device_ s.renderFinished_)
    modify fun s => { s with renderFinished_ := VK_NULL_HANDLE }
  if s.imageAvailable_ ≠ VK_NULL_HANDLE then
    call (.destroySemaphore s.device_ s.imageAvailable_)
    modify fun s => { s with imageAvailable_ := VK_NULL_HANDLE }

/-- Lines 621-654. -/
def recordCommandBuffer (env : FrameEnv) (imageIndex : Nat) : VkM Unit := do
  let s ← get
  match s.commandBuffers_[imageIndex]? with
  | none => undef
  | some cmd =>
    call (.beginCommandBuffer cmd)
    VK_CHECK env.beginResult
    match s.framebuffers_[imageIndex]? with
    | none => undef
    | some fb =>
      call (.cmdBeginRenderPass cmd s.renderPass_ fb s.swapchainExtent_)
      match s.recordCallback_ with
      | some cb => call (.recordCallback cb cmd)
      | none => pure ()
      call (.cmdEndRenderPass cmd)
      call (.endCommandBuffer cmd)
      VK_CHECK env.endResult

/-- Lines 656-725. -/
def drawFrame (env : FrameEnv) : VkM Unit := do
  let s ← get
  if !s.initialized_ then
    pure ()
  else do
    if s.swapchainDirty_ then
      vkDeviceWaitIdle
      if !s.commandBuffers_.isEmpty then
        call (.freeCommandBuffers s.device_ s.commandPool_ s.commandBuffers_)
        modify fun s => { s with commandBuffers_ := [] }
      destroySwapchain
      createSwapchain env.swapchain s.width_ s.height_
      createCommandResources env.commands
      modify fun s => { s with swapchainDirty_ := false }
    VK_CHECK (← vkWaitForFences env.waitResult)
    VK_CHECK (← vkResetFences env.resetResult)
    let s ← get
    call (.acquireNextImage s.device_ s.swapchain_ s.imageAvailable_)
    let acq := env.acquireResult
    let imageIndex := env.imageIndex
    if acq = VK_ERROR_OUT_OF_DATE_KHR then
      modify fun s => { s with swapchainDirty_ := true }
    else do
      if acq ≠ VK_SUCCESS ∧ acq ≠ VK_SUBOPTIMAL_KHR then
        VK_CHECK acq
      match s.commandBuffers_[imageIndex]? with
      | none => undef
      | some cmd =>
        call (.resetCommandBuffer cmd)
        VK_CHECK env.resetCommandBufferResult
        recordCommandBuffer env imageIndex
        VK_CHECK (← vkQueueSubmit cmd env.submitResult)
        call (.queuePresent s.queue_ s.renderFinished_ s.swapchain_ imageIndex)
        let pres := env.presentResult
        if pres = VK_ERROR_OUT_OF_DATE_KHR ∨ pres = VK_SUBOPTIMAL_KHR then
          modify fun s => { s with swapchainDirty_ := true }
        else
          VK_CHECK pres

/-- Lines 62-80. -/
def init (env : InitEnv) (nativeLayer : Handle) (width height : Nat) : VkM Bool := do
  let s ← get
  if s.initialized_ then
    pure true
  else do
    modify fun s => { s with width_ := max 1 width, height_ := max 1 height }
    createInstanceForMetalSurface env
    createSurfaceFromMetalLayer env nativeLayer
    pickPhysicalDevice env
    createDeviceAndQueues env
    let s ← get
    createSwapchain env.swapchain s.width_ s.height_
    createCommandResources env.commands
    createSyncObjects env.sync
    modify fun s => { s with initialized_ := true }
    pure true

/-- Lines 124-154. -/
def shutdown : VkM Unit := do
  let s ← get
  if !s.initialized_ then
    pure ()
  else do
    vkDeviceWaitIdle
    destroySyncObjects
    destroyCommandResources
    destroySwapchain
    let s ← get
    if s.device_ ≠ VK_NULL_HANDLE then
      call (.destroyDevice s.device_)
      modify fun s => { s with device_ := VK_NULL_HANDLE }
    let s ← get
    if s.surface_ ≠ VK_NULL_HANDLE then
      call (.destroySurface s.instance_ s.surface_)
      modify fun s => { s with surface_ := VK_NULL_HANDLE }
    let s ← get
    if s.instance_ ≠ VK_NULL_HANDLE then
      call (.destroyInstance s.instance_)
      modify fun s => { s with instance_ := VK_NULL_HANDLE }
    modify fun s => { s with initialized_ := false }

/-! ## Getters (header, lines 29-46) -/

def Renderer.instance (s : Renderer) : Handle := s.instance_

def Renderer.physicalDevice (s : Renderer) : Handle := s.physicalDevice_

def Renderer.device (s : Renderer) : Handle := s.device_

def Renderer.graphicsQueue (s : Renderer) : Handle := s.queue_

def Renderer.graphicsQueueFamilyIndex (s : Renderer) : Nat := s.queueFamilyIndex_

def Renderer.renderPass (s : Renderer) : Handle := s.renderPass_

def Renderer.commandPool (s : Renderer) : Handle := s.commandPool_

def Renderer.imageCount (s : Renderer) : Nat := s.swapchainImages_.length

def Renderer.minImageCount (s : Renderer) : Nat := s.swapchainMinImageCount_

/-! ## A driver that answers every call with success -/

/-- A surface with a caller-defined extent between (1,1) and (4096,4096),
2 to 3 images, opaque compositing. -/
def sampleCaps : VkSurfaceCapabilitiesKHR :=
  { minImageCount := 2, maxImageCount := 3
    currentExtent := ⟨0xFFFFFFFF, 0xFFFFFFFF⟩
    minImageExtent := ⟨1, 1⟩, maxImageExtent := ⟨4096, 4096⟩
    supportedTransforms := 1, currentTransform := 1, supportedCompositeAlpha := 1 }

/-- Every call succeeds; the swapchain has three images `base+1 .. base+3`. -/
def sampleSwapchainEnv (base : Nat) : SwapchainEnv :=
  { capsResult := VK_SUCCESS, caps := sampleCaps
    formatCountResult := VK_SUCCESS, formatsResult := VK_SUCCESS
    formats := [⟨37, 0⟩, ⟨44, 0⟩]
    createResult := VK_SUCCESS, swapchain := base
    images := [base + 1, base + 2, base + 3]
    imageCountResult := VK_SUCCESS, imagesResult := VK_SUCCESS
    viewResult := fun _ => VK_SUCCESS, view := fun i => base + 11 + i
    renderPassResult := VK_SUCCESS, renderPass := base + 20
    framebufferResult := fun _ => VK_SUCCESS, framebuffer := fun i => base + 21 + i }

/-- Every call succeeds. -/
def sampleCommandEnv (base : Nat) : CommandEnv :=
  { poolResult := VK_SUCCESS, pool := base + 30
    allocResult := VK_SUCCESS, buffer := fun i => base + 31 + i }

/-- One adapter with the swapchain extension and one graphics+present family. -/
def sampleInitEnv : InitEnv :=
  { instanceExtensions := [VK_KHR_SURFACE_EXTENSION_NAME, VK_EXT_METAL_SURFACE_EXTENSION_NAME]
    instanceResult := VK_SUCCESS, inst := 1
    surfaceResult := VK_SUCCESS, surface := 2
    deviceCountResult := VK_SUCCESS, devicesResult := VK_SUCCESS
    devices := [⟨3, [VK_KHR_SWAPCHAIN_EXTENSION_NAME], [⟨1, VK_SUCCESS, true⟩]⟩]
    deviceResult := VK_SUCCESS, device := 4, queue := 5
    swapchain := sampleSwapchainEnv 100
    commands := sampleCommandEnv 100
    sync := ⟨VK_SUCCESS, 6, VK_SUCCESS, 7, VK_SUCCESS, 8⟩ }

/-- A frame in which every call succeeds except that acquire and present
answer as given. -/
def sampleFrameEnv (base : Nat) (acquire present : VkResult) : FrameEnv :=
  { swapchain := sampleSwapchainEnv base
    commands := sampleCommandEnv base
    waitResult := VK_SUCCESS, resetResult := VK_SUCCESS
    acquireResult := acquire, imageIndex := 0
    resetCommandBufferResult := VK_SUCCESS
    beginResult := VK_SUCCESS, endResult := VK_SUCCESS
    submitResult := VK_SUCCESS, presentResult := present }

/-! ## Reasoning about outcomes -/

/-- Every call issued by `m`, however it ends, satisfies `P`. -/
def LogAll {α : Type} (P : Call → Prop) (m : VkM α) : Prop :=
  ∀ s, ∀ c ∈ (m.run s).log, P c

/-- When `m` returns from state `s`, the result, the state after and the calls
issued satisfy `Q`. -/
def wp {α : Type} (m : VkM α) (Q : α → Renderer → List Call → Prop) (s : Renderer) : Prop :=
  ∀ a s1 l, m.run s = .ok a s1 l → Q a s1 l

/-- The calls `destroySwapchain` issues from state `s`. -/
def destroySwapchainCalls (s : Renderer) : List Call :=
  (s.framebuffers_.filter fun fb => decide (fb ≠ VK_NULL_HANDLE)).map (Call.destroyFramebuffer s.device_) ++
  (if s.renderPass_ ≠ VK_NULL_HANDLE then [Call.destroyRenderPass s.device_ s.renderPass_] else []) ++
  (s.swapchainImageViews_.filter fun v => decide (v ≠ VK_NULL_HANDLE)).map (Call.destroyImageView s.device_) ++
  (if s.swapchain_ ≠ VK_NULL_HANDLE then [Call.destroySwapchain s.device_ s.swapchain_] else [])

/-- The state `destroySwapchain` leaves. -/
def destroySwapchainState (s : Renderer) : Renderer :=
  { s with framebuffers_ := [], renderPass_ := VK_NULL_HANDLE
           swapchainImageViews_ := [], swapchainImages_ := []
           swapchain_ := VK_NULL_HANDLE
           swapchainFormat_ := VK_FORMAT_UNDEFINED
           swapchainExtent_ := ⟨0, 0⟩
           swapchainMinImageCount_ := 2 }

/-- The creation parameters `createSwapchain` passes for a surface with
capabilities `caps` and the chosen format. -/
def swapchainCreateInfo (s : Renderer) (caps : VkSurfaceCapabilitiesKHR)
    (chosen : VkSurfaceFormatKHR) (width height : Nat) : VkSwapchainCreateInfoKHR :=
  { surface := s.surface_
    minImageCount := minImages caps
    imageFormat := chosen.format
    imageColorSpace := chosen.colorSpace
    imageExtent := extent caps width height
    preTransform := preTransform caps
    compositeAlpha := compositeAlpha caps
    presentMode := VK_PRESENT_MODE_FIFO_KHR
    oldSwapchain := VK_NULL_HANDLE }

/-! ## The two halves of `drawFrame` -/

/-- The body of `if( swapchainDirty_ )` in `drawFrame` (lines 663-675), entered
from state `s`. -/
def recreate (env : FrameEnv) (s : Renderer) : VkM Unit := do
  vkDeviceWaitIdle
  if !s.commandBuffers_.isEmpty then
    call (.freeCommandBuffers s.device_ s.commandPool_ s.commandBuffers_)
    modify fun s => { s with commandBuffers_ := [] }
  destroySwapchain
  createSwapchain env.swapchain s.width_ s.height_
  createCommandResources env.commands
  modify fun s => { s with swapchainDirty_ := false }

/-- The part of `drawFrame` after the dirty check (lines 678-724). -/
def frame (env : FrameEnv) : VkM Unit := do
  VK_CHECK (← vkWaitForFences env.waitResult)
  VK_CHECK (← vkResetFences env.resetResult)
  let s ← get
  call (.acquireNextImage s.device_ s.swapchain_ s.imageAvailable_)
  let acq := env.acquireResult
  let imageIndex := env.imageIndex
  if acq = VK_ERROR_OUT_OF_DATE_KHR then
    modify fun s => { s with swapchainDirty_ := true }
  else do
    if acq ≠ VK_SUCCESS ∧ acq ≠ VK_SUBOPTIMAL_KHR then
      VK_CHECK acq
    match s.commandBuffers_[imageIndex]? with
    | none => undef
    | some cmd =>
      call (.resetCommandBuffer cmd)
      VK_CHECK env.resetCommandBufferResult
      recordCommandBuffer env imageIndex
      VK_CHECK (← vkQueueSubmit cmd env.submitResult)
      call (.queuePresent s.queue_ s.renderFinished_ s.swapchain_ imageIndex)
      let pres := env.presentResult
      if pres = VK_ERROR_OUT_OF_DATE_KHR ∨ pres = VK_SUBOPTIMAL_KHR then
        modify fun s => { s with swapchainDirty_ := true }
      else
        VK_CHECK pres

/-- The wait on the in-flight fence. -/
def Call.isFenceWait : Call → Bool
  | .waitForFences _ _ => true
  | _ => false

/-- The creation of a swapchain object. -/
def Call.isCreateSwapchain : Call → Bool
  | .createSwapchain _ _ => true
  | _ => false

/-- The image acquire. -/
def Call.isAcquire : Call → Bool
  | .acquireNextImage _ _ _ => true
  | _ => false

/-- Command-buffer reset and recording, queue submit, queue present. -/
def Call.isRecordSubmitPresent : Call → Bool
  | .resetCommandBuffer _ => true
  | .beginCommandBuffer _ => true
  | .cmdBeginRenderPass _ _ _ _ => true
  | .recordCallback _ _ => true
  | .cmdEndRenderPass _ => true
  | .endCommandBuffer _ => true
  | .queueSubmit _ _ _ _ _ => true
  | .queuePresent _ _ _ _ => true
  | _ => false

/-- The calls of the dirty path: idle-wait, freeing and destruction of the
swapchain resources, surface queries and creation of the new resources. -/
def Call.isRecreation : Call → Bool
  | .deviceWaitIdle _ => true
  | .freeCommandBuffers _ _ _ => true
  | .destroyFramebuffer _ _ => true
  | .destroyRenderPass _ _ => true
  | .destroyImageView _ _ => true
  | .destroySwapchain _ _ => true
  | .getPhysicalDeviceSurfaceCapabilities _ _ => true
  | .getPhysicalDeviceSurfaceFormats _ _ => true
  | .createSwapchain _ _ => true
  | .getSwapchainImages _ _ => true
  | .createImageView _ _ _ => true
  | .createRenderPass _ _ => true
  | .createFramebuffer _ _ _ _ => true
  | .createCommandPool _ _ => true
  | .allocateCommandBuffers _ _ _ => true
  | _ => false

/-- The renderer right after a successful `init` for an 800x600 layer. -/
def sampleRenderer : Renderer :=
  match (init sampleInitEnv 9 800 600).run {} with
  | .ok _ s _ => s
  | _ => {}

/-- The renderer after `init` and one `drawFrame` whose acquire answered
out-of-date. -/
def staleRenderer : Renderer :=
  match (drawFrame (sampleFrameEnv 200 VK_ERROR_OUT_OF_DATE_KHR VK_SUCCESS)).run sampleRenderer with
  | .ok _ s _ => s
  | _ => {}

/-- Whether the outcome is the thread blocked forever. -/
def Res.isHang {α : Type} : Res α → Bool
  | .hang _ => true
  | _ => false

/-! ## Negotiation: format, extent, image count, composite alpha -/

/-- The value of the interval `[lo, hi]` nearest to `v`: what "clamp" means in
the specification. -/
def clampInto (v lo hi : Nat) : Nat := min (max v lo) hi

/-- The first entry of `formats` with the given format, the way the
specification words the preference. -/
def firstWithFormat (fmt : Nat) (formats : List VkSurfaceFormatKHR) : Option VkSurfaceFormatKHR :=
  formats.find? fun f => f.format = fmt

/-! ## The driver calls with driver-side effects, in closed form -/

/-- The state after a fence reset answering `r`. -/
def afterResetFences (r : VkResult) (s : Renderer) : Renderer :=
  { s with gpu := { s.gpu with
      inFlight := if r = VK_SUCCESS then .unsignaledNoSubmit else s.gpu.inFlight } }

/-- The state after a submit with the in-flight fence answering `r`. -/
def afterQueueSubmit (r : VkResult) (s : Renderer) : Renderer :=
  { s with gpu := { s.gpu with
      inFlight := if r = VK_SUCCESS then .unsignaledPending else s.gpu.inFlight } }

/-- The state after a device idle-wait. -/
def afterDeviceWaitIdle (s : Renderer) : Renderer :=
  { s with gpu := { s.gpu with
      inFlight := if s.gpu.inFlight = .unsignaledPending then .signaled else s.gpu.inFlight } }

/-- The calls `recordCommandBuffer` issues for command buffer `cmd` and
framebuffer `fb`. -/
def recordCalls (s : Renderer) (cmd fb : Handle) : List Call :=
  [Call.beginCommandBuffer cmd, Call.cmdBeginRenderPass cmd s.renderPass_ fb s.swapchainExtent_] ++
  (match s.recordCallback_ with
   | some cb => [Call.recordCallback cb cmd]
   | none => []) ++
  [Call.cmdEndRenderPass cmd, Call.endCommandBuffer cmd]

/-- The part of `drawFrame` after a successful or suboptimal acquire (lines
693-724); `s` is the renderer at the acquire. -/
def submitAndPresent (env : FrameEnv) (s : Renderer) : VkM Unit :=
  match s.commandBuffers_[env.imageIndex]? with
  | none => undef
  | some cmd => do
    call (.resetCommandBuffer cmd)
    VK_CHECK env.resetCommandBufferResult
    recordCommandBuffer env env.imageIndex
    VK_CHECK (← vkQueueSubmit cmd env.submitResult)
    call (.queuePresent s.queue_ s.renderFinished_ s.swapchain_ env.imageIndex)
    let pres := env.presentResult
    if pres = VK_ERROR_OUT_OF_DATE_KHR ∨ pres = VK_SUBOPTIMAL_KHR then
      modify fun s => { s with swapchainDirty_ := true }
    else
      VK_CHECK pres

/-! ## Teardown in closed form -/

/-- The calls `destroySyncObjects` issues from state `s`. -/
def destroySyncObjectsCalls (s : Renderer) : List Call :=
  (if s.inFlight_ ≠ VK_NULL_HANDLE then [Call.destroyFence s.device_ s.inFlight_] else []) ++
  (if s.renderFinished_ ≠ VK_NULL_HANDLE then
    [Call.destroySemaphore s.device_ s.renderFinished_] else []) ++
  (if s.imageAvailable_ ≠ VK_NULL_HANDLE then
    [Call.destroySemaphore s.device_ s.imageAvailable_] else [])

/-- The calls `destroyCommandResources` issues from state `s`. -/
def destroyCommandResourcesCalls (s : Renderer) : List Call :=
  (if !s.commandBuffers_.isEmpty && s.commandPool_ ≠ VK_NULL_HANDLE then
    [Call.freeCommandBuffers s.device_ s.commandPool_ s.commandBuffers_] else []) ++
  (if s.commandPool_ ≠ VK_NULL_HANDLE then
    [Call.destroyCommandPool s.device_ s.commandPool_] else [])

/-- The calls of lines 135-151 of `shutdown`. -/
def destroyDeviceSurfaceInstanceCalls (s : Renderer) : List Call :=
  (if s.device_ ≠ VK_NULL_HANDLE then [Call.destroyDevice s.device_] else []) ++
  (if s.surface_ ≠ VK_NULL_HANDLE then [Call.destroySurface s.instance_ s.surface_] else []) ++
  (if s.instance_ ≠ VK_NULL_HANDLE then [Call.destroyInstance s.instance_] else [])

/-- The state `shutdown` leaves when entered on an initialized renderer. -/
def shutdownState (s : Renderer) : Renderer :=
  { destroySwapchainState s with
      inFlight_ := VK_NULL_HANDLE
      renderFinished_ := VK_NULL_HANDLE
      imageAvailable_ := VK_NULL_HANDLE
      commandBuffers_ := if s.commandPool_ ≠ VK_NULL_HANDLE then [] else s.commandBuffers_
      commandPool_ := VK_NULL_HANDLE
      device_ := VK_NULL_HANDLE
      surface_ := VK_NULL_HANDLE
      instance_ := VK_NULL_HANDLE
      initialized_ := false
      gpu := (afterDeviceWaitIdle s).gpu }

/-- The calls `shutdown` issues when entered on an initialized renderer. -/
def shutdownCalls (s : Renderer) : List Call :=
  [Call.deviceWaitIdle s.device_] ++ destroySyncObjectsCalls s ++
    destroyCommandResourcesCalls s ++ destroySwapchainCalls s ++
    destroyDeviceSurfaceInstanceCalls s

/-! ## Claims about init, shutdown and the resource lists -/

/-- The state an outcome returned with, if it returned. -/
def Res.state? {α : Type} : Res α → Option Renderer
  | .ok _ s _ => some s
  | _ => none

/-- The resource lists are index-aligned with the images of the current
swapchain. -/
def Aligned (s : Renderer) : Prop :=
  s.swapchainImageViews_.length = s.swapchainImages_.length ∧
  s.framebuffers_.length = s.swapchainImages_.length ∧
  s.commandBuffers_.length = s.swapchainImages_.length ∧
  s.swapchainImages_.length = s.gpu.images.length

/-- The states a renderer can be in after a successful `init` followed by
`resize` calls and `drawFrame` calls that returned. -/
inductive Reachable : Renderer → Prop where
  | init (env : InitEnv) (nativeLayer width height : Nat) (s : Renderer) (l : List Call) :
      (init env nativeLayer width height).run {} = .ok true s l → Reachable s
  | resize (width height : Nat) (s s1 : Renderer) (l : List Call) :
      Reachable s → (resize width height).run s = .ok () s1 l → Reachable s1
  | drawFrame (env : FrameEnv) (s s1 : Renderer) (l : List Call) :
      Reachable s → (drawFrame env).run s = .ok () s1 l → Reachable s1

/-- The calls of the sample `init`. -/
def sampleInitCalls : List Call := ((init sampleInitEnv 9 800 600).run {}).log

/-- The state after `init`, `resize(0, 480)`, a `drawFrame` that recreates the
swapchain with three new images and presents. -/
def resizedRenderer : Renderer :=
  match (drawFrame (sampleFrameEnv 200 VK_SUCCESS VK_SUCCESS)).run
      { sampleRenderer with width_ := 1, height_ := 480, swapchainDirty_ := true } with
  | .ok _ s _ => s
  | _ => {}

/-- The renderer after `createSwapchain` alone, with the sample driver. -/
def swapchainOnly : Renderer :=
  match (createSwapchain (sampleSwapchainEnv 100) 800 600).run {} with
  | .ok _ s _ => s
  | _ => {}

/-- The calls of `createSwapchain` alone, with the sample driver. -/
def swapchainOnlyCalls : List Call :=
  ((createSwapchain (sampleSwapchainEnv 100) 800 600).run {}).log

/-- A surface that allows exactly one image. -/
def singleImageCaps : VkSurfaceCapabilitiesKHR :=
  { sampleCaps with minImageCount := 1, maxImageCount := 1 }

/-! ## Resize followed by frames -/

/-- A queue family that supports both graphics operations and presentation to
the surface. -/
def QueueFamily.suitable (q : QueueFamily) : Bool :=
  decide (q.queueFlags &&& VK_QUEUE_GRAPHICS_BIT ≠ 0) && q.presentSupported

/-- An adapter that supports the presentation extension (the name
`VK_KHR_swapchain` is among the extension names the driver enumerates for it)
and has a suitable queue family. -/
def PhysicalDevice.qualifies (pd : PhysicalDevice) : Bool :=
  decide (VK_KHR_SWAPCHAIN_EXTENSION_NAME ∈ pd.extensions) &&
    pd.queueFamilies.any QueueFamily.suitable

/-- The index of the first suitable family of a list. -/
def lowestSuitable : List QueueFamily → Option Nat
  | [] => none
  | q :: rest => if q.suitable then some 0 else (lowestSuitable rest).map (· + 1)

/-- The handle of the first qualifying adapter of a list, with the index of its
first suitable family. -/
def selection : List PhysicalDevice → Option (Handle × Nat)
  | [] => none
  | pd :: rest =>
    if pd.qualifies then (lowestSuitable pd.queueFamilies).map fun i => (pd.handle, i)
    else selection rest

/-- The queries `pickPhysicalDevice` issues. -/
def Call.isAdapterQuery : Call → Bool
  | .enumeratePhysicalDevices _ => true
  | .enumerateDeviceExtensionProperties _ => true
  | .getPhysicalDeviceQueueFamilyProperties _ => true
  | .getPhysicalDeviceSurfaceSupport _ _ _ => true
  | _ => false

/-- Three adapters: the first lacks the swapchain extension, the second has it
but no family with both graphics and present support, the third qualifies with
family 2 as its first suitable family. -/
def sampleAdapters : List PhysicalDevice :=
  [⟨31, ["VK_KHR_maintenance1"], [⟨1, VK_SUCCESS, true⟩]⟩,
   ⟨32, [VK_KHR_SWAPCHAIN_EXTENSION_NAME], [⟨1, VK_SUCCESS, false⟩, ⟨2, VK_SUCCESS, true⟩]⟩,
   ⟨33, ["VK_KHR_maintenance1", VK_KHR_SWAPCHAIN_EXTENSION_NAME],
     [⟨2, VK_SUCCESS, true⟩, ⟨3, VK_SUCCESS, false⟩, ⟨7, VK_SUCCESS, true⟩, ⟨1, VK_SUCCESS, true⟩]⟩,
   ⟨34, [VK_KHR_SWAPCHAIN_EXTENSION_NAME], [⟨1, VK_SUCCESS, true⟩]⟩]

/-- The sample driver with the adapters `sampleAdapters`. -/
def adapterEnv : InitEnv := { sampleInitEnv with devices := sampleAdapters }

/-- The calls of a `createSwapchain` that returns, entered in state `s`. -/
def createSwapchainCalls (env : SwapchainEnv) (chosen : VkSurfaceFormatKHR)
    (width height : Nat) (s : Renderer) : List Call :=
  [Call.getPhysicalDeviceSurfaceCapabilities s.physicalDevice_ s.surface_,
   Call.getPhysicalDeviceSurfaceFormats s.physicalDevice_ s.surface_,
   Call.getPhysicalDeviceSurfaceFormats s.physicalDevice_ s.surface_,
   Call.createSwapchain s.device_ (swapchainCreateInfo s env.caps chosen width height),
   Call.getSwapchainImages s.device_ env.swapchain,
   Call.getSwapchainImages s.device_ env.swapchain] ++
  ((List.range env.images.length).map fun i =>
    Call.createImageView s.device_ (env.images.getD i 0) chosen.format) ++
  (if s.renderPass_ ≠ VK_NULL_HANDLE then []
   else [Call.createRenderPass s.device_ chosen.format]) ++
  ((List.range env.images.length).map fun i =>
    Call.createFramebuffer s.device_
      (if s.renderPass_ ≠ VK_NULL_HANDLE then s.renderPass_ else env.renderPass)
      (env.view i) (extent env.caps width height))

/-- The state a `createSwapchain` that returns leaves, entered in state `s`. -/
def createSwapchainState (env : SwapchainEnv) (chosen : VkSurfaceFormatKHR)
    (width height : Nat) (s : Renderer) : Renderer :=
  { s with
      swapchain_ := env.swapchain
      gpu := { s.gpu with images := env.images }
      swapchainFormat_ := chosen.format
      swapchainExtent_ := extent env.caps width height
      swapchainMinImageCount_ := minImages env.caps
      swapchainImages_ := env.images
      swapchainImageViews_ := (List.range env.images.length).map env.view
      renderPass_ := if s.renderPass_ ≠ VK_NULL_HANDLE then s.renderPass_ else env.renderPass
      framebuffers_ := (List.range env.images.length).map env.framebuffer }

/-! ## Initialisation in closed form -/

/-- The state `init` leaves when it returns, entered on the renderer `s` that
is not initialized; `pd` and `i` are the adapter and family selected, `chosen`
the surface format. -/
def initState (env : InitEnv) (chosen : VkSurfaceFormatKHR) (pd : Handle) (i : Nat)
    (width height : Nat) (s : Renderer) : Renderer :=
  { s with
      initialized_ := true
      width_ := max 1 width
      height_ := max 1 height
      instance_ := env.inst
      surface_ := env.surface
      physicalDevice_ := pd
      queueFamilyIndex_ := i
      device_ := env.device
      queue_ := env.queue
      swapchain_ := env.swapchain.swapchain
      gpu := ⟨.signaled, env.swapchain.images⟩
      swapchainFormat_ := chosen.format
      swapchainExtent_ := extent env.swapchain.caps (max 1 width) (max 1 height)
      swapchainMinImageCount_ := minImages env.swapchain.caps
      swapchainImages_ := env.swapchain.images
      swapchainImageViews_ := (List.range env.swapchain.images.length).map env.swapchain.view
      renderPass_ :=
        if s.renderPass_ ≠ VK_NULL_HANDLE then s.renderPass_ else env.swapchain.renderPass
      framebuffers_ := (List.range env.swapchain.images.length).map env.swapchain.framebuffer
      commandPool_ := if s.commandPool_ = VK_NULL_HANDLE then env.commands.pool else s.commandPool_
      commandBuffers_ := (List.range env.swapchain.images.length).map env.commands.buffer
      imageAvailable_ := env.sync.imageAvailable
      renderFinished_ := env.sync.renderFinished
      inFlight_ := env.sync.fence }

/-- The instance extensions `createInstanceForMetalSurface` enables. -/
def enabledInstanceExtensions (env : InitEnv) : List String :=
  [VK_KHR_SURFACE_EXTENSION_NAME, VK_EXT_METAL_SURFACE_EXTENSION_NAME] ++
    (if hasExtension env.instanceExtensions VK_KHR_PORTABILITY_ENUMERATION_EXTENSION_NAME then
      [VK_KHR_PORTABILITY_ENUMERATION_EXTENSION_NAME] else [])

/-- The instance creation flags `createInstanceForMetalSurface` passes. -/
def instanceFlags (env : InitEnv) : Nat :=
  if hasExtension (enabledInstanceExtensions env) VK_KHR_PORTABILITY_ENUMERATION_EXTENSION_NAME then
    VK_INSTANCE_CREATE_ENUMERATE_PORTABILITY_BIT_KHR else 0

/-- The device extensions `createDeviceAndQueues` enables on adapter `pd`. -/
def enabledDeviceExtensions (env : InitEnv) (pd : Handle) : List String :=
  [VK_KHR_SWAPCHAIN_EXTENSION_NAME] ++
    (if hasExtension (deviceExtensions env pd) kPortabilitySubset then [kPortabilitySubset] else [])

/-- The calls of an `init` that returns, entered on the renderer `s` that is
not initialized: instance and surface creation, the adapter queries `lpick`,
device creation, then the calls of `createSwapchain`, `createCommandResources`
and `createSyncObjects`. -/
def initCalls (env : InitEnv) (chosen : VkSurfaceFormatKHR) (pd : Handle) (i : Nat)
    (nativeLayer width height : Nat) (s : Renderer) (lpick : List Call) : List Call :=
  [Call.enumerateInstanceExtensionProperties, Call.enumerateInstanceExtensionProperties,
   Call.createInstance (enabledInstanceExtensions env) (instanceFlags env),
   Call.createMetalSurface env.inst nativeLayer] ++ lpick ++
  [Call.enumerateDeviceExtensionProperties pd, Call.enumerateDeviceExtensionProperties pd,
   Call.createDevice pd i (enabledDeviceExtensions env pd), Call.getDeviceQueue env.device i] ++
  createSwapchainCalls env.swapchain chosen (max 1 width) (max 1 height)
    { s with surface_ := env.surface, physicalDevice_ := pd, device_ := env.device } ++
  (if s.commandPool_ = VK_NULL_HANDLE then [Call.createCommandPool env.device i] else []) ++
  [Call.allocateCommandBuffers env.device
     (if s.commandPool_ = VK_NULL_HANDLE then env.commands.pool else s.commandPool_)
     env.swapchain.images.length,
   Call.createSemaphore env.device, Call.createSemaphore env.device,
   Call.createFence env.device true]

/-! ## The life of a renderer object -/

/-- The states a renderer object can be in: freshly constructed, or after any
sequence of calls of the public member functions `init`, `resize`,
`setRecordCallback`, `drawFrame` and `shutdown` that returned. -/
inductive Lifetime : Renderer → Prop where
  | fresh : Lifetime {}
  | init (env : InitEnv) (nativeLayer width height : Nat) (s s1 : Renderer) (r : Bool)
      (l : List Call) :
      Lifetime s → (init env nativeLayer width height).run s = .ok r s1 l → Lifetime s1
  | resize (width height : Nat) (s s1 : Renderer) (l : List Call) :
      Lifetime s → (resize width height).run s = .ok () s1 l → Lifetime s1
  | setRecordCallback (cb : Option Nat) (s s1 : Renderer) (l : List Call) :
      Lifetime s → (setRecordCallback cb).run s = .ok () s1 l → Lifetime s1
  | drawFrame (env : FrameEnv) (s s1 : Renderer) (l : List Call) :
      Lifetime s → (drawFrame env).run s = .ok () s1 l → Lifetime s1
  | shutdown (s s1 : Renderer) (l : List Call) :
      Lifetime s → shutdown.run s = .ok () s1 l → Lifetime s1

/-! ## A frame that reaches the present -/

/-- The present. -/
def Call.isPresent : Call → Bool
  | .queuePresent _ _ _ _ => true
  | _ => false

/-- The calls of the part of `drawFrame` after the dirty check when it gets as
far as the present, entered in state `s` with command buffer `cmd` and
framebuffer `fb` at the acquired index: fence wait, fence reset, acquire,
command-buffer reset, the recording, submit, present. -/
def frameCalls (s : Renderer) (cmd fb : Handle) (imageIndex : Nat) : List Call :=
  [Call.waitForFences s.device_ s.inFlight_, Call.resetFences s.device_ s.inFlight_,
   Call.acquireNextImage s.device_ s.swapchain_ s.imageAvailable_,
   Call.resetCommandBuffer cmd] ++ recordCalls s cmd fb ++
  [Call.queueSubmit s.queue_ cmd s.imageAvailable_ s.renderFinished_ s.inFlight_,
   Call.queuePresent s.queue_ s.renderFinished_ s.swapchain_ imageIndex]

/-- How `drawFrame` ends after a present that answered `r`, reached in state
`s` after the calls `l`: lines 719-724. -/
def afterPresent (r : VkResult) (s : Renderer) (l : List Call) : Res Unit :=
  if r = VK_ERROR_OUT_OF_DATE_KHR ∨ r = VK_SUBOPTIMAL_KHR then
    .ok () { s with swapchainDirty_ := true } l
  else if r = VK_SUCCESS then .ok () s l
  else .abort l

/-- Every step of the part of `drawFrame` after the dirty check, up to the
present, succeeds from state `s`: the fence wait completes, the driver answers
success to the wait, the fence reset, the command-buffer reset, the begin and
end of the recording and the submit, the acquire answers success or suboptimal,
and the acquired index has the command buffer `cmd` and the framebuffer `fb`. -/
def FrameReady (env : FrameEnv) (s : Renderer) (cmd fb : Handle) : Prop :=
  s.gpu.inFlight ≠ .unsignaledNoSubmit ∧
  env.waitResult = VK_SUCCESS ∧ env.resetResult = VK_SUCCESS ∧
  (env.acquireResult = VK_SUCCESS ∨ env.acquireResult = VK_SUBOPTIMAL_KHR) ∧
  s.commandBuffers_[env.imageIndex]? = some cmd ∧
  env.resetCommandBufferResult = VK_SUCCESS ∧ env.beginResult = VK_SUCCESS ∧
  s.framebuffers_[env.imageIndex]? = some fb ∧
  env.endResult = VK_SUCCESS ∧ env.submitResult = VK_SUCCESS

/-- The function `drawFrame`, entered in state `s` on an initialized renderer,
gets to the fence wait in state `sp` after the calls `lp`: either the dirty
flag is set and the dirty path returns with `sp` and `lp`, or the flag is clear
and nothing happened yet. -/
def FrameEntry (env : FrameEnv) (s sp : Renderer) (lp : List Call) : Prop :=
  s.initialized_ = true ∧
  ((s.swapchainDirty_ = true ∧ (recreate env s).run s = .ok () sp lp) ∨
   (s.swapchainDirty_ = false ∧ sp = s ∧ lp = []))

/-! ## The record callback and the render pass -/

/-- Scanning a call log: the command buffer whose render pass is begun and not
yet ended after the call `c`, when it was `st` before. -/
def passStep (st : Option Handle) : Call → Option Handle
  | .cmdBeginRenderPass cmd _ _ _ => some cmd
  | .cmdEndRenderPass _ => none
  | _ => st

/-- An invocation of the record callback is allowed only with the command
buffer whose render pass is begun and not yet ended; any other call is
allowed. -/
def callbackAllowed (st : Option Handle) : Call → Bool
  | .recordCallback _ cmd => decide (st = some cmd)
  | _ => true

/-- Every invocation of the record callback in the log lies between a
begin-render-pass on its command buffer and the end-render-pass that follows
it; `st` is the open render pass at the start of the log. -/
def callbacksInside (st : Option Handle) : List Call → Bool
  | [] => true
  | c :: rest => callbackAllowed st c && callbacksInside (passStep st c) rest

/-- The open render pass after a call log. -/
def openPass (st : Option Handle) (l : List Call) : Option Handle :=
  l.foldl passStep st

/-- However `m` ends, every callback invocation it issued was inside a render
pass that `m` began, and `m` left no render pass open. -/
def Bracketed {α : Type} (m : VkM α) : Prop :=
  ∀ s, callbacksInside none (m.run s).log = true ∧ openPass none (m.run s).log = none

/-! ## The dirty path in closed form -/

/-- The kinds of object that `init` creates and `shutdown` destroys; the
command buffers allocated by one call count as one object. -/
inductive Kind where
  | vkInstance
  | vkSurface
  | vkDevice
  | vkSwapchain
  | vkImageView
  | vkRenderPass
  | vkFramebuffer
  | vkCommandPool
  | vkCommandBuffers
  | vkSemaphore
  | vkFence
  deriving DecidableEq, Repr

/-- The kind of object a call creates, if it creates one. -/
def Call.creates : Call → Option Kind
  | .createInstance _ _ => some .vkInstance
  | .createMetalSurface _ _ => some .vkSurface
  | .createDevice _ _ _ => some .vkDevice
  | .createSwapchain _ _ => some .vkSwapchain
  | .createImageView _ _ _ => some .vkImageView
  | .createRenderPass _ _ => some .vkRenderPass
  | .createFramebuffer _ _ _ _ => some .vkFramebuffer
  | .createCommandPool _ _ => some .vkCommandPool
  | .allocateCommandBuffers _ _ _ => some .vkCommandBuffers
  | .createSemaphore _ => some .vkSemaphore
  | .createFence _ _ => some .vkFence
  | _ => none

/-- The kind of object a call destroys, if it destroys one. -/
def Call.destroys : Call → Option Kind
  | .destroyInstance _ => some .vkInstance
  | .destroySurface _ _ => some .vkSurface
  | .destroyDevice _ => some .vkDevice
  | .destroySwapchain _ _ => some .vkSwapchain
  | .destroyImageView _ _ => some .vkImageView
  | .destroyRenderPass _ _ => some .vkRenderPass
  | .destroyFramebuffer _ _ => some .vkFramebuffer
  | .destroyCommandPool _ _ => some .vkCommandPool
  | .freeCommandBuffers _ _ _ => some .vkCommandBuffers
  | .destroySemaphore _ _ => some .vkSemaphore
  | .destroyFence _ _ => some .vkFence
  | _ => none

/-- The framebuffer a call destroys, if it destroys one. -/
def Call.destroyedFramebuffer : Call → Option Handle
  | .destroyFramebuffer _ fb => some fb
  | _ => none

/-- The image view a call destroys, if it destroys one. -/
def Call.destroyedImageView : Call → Option Handle
  | .destroyImageView _ view => some view
  | _ => none

/-- The driver returns a non-null handle for every object it creates and the
swapchain has at least one image, as Vulkan guarantees for calls that answer
success. -/
def InitEnv.valid (env : InitEnv) : Prop :=
  env.inst ≠ VK_NULL_HANDLE ∧ env.surface ≠ VK_NULL_HANDLE ∧ env.device ≠ VK_NULL_HANDLE ∧
  env.swapchain.swapchain ≠ VK_NULL_HANDLE ∧ env.swapchain.images ≠ [] ∧
  (∀ i, i < env.swapchain.images.length → env.swapchain.view i ≠ VK_NULL_HANDLE) ∧
  env.swapchain.renderPass ≠ VK_NULL_HANDLE ∧
  (∀ i, i < env.swapchain.images.length → env.swapchain.framebuffer i ≠ VK_NULL_HANDLE) ∧
  env.commands.pool ≠ VK_NULL_HANDLE ∧
  env.sync.imageAvailable ≠ VK_NULL_HANDLE ∧ env.sync.renderFinished ≠ VK_NULL_HANDLE ∧
  env.sync.fence ≠ VK_NULL_HANDLE

/-- The kinds of the objects `shutdown` destroys after `init` for a swapchain
of `n` images, in the order of the destroy calls. -/
def teardownKinds (n : Nat) : List Kind :=
  [.vkFence, .vkSemaphore, .vkSemaphore, .vkCommandBuffers, .vkCommandPool] ++
  List.replicate n .vkFramebuffer ++ [.vkRenderPass] ++ List.replicate n .vkImageView ++
  [.vkSwapchain, .vkDevice, .vkSurface, .vkInstance]

/-- The calls of the `shutdown` that follows an `init` on a fresh renderer with
a driver that returned valid handles: the device idle-wait, then the destroy
calls. -/
def teardownCalls (env : InitEnv) : List Call :=
  [Call.deviceWaitIdle env.device,
   Call.destroyFence env.device env.sync.fence,
   Call.destroySemaphore env.device env.sync.renderFinished,
   Call.destroySemaphore env.device env.sync.imageAvailable,
   Call.freeCommandBuffers env.device env.commands.pool
     ((List.range env.swapchain.images.length).map env.commands.buffer),
   Call.destroyCommandPool env.device env.commands.pool] ++
  ((List.range env.swapchain.images.length).map fun i =>
    Call.destroyFramebuffer env.device (env.swapchain.framebuffer i)) ++
  [Call.destroyRenderPass env.device env.swapchain.renderPass] ++
  ((List.range env.swapchain.images.length).map fun i =>
    Call.destroyImageView env.device (env.swapchain.view i)) ++
  [Call.destroySwapchain env.device env.swapchain.swapchain,
   Call.destroyDevice env.device,
   Call.destroySurface env.inst env.surface,
   Call.destroyInstance env.inst]

/-! # Theorems -/

variable {α β : Type}

/-! ## Running sequenced code -/

@[simp] theorem Res.prepend_nil (r : Res α) : r.prepend [] = r := by
  cases r <;> rfl

@[simp] theorem Res.prepend_prepend (l1 l2 : List Call) (r : Res α) :
    (r.prepend l2).prepend l1 = r.prepend (l1 ++ l2) := by
  cases r <;> simp [Res.prepend]

@[simp] theorem Res.log_prepend (l : List Call) (r : Res α) :
    (r.prepend l).log = l ++ r.log := by
  cases r <;> rfl

@[simp] theorem Res.prepend_ok (l l2 : List Call) (a : α) (s : Renderer) :
    (Res.ok a s l2).prepend l = .ok a s (l ++ l2) := rfl

@[simp] theorem Res.prepend_abort (l l2 : List Call) :
    (Res.abort l2 : Res α).prepend l = .abort (l ++ l2) := rfl

@[simp] theorem Res.prepend_hang (l l2 : List Call) :
    (Res.hang l2 : Res α).prepend l = .hang (l ++ l2) := rfl

@[simp] theorem Res.prepend_undef (l l2 : List Call) :
    (Res.undef l2 : Res α).prepend l = .undef (l ++ l2) := rfl

@[simp] theorem Res.bind_ok (a : α) (s : Renderer) (l : List Call) (f : α → Renderer → Res β) :
    (Res.ok a s l).bind f = (f a s).prepend l := rfl

@[simp] theorem Res.bind_abort (l : List Call) (f : α → Renderer → Res β) :
    (Res.abort l : Res α).bind f = .abort l := rfl

@[simp] theorem Res.bind_hang (l : List Call) (f : α → Renderer → Res β) :
    (Res.hang l : Res α).bind f = .hang l := rfl

@[simp] theorem Res.bind_undef (l : List Call) (f : α → Renderer → Res β) :
    (Res.undef l : Res α).bind f = .undef l := rfl

@[simp] theorem Res.log_ok (a : α) (s : Renderer) (l : List Call) : (Res.ok a s l).log = l := rfl

@[simp] theorem Res.log_abort (l : List Call) : (Res.abort l : Res α).log = l := rfl

@[simp] theorem Res.log_hang (l : List Call) : (Res.hang l : Res α).log = l := rfl

@[simp] theorem Res.log_undef (l : List Call) : (Res.undef l : Res α).log = l := rfl

@[simp] theorem run_pure (a : α) (s : Renderer) : (pure a : VkM α).run s = .ok a s [] := rfl

@[simp] theorem run_bind (m : VkM α) (f : α → VkM β) (s : Renderer) :
    (m >>= f).run s = (m.run s).bind fun a s1 => (f a).run s1 := rfl

@[simp] theorem run_get (s : Renderer) : get.run s = .ok s s [] := rfl

@[simp] theorem run_modify (f : Renderer → Renderer) (s : Renderer) :
    (modify f).run s = .ok () (f s) [] := rfl

@[simp] theorem run_call (c : Call) (s : Renderer) : (call c).run s = .ok () s [c] := rfl

@[simp] theorem run_abort (s : Renderer) : (abort : VkM α).run s = .abort [] := rfl

@[simp] theorem run_hang (s : Renderer) : (hang : VkM α).run s = .hang [] := rfl

@[simp] theorem run_undef (s : Renderer) : (undef : VkM α).run s = .undef [] := rfl

@[simp] theorem run_ite (c : Prop) [Decidable c] (m1 m2 : VkM α) (s : Renderer) :
    (if c then m1 else m2).run s = if c then m1.run s else m2.run s := by
  split <;> rfl

theorem run_VK_CHECK (r : VkResult) (s : Renderer) :
    (VK_CHECK r).run s = if r = VK_SUCCESS then .ok () s [] else .abort [] := by
  unfold VK_CHECK
  by_cases h : r = VK_SUCCESS <;> simp [h]

@[simp] theorem run_VK_CHECK_success (s : Renderer) :
    (VK_CHECK VK_SUCCESS).run s = .ok () s [] := by
  simp [run_VK_CHECK]

/-- The calls of a sequence: those of the first part, then, when it returned,
those of the second. -/
theorem Res.log_bind (r : Res α) (f : α → Renderer → Res β) :
    (r.bind f).log =
      match r with
      | .ok a s1 l1 => l1 ++ (f a s1).log
      | .abort l => l
      | .hang l => l
      | .undef l => l := by
  cases r <;> simp

/-- A sequence returned exactly when both parts did. -/
theorem Res.bind_eq_ok {r : Res α} {f : α → Renderer → Res β} {b : β} {s2 : Renderer}
    {l : List Call} (h : r.bind f = .ok b s2 l) :
    ∃ a s1 l1 l2, r = .ok a s1 l1 ∧ f a s1 = .ok b s2 l2 ∧ l = l1 ++ l2 := by
  cases r with
  | ok a s1 l1 =>
    simp only [Res.bind_ok] at h
    cases hf : f a s1 with
    | ok b2 s3 l2 =>
      rw [hf] at h
      simp only [Res.prepend_ok, Res.ok.injEq] at h
      obtain ⟨rfl, rfl, rfl⟩ := h
      exact ⟨a, s1, l1, l2, rfl, hf, rfl⟩
    | abort l2 => rw [hf] at h; simp at h
    | hang l2 => rw [hf] at h; simp at h
    | undef l2 => rw [hf] at h; simp at h
  | abort l1 => simp at h
  | hang l1 => simp at h
  | undef l1 => simp at h

theorem forEach_nil (body : α → VkM Unit) : forEach body [] = pure () := rfl

theorem forEach_cons (body : α → VkM Unit) (x : α) (rest : List α) :
    forEach body (x :: rest) = (body x >>= fun _ => forEach body rest) := rfl

theorem LogAll.pure {P : Call → Prop} (a : α) : LogAll P (pure a : VkM α) := by
  intro s c hc
  simp at hc

theorem LogAll.bind {P : Call → Prop} {m : VkM α} {f : α → VkM β}
    (hm : LogAll P m) (hf : ∀ a, LogAll P (f a)) : LogAll P (m >>= f) := by
  intro s c hc
  rw [run_bind, Res.log_bind] at hc
  have h1 := hm s
  cases hr : m.run s with
  | ok a s1 l1 =>
    rw [hr] at hc h1
    simp only [List.mem_append] at hc
    rcases hc with hc | hc
    · exact h1 c hc
    · exact hf a s1 c hc
  | abort l1 => rw [hr] at hc h1; exact h1 c hc
  | hang l1 => rw [hr] at hc h1; exact h1 c hc
  | undef l1 => rw [hr] at hc h1; exact h1 c hc

theorem LogAll.get {P : Call → Prop} : LogAll P get := by
  intro s c hc
  simp at hc

theorem LogAll.modify {P : Call → Prop} (f : Renderer → Renderer) : LogAll P (modify f) := by
  intro s c hc
  simp at hc

theorem LogAll.call {P : Call → Prop} {c : Call} (h : P c) : LogAll P (call c) := by
  intro s c2 hc
  simp at hc
  rw [hc]
  exact h

theorem LogAll.abort {P : Call → Prop} : LogAll P (abort : VkM α) := by
  intro s c hc
  simp at hc

theorem LogAll.hang {P : Call → Prop} : LogAll P (hang : VkM α) := by
  intro s c hc
  simp at hc

theorem LogAll.undef {P : Call → Prop} : LogAll P (undef : VkM α) := by
  intro s c hc
  simp at hc

theorem LogAll.VK_CHECK {P : Call → Prop} (r : VkResult) : LogAll P (VK_CHECK r) := by
  intro s c hc
  rw [run_VK_CHECK] at hc
  split at hc <;> simp at hc

theorem LogAll.ite {P : Call → Prop} {c : Prop} [Decidable c] {m1 m2 : VkM α}
    (h1 : LogAll P m1) (h2 : LogAll P m2) : LogAll P (if c then m1 else m2) := by
  split
  · exact h1
  · exact h2

theorem LogAll.forEach {P : Call → Prop} {body : α → VkM Unit}
    (h : ∀ x, LogAll P (body x)) (xs : List α) : LogAll P (forEach body xs) := by
  induction xs with
  | nil => exact LogAll.pure ()
  | cons x rest ih => exact LogAll.bind (h x) (fun _ => ih)

theorem LogAll.forIdx {P : Call → Prop} {body : Nat → VkM Unit}
    (h : ∀ i, LogAll P (body i)) (n : Nat) : LogAll P (forIdx n body) :=
  LogAll.forEach h _

theorem wp_mono {m : VkM α} {Q Q2 : α → Renderer → List Call → Prop} {s : Renderer}
    (h : wp m Q s) (hQ : ∀ a s1 l, Q a s1 l → Q2 a s1 l) : wp m Q2 s :=
  fun a s1 l hr => hQ a s1 l (h a s1 l hr)

theorem wp_and {m : VkM α} {Q Q2 : α → Renderer → List Call → Prop} {s : Renderer}
    (h : wp m Q s) (h2 : wp m Q2 s) : wp m (fun a s1 l => Q a s1 l ∧ Q2 a s1 l) s :=
  fun a s1 l hr => ⟨h a s1 l hr, h2 a s1 l hr⟩

theorem wp_of_run_ok {m : VkM α} {Q : α → Renderer → List Call → Prop} {s : Renderer}
    {a : α} {s1 : Renderer} {l : List Call} (hr : m.run s = .ok a s1 l) :
    wp m Q s ↔ Q a s1 l := by
  constructor
  · intro h
    exact h a s1 l hr
  · intro h a2 s2 l2 hr2
    rw [hr] at hr2
    cases hr2
    exact h

@[simp] theorem wp_pure (a : α) (Q : α → Renderer → List Call → Prop) (s : Renderer) :
    wp (pure a : VkM α) Q s ↔ Q a s [] :=
  wp_of_run_ok rfl

@[simp] theorem wp_bind (m : VkM α) (f : α → VkM β) (Q : β → Renderer → List Call → Prop)
    (s : Renderer) :
    wp (m >>= f) Q s ↔ wp m (fun a s1 l1 => wp (f a) (fun b s2 l2 => Q b s2 (l1 ++ l2)) s1) s := by
  constructor
  · intro h a s1 l1 hm b s2 l2 hf
    apply h
    rw [run_bind, hm, Res.bind_ok, hf]
    rfl
  · intro h b s2 l hr
    rw [run_bind] at hr
    obtain ⟨a, s1, l1, l2, hm, hf, rfl⟩ := Res.bind_eq_ok hr
    exact h a s1 l1 hm b s2 l2 hf

@[simp] theorem wp_get (Q : Renderer → Renderer → List Call → Prop) (s : Renderer) :
    wp get Q s ↔ Q s s [] :=
  wp_of_run_ok rfl

@[simp] theorem wp_modify (f : Renderer → Renderer) (Q : Unit → Renderer → List Call → Prop)
    (s : Renderer) : wp (modify f) Q s ↔ Q () (f s) [] :=
  wp_of_run_ok rfl

@[simp] theorem wp_call (c : Call) (Q : Unit → Renderer → List Call → Prop) (s : Renderer) :
    wp (call c) Q s ↔ Q () s [c] :=
  wp_of_run_ok rfl

@[simp] theorem wp_abort (Q : α → Renderer → List Call → Prop) (s : Renderer) :
    wp (abort : VkM α) Q s ↔ True := by
  simp [wp]

@[simp] theorem wp_hang (Q : α → Renderer → List Call → Prop) (s : Renderer) :
    wp (hang : VkM α) Q s ↔ True := by
  simp [wp]

@[simp] theorem wp_undef (Q : α → Renderer → List Call → Prop) (s : Renderer) :
    wp (undef : VkM α) Q s ↔ True := by
  simp [wp]

@[simp] theorem wp_VK_CHECK (r : VkResult) (Q : Unit → Renderer → List Call → Prop)
    (s : Renderer) : wp (VK_CHECK r) Q s ↔ (r = VK_SUCCESS → Q () s []) := by
  by_cases h : r = VK_SUCCESS
  · subst h
    simp [wp_of_run_ok (run_VK_CHECK_success s)]
  · simp [wp, run_VK_CHECK, h]

@[simp] theorem wp_ite (c : Prop) [Decidable c] (m1 m2 : VkM α)
    (Q : α → Renderer → List Call → Prop) (s : Renderer) :
    wp (if c then m1 else m2) Q s ↔ (c → wp m1 Q s) ∧ (¬c → wp m2 Q s) := by
  by_cases h : c <;> simp [h]

/-- Loop rule: a property of the state and of the calls issued so far that
every iteration maintains holds when the loop returns. -/
theorem wp_forEach {body : α → VkM Unit} (I : Renderer → List Call → Prop)
    (hstep : ∀ x s l, I s l → wp (body x) (fun _ s1 l1 => I s1 (l ++ l1)) s) :
    ∀ (xs : List α) (s : Renderer) (l0 : List Call), I s l0 →
      wp (forEach body xs) (fun _ s1 l1 => I s1 (l0 ++ l1)) s := by
  intro xs
  induction xs with
  | nil =>
    intro s l0 h0
    simpa [forEach_nil] using h0
  | cons x rest ih =>
    intro s l0 h0
    rw [forEach_cons, wp_bind]
    refine wp_mono (hstep x s l0 h0) ?_
    intro _ s1 l1 h1
    refine wp_mono (ih s1 (l0 ++ l1) h1) ?_
    intro _ s2 l2 h2
    simpa [List.append_assoc] using h2

theorem wp_forIdx {body : Nat → VkM Unit} (I : Renderer → List Call → Prop)
    (hstep : ∀ i s l, I s l → wp (body i) (fun _ s1 l1 => I s1 (l ++ l1)) s)
    (n : Nat) (s : Renderer) (l0 : List Call) (h0 : I s l0) :
    wp (forIdx n body) (fun _ s1 l1 => I s1 (l0 ++ l1)) s :=
  wp_forEach I hstep _ s l0 h0

theorem wp_of_LogAll {P : Call → Prop} {m : VkM α} (h : LogAll P m) (s : Renderer) :
    wp m (fun _ _ l => ∀ c ∈ l, P c) s := by
  intro a s1 l hr
  have := h s
  rw [hr] at this
  exact this

/-! ## What the swapchain functions do when they return -/

theorem length_vectorResize (v : List Handle) (n : Nat) : (vectorResize v n).length = n := by
  simp [vectorResize]
  omega

theorem length_writeInto (v src : List Handle) (h : v.length = src.length) :
    (writeInto v src).length = src.length := by
  simp [writeInto, h]

theorem writeInto_eq (v src : List Handle) (h : v.length = src.length) :
    writeInto v src = src := by
  simp [writeInto, h]

/-- After `createRenderPass` returns: only `renderPass_` may have changed, it
is not null unless the driver handed out a null handle, and a render pass was
created exactly when there was none. -/
theorem createRenderPass_spec (env : SwapchainEnv) (s : Renderer) :
    wp (createRenderPass env)
      (fun _ s1 l =>
        s1 = { s with renderPass_ :=
                if s.renderPass_ ≠ VK_NULL_HANDLE then s.renderPass_ else env.renderPass } ∧
        l = if s.renderPass_ ≠ VK_NULL_HANDLE then []
            else [Call.createRenderPass s.device_ s.swapchainFormat_]) s := by
  unfold createRenderPass
  by_cases h : s.renderPass_ = VK_NULL_HANDLE
  · simp [h]
  · simp [h]

/-- After `createFramebuffers` returns: only `framebuffers_` changed, it has one
entry per image view, and only framebuffers were created. -/
theorem createFramebuffers_spec (env : SwapchainEnv) (s : Renderer) :
    wp (createFramebuffers env)
      (fun _ s1 l =>
        (∃ fb, fb.length = s.swapchainImageViews_.length ∧ s1 = { s with framebuffers_ := fb }) ∧
        ∀ c ∈ l, ∃ d r v e, c = Call.createFramebuffer d r v e) s := by
  unfold createFramebuffers
  simp only [wp_bind, wp_modify, wp_get, List.nil_append]
  refine wp_mono
    (wp_forIdx
      (fun s1 l =>
        (∃ fb, fb.length = s.swapchainImageViews_.length ∧ s1 = { s with framebuffers_ := fb }) ∧
        ∀ c ∈ l, ∃ d r v e, c = Call.createFramebuffer d r v e)
      ?_ _ _ [] ⟨⟨_, length_vectorResize _ _, rfl⟩, by simp⟩) ?_
  · rintro i s1 l ⟨⟨fb, hlen, rfl⟩, hl⟩
    simp only [wp_bind, wp_get]
    split
    · simp
    · simp only [wp_bind, wp_call, wp_VK_CHECK, wp_modify, List.nil_append, List.append_nil]
      intro _
      refine ⟨⟨fb.set i (env.framebuffer i), by simpa using hlen, rfl⟩, ?_⟩
      intro c hc
      simp only [List.mem_append, List.mem_singleton] at hc
      rcases hc with hc | hc
      · exact hl c hc
      · exact ⟨_, _, _, _, hc⟩
  · intro _ s1 l h
    simpa using h

/-- A loop whose iterations only issue a call under a condition returns, leaves
the state alone and issues the calls of the entries that meet the condition. -/
theorem run_forEach_calls {α : Type} (p : α → Prop) [DecidablePred p] (g : α → Call)
    (xs : List α) (s : Renderer) :
    (forEach (fun x => if p x then call (g x) else pure ()) xs).run s =
      .ok () s ((xs.filter fun x => decide (p x)).map g) := by
  induction xs with
  | nil => rfl
  | cons x rest ih =>
    rw [forEach_cons, run_bind]
    by_cases h : p x
    · simp [h, ih]
    · simp [h, ih]

/-- The function `destroySwapchain` always returns. -/
theorem destroySwapchain_run (s : Renderer) :
    destroySwapchain.run s = .ok () (destroySwapchainState s) (destroySwapchainCalls s) := by
  unfold destroySwapchain destroyFramebuffers destroyRenderPass
  simp only [run_bind, run_get, Res.bind_ok, run_forEach_calls, run_modify, Res.prepend_ok,
    List.nil_append, List.append_nil]
  by_cases hrp : s.renderPass_ = VK_NULL_HANDLE <;> by_cases hsc : s.swapchain_ = VK_NULL_HANDLE <;>
    simp [hrp, hsc, destroySwapchainState, destroySwapchainCalls, run_forEach_calls]

/-- After `createCommandResources` returns: the pool is kept when there is
one, and there is one command buffer per swapchain image. -/
theorem createCommandResources_spec (env : CommandEnv) (s : Renderer) :
    wp (createCommandResources env)
      (fun _ s1 l =>
        s1 = { s with
                commandPool_ := if s.commandPool_ = VK_NULL_HANDLE then env.pool else s.commandPool_
                commandBuffers_ := (List.range s.swapchainImages_.length).map env.buffer } ∧
        l = (if s.commandPool_ = VK_NULL_HANDLE then
              [Call.createCommandPool s.device_ s.queueFamilyIndex_] else []) ++
            [Call.allocateCommandBuffers s.device_
              (if s.commandPool_ = VK_NULL_HANDLE then env.pool else s.commandPool_)
              s.swapchainImages_.length]) s := by
  unfold createCommandResources
  by_cases h : s.commandPool_ = VK_NULL_HANDLE
  · simp [h, length_vectorResize]
  · simp [h, length_vectorResize]

/-- The loop of `createSwapchain` that creates the image views (lines 421-435):
when it returns only `swapchainImageViews_` changed, keeping its length, and
only image views were created. -/
theorem createImageViews_spec (env : SwapchainEnv) (n : Nat) (s0 : Renderer) :
    wp
      (forIdx n fun i => do
        let s ← get
        match s.swapchainImages_[i]? with
        | none => undef
        | some image =>
          call (.createImageView s.device_ image s.swapchainFormat_)
          VK_CHECK (env.viewResult i)
          modify fun s =>
            { s with swapchainImageViews_ := s.swapchainImageViews_.set i (env.view i) })
      (fun _ s1 l =>
        (∃ views, views.length = s0.swapchainImageViews_.length ∧
          s1 = { s0 with swapchainImageViews_ := views }) ∧
        ∀ c ∈ l, ∃ d i f, c = Call.createImageView d i f) s0 := by
  refine wp_mono
    (wp_forIdx
      (fun s1 l =>
        (∃ views, views.length = s0.swapchainImageViews_.length ∧
          s1 = { s0 with swapchainImageViews_ := views }) ∧
        ∀ c ∈ l, ∃ d i f, c = Call.createImageView d i f)
      ?_ _ _ [] ⟨⟨_, rfl, rfl⟩, by simp⟩) ?_
  · rintro i s1 l ⟨⟨views, hlen, rfl⟩, hl⟩
    simp only [wp_bind, wp_get]
    split
    · simp
    · simp only [wp_bind, wp_call, wp_VK_CHECK, wp_modify, List.nil_append, List.append_nil]
      intro _
      refine ⟨⟨views.set i (env.view i), by simpa using hlen, rfl⟩, ?_⟩
      intro c hc
      simp only [List.mem_append, List.mem_singleton] at hc
      rcases hc with hc | hc
      · exact hl c hc
      · exact ⟨_, _, _, hc⟩
  · intro _ s1 l h
    simpa using h

/-- After `createSwapchain` returns: the state is the one before with the new
swapchain handle, the negotiated format, extent and image count, the images of
the driver, one view and one framebuffer per image, and a render pass; the
calls are the three surface queries, one swapchain creation with the negotiated
parameters, two image queries, then view, render-pass and framebuffer
creations. -/
theorem createSwapchain_spec (env : SwapchainEnv) (width height : Nat) (s : Renderer) :
    wp (createSwapchain env width height)
      (fun _ s1 l =>
        ∃ chosen views fbs lv lf,
          chosenFormat env.formats = some chosen ∧
          views.length = env.images.length ∧ fbs.length = env.images.length ∧
          s1 = { s with
                  swapchain_ := env.swapchain
                  gpu := { s.gpu with images := env.images }
                  swapchainFormat_ := chosen.format
                  swapchainExtent_ := extent env.caps width height
                  swapchainMinImageCount_ := minImages env.caps
                  swapchainImages_ := env.images
                  swapchainImageViews_ := views
                  renderPass_ :=
                    if s.renderPass_ ≠ VK_NULL_HANDLE then s.renderPass_ else env.renderPass
                  framebuffers_ := fbs } ∧
          l = [Call.getPhysicalDeviceSurfaceCapabilities s.physicalDevice_ s.surface_,
               Call.getPhysicalDeviceSurfaceFormats s.physicalDevice_ s.surface_,
               Call.getPhysicalDeviceSurfaceFormats s.physicalDevice_ s.surface_,
               Call.createSwapchain s.device_ (swapchainCreateInfo s env.caps chosen width height),
               Call.getSwapchainImages s.device_ env.swapchain,
               Call.getSwapchainImages s.device_ env.swapchain] ++ lv ++
              (if s.renderPass_ ≠ VK_NULL_HANDLE then []
               else [Call.createRenderPass s.device_ chosen.format]) ++ lf ∧
          (∀ c ∈ lv, ∃ d i f, c = Call.createImageView d i f) ∧
          (∀ c ∈ lf, ∃ d r v e, c = Call.createFramebuffer d r v e)) s := by
  unfold createSwapchain
  cases hch : chosenFormat env.formats with
  | none => simp
  | some chosen =>
    simp only [wp_bind, wp_get, wp_call, wp_VK_CHECK, wp_modify, List.nil_append,
      List.append_nil, List.singleton_append, List.cons_append]
    intro _ _ _ _ _ _
    refine wp_mono (createImageViews_spec env _ _) ?_
    rintro _ s1 l1 ⟨⟨views, hlen, rfl⟩, hl1⟩
    refine wp_mono (createRenderPass_spec env _) ?_
    rintro _ s2 l2 ⟨rfl, rfl⟩
    refine wp_mono (createFramebuffers_spec env _) ?_
    rintro _ s3 l3 ⟨⟨fbs, hfbs, rfl⟩, hl3⟩
    simp only [length_vectorResize] at hlen
    refine ⟨chosen, views, fbs, l1, l3, rfl, hlen, by simpa [hlen] using hfbs, ?_, ?_, hl1, hl3⟩
    · simp [writeInto_eq, length_vectorResize]
    · simp [swapchainCreateInfo]

theorem Res.prepend_bind {α β : Type} (l : List Call) (r : Res α) (f : α → Renderer → Res β) :
    (r.prepend l).bind f = (r.bind f).prepend l := by
  cases r <;> simp

theorem Res.bind_assoc {α β γ : Type} (r : Res α) (f : α → Renderer → Res β)
    (g : β → Renderer → Res γ) :
    (r.bind f).bind g = r.bind fun a s => (f a s).bind g := by
  cases r <;> simp [Res.prepend_bind]

theorem VkM.ext {α : Type} {m1 m2 : VkM α} (h : ∀ s, m1.run s = m2.run s) : m1 = m2 := by
  cases m1
  cases m2
  congr
  funext s
  exact h s

instance : LawfulMonad VkM := LawfulMonad.mk' VkM
  (fun m => VkM.ext fun s => by
    show (m.run s).bind (fun a s1 => Res.ok a s1 []) = m.run s
    cases m.run s <;> simp)
  (fun a f => VkM.ext fun s => by simp)
  (fun m f g => VkM.ext fun s => by simp [Res.bind_assoc])

@[simp] theorem run_map {α β : Type} (f : α → β) (m : VkM α) (s : Renderer) :
    (f <$> m).run s = (m.run s).bind fun a s1 => .ok (f a) s1 [] := by
  rw [← bind_pure_comp]
  rfl

@[simp] theorem wp_map {α β : Type} (f : α → β) (m : VkM α)
    (Q : β → Renderer → List Call → Prop) (s : Renderer) :
    wp (f <$> m) Q s ↔ wp m (fun a s1 l => Q (f a) s1 l) s := by
  rw [← bind_pure_comp, wp_bind]
  simp

theorem ite_bind {α β : Type} (c : Prop) [Decidable c] (m1 m2 : VkM α) (f : α → VkM β) :
    (if c then m1 else m2) >>= f = if c then m1 >>= f else m2 >>= f := by
  split <;> rfl

/-- The function `drawFrame` is the dirty path, when the flag is set, followed
by the rest of the frame. -/
theorem drawFrame_eq (env : FrameEnv) :
    drawFrame env = (do
      let s ← get
      if s.initialized_ = true then do
        if s.swapchainDirty_ then recreate env s
        frame env
      else pure ()) := by
  unfold drawFrame recreate frame
  simp only [bind_assoc, ite_bind, pure_bind, Bool.not_eq_true', Bool.not_eq_true]
  congr
  funext s
  cases s.initialized_ <;> simp

/-- The dirty path issues only calls of the dirty path, however it ends. -/
theorem recreate_onlyRecreation (env : FrameEnv) (s : Renderer) :
    LogAll (fun c => c.isRecreation = true) (recreate env s) := by
  unfold recreate vkDeviceWaitIdle destroySwapchain destroyFramebuffers destroyRenderPass
    createSwapchain createRenderPass createFramebuffers createCommandResources
  repeat' first
    | apply LogAll.bind
    | apply LogAll.get
    | apply LogAll.modify
    | apply LogAll.pure
    | apply LogAll.VK_CHECK
    | apply LogAll.undef
    | apply LogAll.forIdx
    | apply LogAll.forEach
    | apply LogAll.ite
    | (apply LogAll.call; exact rfl)
    | split
    | intro _

/-- A call of the dirty path is neither a fence wait, nor the acquire, nor a
recording, submit or present call. -/
theorem Call.not_frame_of_isRecreation {c : Call} (h : c.isRecreation = true) :
    c.isFenceWait = false ∧ c.isAcquire = false ∧ c.isRecordSubmitPresent = false := by
  cases c <;> first | exact ⟨rfl, rfl, rfl⟩ | exact absurd h Bool.false_ne_true

/-- The dirty path issues neither a fence wait, nor the acquire, nor any
recording, submit or present call, however it ends. -/
theorem recreate_noFrameCalls (env : FrameEnv) (s : Renderer) :
    LogAll (fun c => c.isFenceWait = false ∧ c.isAcquire = false ∧
      c.isRecordSubmitPresent = false) (recreate env s) :=
  fun s0 c hc => Call.not_frame_of_isRecreation (recreate_onlyRecreation env s s0 c hc)

theorem drawFrame_run (env : FrameEnv) (s : Renderer) :
    (drawFrame env).run s =
      if s.initialized_ = true then
        if s.swapchainDirty_ = true then
          ((recreate env s).run s).bind fun _ s1 => (frame env).run s1
        else (frame env).run s
      else .ok () s [] := by
  rw [drawFrame_eq]
  by_cases hi : s.initialized_ = true <;> by_cases hd : s.swapchainDirty_ = true <;>
    simp [hi, hd]

theorem wp_destroySwapchain (Q : Unit → Renderer → List Call → Prop) (s : Renderer) :
    wp destroySwapchain Q s ↔ Q () (destroySwapchainState s) (destroySwapchainCalls s) :=
  wp_of_run_ok (destroySwapchain_run s)

/-- After the dirty path returns from state `s`. -/
theorem recreate_spec (env : FrameEnv) (s : Renderer) :
    wp (recreate env s)
      (fun _ s1 l =>
        ∃ chosen views fbs lv lf,
          chosenFormat env.swapchain.formats = some chosen ∧
          views.length = env.swapchain.images.length ∧
          fbs.length = env.swapchain.images.length ∧
          s1 = { s with
                  swapchainDirty_ := false
                  gpu := ⟨if s.gpu.inFlight = .unsignaledPending then .signaled else s.gpu.inFlight,
                          env.swapchain.images⟩
                  swapchain_ := env.swapchain.swapchain
                  swapchainFormat_ := chosen.format
                  swapchainExtent_ := extent env.swapchain.caps s.width_ s.height_
                  swapchainMinImageCount_ := minImages env.swapchain.caps
                  swapchainImages_ := env.swapchain.images
                  swapchainImageViews_ := views
                  renderPass_ := env.swapchain.renderPass
                  framebuffers_ := fbs
                  commandPool_ :=
                    if s.commandPool_ = VK_NULL_HANDLE then env.commands.pool else s.commandPool_
                  commandBuffers_ :=
                    (List.range env.swapchain.images.length).map env.commands.buffer } ∧
          l = [Call.deviceWaitIdle s.device_] ++
              (if s.commandBuffers_.isEmpty then []
               else [Call.freeCommandBuffers s.device_ s.commandPool_ s.commandBuffers_]) ++
              destroySwapchainCalls s ++
              [Call.getPhysicalDeviceSurfaceCapabilities s.physicalDevice_ s.surface_,
               Call.getPhysicalDeviceSurfaceFormats s.physicalDevice_ s.surface_,
               Call.getPhysicalDeviceSurfaceFormats s.physicalDevice_ s.surface_,
               Call.createSwapchain s.device_
                 (swapchainCreateInfo s env.swapchain.caps chosen s.width_ s.height_),
               Call.getSwapchainImages s.device_ env.swapchain.swapchain,
               Call.getSwapchainImages s.device_ env.swapchain.swapchain] ++ lv ++
              [Call.createRenderPass s.device_ chosen.format] ++ lf ++
              (if s.commandPool_ = VK_NULL_HANDLE then
                [Call.createCommandPool s.device_ s.queueFamilyIndex_] else []) ++
              [Call.allocateCommandBuffers s.device_
                (if s.commandPool_ = VK_NULL_HANDLE then env.commands.pool else s.commandPool_)
                env.swapchain.images.length] ∧
          (∀ c ∈ lv, ∃ d i f, c = Call.createImageView d i f) ∧
          (∀ c ∈ lf, ∃ d r v e, c = Call.createFramebuffer d r v e)) s := by
  unfold recreate vkDeviceWaitIdle
  by_cases hp : s.gpu.inFlight = .unsignaledPending <;>
  by_cases he : s.commandBuffers_.isEmpty = true <;>
  · simp only [wp_bind, wp_get, wp_call, wp_modify, wp_ite, wp_pure, wp_destroySwapchain, hp, he,
      if_true, if_false, Bool.not_true, Bool.not_false, true_implies, false_implies, and_true,
      true_and, not_true_eq_false, not_false_eq_true, Bool.false_eq_true, Bool.not_eq_true]
    refine wp_mono (createSwapchain_spec _ _ _ _) ?_
    rintro _ s1 l1 ⟨chosen, views, fbs, lv, lf, hch, hv, hf, rfl, rfl, hlv, hlf⟩
    refine wp_mono (createCommandResources_spec _ _) ?_
    rintro _ s2 l2 ⟨rfl, rfl⟩
    refine ⟨chosen, views, fbs, lv, lf, hch, hv, hf, ?_, ?_, hlv, hlf⟩
    · simp [destroySwapchainState, hp]
    · simp [destroySwapchainState, destroySwapchainCalls, swapchainCreateInfo, he]

/-- A call with property `P` in the log of a sequence whose first part issues
none: the first part returned and the call is in the second part. -/
theorem Res.exists_log_bind {α β : Type} {r : Res α} {f : α → Renderer → Res β}
    {P : Call → Prop} (hr : ∀ c ∈ r.log, ¬ P c) (h : ∃ c ∈ (r.bind f).log, P c) :
    ∃ a s1 l1, r = .ok a s1 l1 ∧ ∃ c ∈ (f a s1).log, P c := by
  obtain ⟨c, hc, hP⟩ := h
  cases r with
  | ok a s1 l1 =>
    refine ⟨a, s1, l1, rfl, ?_⟩
    simp only [Res.bind_ok, Res.log_prepend, List.mem_append] at hc
    rcases hc with hc | hc
    · exact absurd hP (hr c hc)
    · exact ⟨c, hc, hP⟩
  | abort l => exact absurd hP (hr c hc)
  | hang l => exact absurd hP (hr c hc)
  | undef l => exact absurd hP (hr c hc)

/-- The rest of the frame when the acquire is reached and answers out-of-date:
it returns with the dirty flag set and the fence reset, and issued no
recording, submit or present call. -/
theorem frame_outOfDate (env : FrameEnv) (s : Renderer)
    (hacq : env.acquireResult = VK_ERROR_OUT_OF_DATE_KHR)
    (h : ∃ c ∈ ((frame env).run s).log, c.isAcquire = true) :
    ∃ s1 l, (frame env).run s = .ok () s1 l ∧ s1.swapchainDirty_ = true ∧
      s1.gpu.inFlight = .unsignaledNoSubmit ∧ s1.initialized_ = s.initialized_ ∧
      ∀ c ∈ l, c.isRecordSubmitPresent = false := by
  unfold frame vkWaitForFences vkResetFences at h ⊢
  cases hf : s.gpu.inFlight <;> by_cases hw : env.waitResult = VK_SUCCESS <;>
    by_cases hr : env.resetResult = VK_SUCCESS <;>
    simp [hf, hw, hr, hacq, run_VK_CHECK, Call.isAcquire] at h ⊢ <;>
    exact ⟨_, _, ⟨rfl, rfl⟩, rfl, rfl, rfl, by simp [Call.isRecordSubmitPresent]⟩

/-- A `drawFrame` call on an initialized renderer that reaches the image acquire
and gets the out-of-date answer: it returns, with the dirty flag set, the
in-flight fence reset and nothing submitted with it, the renderer still
initialized, and it issued no recording, submit or present call. -/
theorem drawFrame_outOfDate (env : FrameEnv) (s : Renderer)
    (hinit : s.initialized_ = true)
    (hacq : env.acquireResult = VK_ERROR_OUT_OF_DATE_KHR)
    (hreach : ∃ c ∈ ((drawFrame env).run s).log, c.isAcquire = true) :
    ∃ s1 l, (drawFrame env).run s = .ok () s1 l ∧ s1.swapchainDirty_ = true ∧
      s1.gpu.inFlight = .unsignaledNoSubmit ∧ s1.initialized_ = true ∧
      ∀ c ∈ l, c.isRecordSubmitPresent = false := by
  rw [drawFrame_run] at hreach ⊢
  simp only [hinit, if_true] at hreach ⊢
  by_cases hd : s.swapchainDirty_ = true
  · simp only [hd, if_true] at hreach ⊢
    have hlog := recreate_noFrameCalls env s s
    obtain ⟨_, s1, l1, hrec, h1⟩ :=
      Res.exists_log_bind (P := fun c => c.isAcquire = true)
        (fun c hc => by simp [(hlog c hc).2.1]) hreach
    obtain ⟨s2, l2, hfr, hdirty, hfence, hi2, hl2⟩ := frame_outOfDate env s1 hacq h1
    have hi1 : s1.initialized_ = true := by
      obtain ⟨_, _, _, _, _, _, _, _, rfl, _⟩ := recreate_spec env s _ s1 l1 hrec
      exact hinit
    rw [hrec] at hlog
    refine ⟨s2, l1 ++ l2, by simp [hrec, hfr], hdirty, hfence, hi2.trans hi1, ?_⟩
    intro c hc
    rcases List.mem_append.mp hc with hc | hc
    · exact (hlog c hc).2.2
    · exact hl2 c hc
  · simp only [hd] at hreach ⊢
    obtain ⟨s2, l2, hfr, hdirty, hfence, hi2, hl2⟩ := frame_outOfDate env s hacq hreach
    exact ⟨s2, l2, hfr, hdirty, hfence, hi2.trans hinit, hl2⟩

/-- C1. For every initialized renderer state: when the `drawFrame` call reaches
the image acquire and the acquire answers out-of-date, the call returns (no
abort, no blocking), the dirty flag is set afterwards, and the call issued no
command-buffer reset or recording call, no queue submit and no queue present. -/
theorem drawFrame_acquire_outOfDate (env : FrameEnv) (s : Renderer)
    (hinit : s.initialized_ = true)
    (hacq : env.acquireResult = VK_ERROR_OUT_OF_DATE_KHR)
    (hreach : ∃ c ∈ ((drawFrame env).run s).log, c.isAcquire = true) :
    ∃ s1 l, (drawFrame env).run s = .ok () s1 l ∧ s1.swapchainDirty_ = true ∧
      ∀ c ∈ l, c.isRecordSubmitPresent = false := by
  obtain ⟨s1, l, hrun, hdirty, _, _, hl⟩ := drawFrame_outOfDate env s hinit hacq hreach
  exact ⟨s1, l, hrun, hdirty, hl⟩

/-- C1 on the renderer after `init`, with a driver whose acquire answers
out-of-date. -/
theorem drawFrame_acquire_outOfDate_witness :
    ∃ s1 l, (drawFrame (sampleFrameEnv 200 VK_ERROR_OUT_OF_DATE_KHR VK_SUCCESS)).run
        sampleRenderer = .ok () s1 l ∧ s1.swapchainDirty_ = true ∧
      ∀ c ∈ l, c.isRecordSubmitPresent = false :=
  drawFrame_acquire_outOfDate (sampleFrameEnv 200 VK_ERROR_OUT_OF_DATE_KHR VK_SUCCESS)
    sampleRenderer (by decide) rfl (by decide)

/-- C2 (the code does not do this). After `init`, a `drawFrame` whose acquire
answers out-of-date returns; the `drawFrame` call that follows, with a driver
that answers success to everything, recreates the swapchain and then blocks
forever in the fence wait, because the fence was reset before the acquire and
nothing was submitted with it: the call never returns and never reaches the
acquire. -/
theorem drawFrame_after_outOfDate_blocks :
    (drawFrame (sampleFrameEnv 200 VK_ERROR_OUT_OF_DATE_KHR VK_SUCCESS)).run sampleRenderer =
      .ok () staleRenderer
        [Call.waitForFences 4 8, Call.resetFences 4 8, Call.acquireNextImage 4 100 6] ∧
    staleRenderer.swapchainDirty_ = true ∧
    staleRenderer.gpu.inFlight = FenceStatus.unsignaledNoSubmit ∧
    ((drawFrame (sampleFrameEnv 300 VK_SUCCESS VK_SUCCESS)).run staleRenderer).isHang = true ∧
    ((drawFrame (sampleFrameEnv 300 VK_SUCCESS VK_SUCCESS)).run staleRenderer).log.getLast? =
      some (Call.waitForFences 4 8) ∧
    (∃ c ∈ ((drawFrame (sampleFrameEnv 300 VK_SUCCESS VK_SUCCESS)).run staleRenderer).log,
      c.isRecreation = true) ∧
    ∀ c ∈ ((drawFrame (sampleFrameEnv 300 VK_SUCCESS VK_SUCCESS)).run staleRenderer).log,
      c.isAcquire = false := by
  decide

/-- The blocked retry for every driver: after a `drawFrame` call on an
initialized renderer whose acquire answered out-of-date, the next `drawFrame`
call does not return and never reaches the acquire, whatever the driver
answers. -/
theorem drawFrame_after_outOfDate_never_acquires (env env2 : FrameEnv) (s : Renderer)
    (hinit : s.initialized_ = true)
    (hacq : env.acquireResult = VK_ERROR_OUT_OF_DATE_KHR)
    (hreach : ∃ c ∈ ((drawFrame env).run s).log, c.isAcquire = true) :
    ∃ s1 l, (drawFrame env).run s = .ok () s1 l ∧
      (∀ c ∈ ((drawFrame env2).run s1).log, c.isAcquire = false) ∧
      ∀ s2 l2, (drawFrame env2).run s1 ≠ .ok () s2 l2 := by
  obtain ⟨s1, l, hrun, hdirty, hfence, hi1, _⟩ := drawFrame_outOfDate env s hinit hacq hreach
  refine ⟨s1, l, hrun, ?_⟩
  rw [drawFrame_run]
  simp only [hi1, hdirty, if_true]
  have hlog := recreate_noFrameCalls env2 s1 s1
  cases hrec : (recreate env2 s1).run s1 with
  | ok a s2 l2 =>
    rw [hrec] at hlog
    obtain ⟨_, _, _, _, _, _, _, _, rfl, _⟩ := recreate_spec env2 s1 _ s2 l2 hrec
    have hframe : ∀ s3 : Renderer, s3.gpu.inFlight = .unsignaledNoSubmit →
        (frame env2).run s3 = .hang [Call.waitForFences s3.device_ s3.inFlight_] := by
      intro s3 h3
      unfold frame vkWaitForFences
      simp [h3]
    rw [Res.bind_ok, hframe _ (by simp [hfence])]
    refine ⟨?_, by simp⟩
    intro c hc
    simp only [Res.prepend_hang, Res.log_hang, List.mem_append, List.mem_singleton] at hc
    rcases hc with hc | hc
    · exact (hlog c hc).2.1
    · rw [hc]; rfl
  | abort l2 =>
    rw [hrec] at hlog
    exact ⟨fun c hc => (hlog c hc).2.1, by simp⟩
  | hang l2 =>
    rw [hrec] at hlog
    exact ⟨fun c hc => (hlog c hc).2.1, by simp⟩
  | undef l2 =>
    rw [hrec] at hlog
    exact ⟨fun c hc => (hlog c hc).2.1, by simp⟩

/-- The blocked retry on the renderer after `init`. -/
theorem drawFrame_after_outOfDate_never_acquires_witness :
    ∃ s1 l, (drawFrame (sampleFrameEnv 200 VK_ERROR_OUT_OF_DATE_KHR VK_SUCCESS)).run
        sampleRenderer = .ok () s1 l ∧
      (∀ c ∈ ((drawFrame (sampleFrameEnv 300 VK_SUCCESS VK_SUCCESS)).run s1).log,
        c.isAcquire = false) ∧
      ∀ s2 l2, (drawFrame (sampleFrameEnv 300 VK_SUCCESS VK_SUCCESS)).run s1 ≠ .ok () s2 l2 :=
  drawFrame_after_outOfDate_never_acquires _ _ sampleRenderer (by decide) rfl (by decide)

theorem clamp_eq_clampInto (v lo hi : Nat) (h : lo ≤ hi) : clamp v lo hi = clampInto v lo hi := by
  unfold clamp clampInto
  split
  · omega
  · split <;> omega

theorem scanFormats_eq (chosen : VkSurfaceFormatKHR) (formats : List VkSurfaceFormatKHR) :
    scanFormats chosen formats =
      (firstWithFormat VK_FORMAT_B8G8R8A8_UNORM formats).getD chosen := by
  induction formats with
  | nil => rfl
  | cons f rest ih =>
    by_cases hf : f.format = VK_FORMAT_B8G8R8A8_UNORM
    · simp [scanFormats, firstWithFormat, hf]
    · simpa [scanFormats, firstWithFormat, hf] using ih

theorem minImages_eq (caps : VkSurfaceCapabilitiesKHR) :
    minImages caps =
      if caps.maxImageCount = 0 then max 2 caps.minImageCount
      else min (max 2 caps.minImageCount) caps.maxImageCount := by
  unfold minImages
  by_cases h : caps.maxImageCount = 0
  · simp [h]
  · have : caps.maxImageCount > 0 := Nat.pos_of_ne_zero h
    simp [h, this]

/-- C7. Extent selection of `createSwapchain`: when the width of the surface's
current extent is not the sentinel 0xFFFFFFFF the chosen extent is the current
extent whatever was requested; when it is the sentinel and min <= max
componentwise, the chosen extent is the request clamped componentwise into
[min, max]. For a surface whose current extent has the sentinel in both
components or in neither, this is the split "current extent is not / is
(0xFFFFFFFF, 0xFFFFFFFF)". The scenario of the specification gives (4096, 10). -/
theorem extent_selection (caps : VkSurfaceCapabilitiesKHR) (width height : Nat) :
    (caps.currentExtent.width ≠ 0xFFFFFFFF → extent caps width height = caps.currentExtent) ∧
    (caps.currentExtent.width = 0xFFFFFFFF →
      caps.minImageExtent.width ≤ caps.maxImageExtent.width →
      caps.minImageExtent.height ≤ caps.maxImageExtent.height →
      extent caps width height =
        ⟨clampInto width caps.minImageExtent.width caps.maxImageExtent.width,
         clampInto height caps.minImageExtent.height caps.maxImageExtent.height⟩) ∧
    ((caps.currentExtent.width = 0xFFFFFFFF ↔ caps.currentExtent.height = 0xFFFFFFFF) →
      caps.currentExtent ≠ ⟨0xFFFFFFFF, 0xFFFFFFFF⟩ →
      extent caps width height = caps.currentExtent) ∧
    (caps.currentExtent = ⟨0xFFFFFFFF, 0xFFFFFFFF⟩ →
      caps.minImageExtent = ⟨1, 1⟩ → caps.maxImageExtent = ⟨4096, 4096⟩ →
      extent caps 7000 10 = ⟨4096, 10⟩) := by
  refine ⟨?_, ?_, ?_, ?_⟩
  · intro h
    simp [extent, h]
  · intro h hw hh
    simp [extent, h, clamp_eq_clampInto _ _ _ hw, clamp_eq_clampInto _ _ _ hh]
  · intro hiff hne
    have hw : caps.currentExtent.width ≠ 0xFFFFFFFF := by
      intro hw
      apply hne
      have hh := hiff.mp hw
      cases hc : caps.currentExtent with
      | mk w h =>
        rw [hc] at hw hh
        simp only at hw hh
        rw [hw, hh]
    simp [extent, hw]
  · intro hc hmin hmax
    simp [extent, hc, hmin, hmax, clamp]

/-- C7 at the scenario of the specification: current extent
(0xFFFFFFFF, 0xFFFFFFFF), min (1,1), max (4096,4096), request (7000, 10). -/
theorem extent_selection_witness :
    extent sampleCaps 7000 10 = ⟨4096, 10⟩ ∧
    extent sampleCaps 7000 10 =
      ⟨clampInto 7000 sampleCaps.minImageExtent.width sampleCaps.maxImageExtent.width,
       clampInto 10 sampleCaps.minImageExtent.height sampleCaps.maxImageExtent.height⟩ :=
  ⟨(extent_selection sampleCaps 7000 10).2.2.2 rfl rfl rfl,
   (extent_selection sampleCaps 7000 10).2.1 rfl (by decide) (by decide)⟩

/-- C8. Composite-alpha selection of `createSwapchain`: OPAQUE when the mask has
it; otherwise the first of PRE_MULTIPLIED, POST_MULTIPLIED, INHERIT that the
mask has; the mask {PRE_MULTIPLIED, POST_MULTIPLIED} gives PRE_MULTIPLIED; and
when the mask has at least one of the four modes, the selected mode is in the
mask. -/
theorem compositeAlpha_selection (caps : VkSurfaceCapabilitiesKHR) :
    (caps.supportedCompositeAlpha &&& VK_COMPOSITE_ALPHA_OPAQUE_BIT_KHR ≠ 0 →
      compositeAlpha caps = VK_COMPOSITE_ALPHA_OPAQUE_BIT_KHR) ∧
    (caps.supportedCompositeAlpha &&& VK_COMPOSITE_ALPHA_OPAQUE_BIT_KHR = 0 →
      caps.supportedCompositeAlpha &&& VK_COMPOSITE_ALPHA_PRE_MULTIPLIED_BIT_KHR ≠ 0 →
      compositeAlpha caps = VK_COMPOSITE_ALPHA_PRE_MULTIPLIED_BIT_KHR) ∧
    (caps.supportedCompositeAlpha &&& VK_COMPOSITE_ALPHA_OPAQUE_BIT_KHR = 0 →
      caps.supportedCompositeAlpha &&& VK_COMPOSITE_ALPHA_PRE_MULTIPLIED_BIT_KHR = 0 →
      caps.supportedCompositeAlpha &&& VK_COMPOSITE_ALPHA_POST_MULTIPLIED_BIT_KHR ≠ 0 →
      compositeAlpha caps = VK_COMPOSITE_ALPHA_POST_MULTIPLIED_BIT_KHR) ∧
    (caps.supportedCompositeAlpha &&& VK_COMPOSITE_ALPHA_OPAQUE_BIT_KHR = 0 →
      caps.supportedCompositeAlpha &&& VK_COMPOSITE_ALPHA_PRE_MULTIPLIED_BIT_KHR = 0 →
      caps.supportedCompositeAlpha &&& VK_COMPOSITE_ALPHA_POST_MULTIPLIED_BIT_KHR = 0 →
      caps.supportedCompositeAlpha &&& VK_COMPOSITE_ALPHA_INHERIT_BIT_KHR ≠ 0 →
      compositeAlpha caps = VK_COMPOSITE_ALPHA_INHERIT_BIT_KHR) ∧
    (caps.supportedCompositeAlpha =
        VK_COMPOSITE_ALPHA_PRE_MULTIPLIED_BIT_KHR ||| VK_COMPOSITE_ALPHA_POST_MULTIPLIED_BIT_KHR →
      compositeAlpha caps = VK_COMPOSITE_ALPHA_PRE_MULTIPLIED_BIT_KHR) ∧
    ((caps.supportedCompositeAlpha &&& VK_COMPOSITE_ALPHA_OPAQUE_BIT_KHR ≠ 0 ∨
      caps.supportedCompositeAlpha &&& VK_COMPOSITE_ALPHA_PRE_MULTIPLIED_BIT_KHR ≠ 0 ∨
      caps.supportedCompositeAlpha &&& VK_COMPOSITE_ALPHA_POST_MULTIPLIED_BIT_KHR ≠ 0 ∨
      caps.supportedCompositeAlpha &&& VK_COMPOSITE_ALPHA_INHERIT_BIT_KHR ≠ 0) →
      caps.supportedCompositeAlpha &&& compositeAlpha caps ≠ 0) := by
  refine ⟨?_, ?_, ?_, ?_, ?_, ?_⟩
  · intro h
    simp [compositeAlpha, h]
  · intro h0 h1
    simp [compositeAlpha, scanAlpha, h0, h1]
  · intro h0 h1 h2
    simp [compositeAlpha, scanAlpha, h0, h1, h2]
  · intro h0 h1 h2 h3
    simp [compositeAlpha, scanAlpha, h0, h1, h2, h3]
  · intro h
    simp only [compositeAlpha, scanAlpha, h]
    decide
  · intro h
    by_cases h0 : caps.supportedCompositeAlpha &&& VK_COMPOSITE_ALPHA_OPAQUE_BIT_KHR = 0
    · by_cases h1 : caps.supportedCompositeAlpha &&& VK_COMPOSITE_ALPHA_PRE_MULTIPLIED_BIT_KHR = 0
      · by_cases h2 : caps.supportedCompositeAlpha &&& VK_COMPOSITE_ALPHA_POST_MULTIPLIED_BIT_KHR = 0
        · have h3 : caps.supportedCompositeAlpha &&& VK_COMPOSITE_ALPHA_INHERIT_BIT_KHR ≠ 0 := by
            rcases h with h | h | h | h
            · exact absurd h0 h
            · exact absurd h1 h
            · exact absurd h2 h
            · exact h
          simp [compositeAlpha, scanAlpha, h0, h1, h2, h3]
        · simp [compositeAlpha, scanAlpha, h0, h1, h2]
      · simp [compositeAlpha, scanAlpha, h0, h1]
    · simp [compositeAlpha, h0]

/-- C8 at the mask {PRE_MULTIPLIED, POST_MULTIPLIED} = 6. -/
theorem compositeAlpha_selection_witness :
    compositeAlpha { sampleCaps with supportedCompositeAlpha := 6 } = 2 ∧
    6 &&& compositeAlpha { sampleCaps with supportedCompositeAlpha := 6 } ≠ 0 :=
  ⟨(compositeAlpha_selection { sampleCaps with supportedCompositeAlpha := 6 }).2.2.2.2.1 (by decide),
   (compositeAlpha_selection { sampleCaps with supportedCompositeAlpha := 6 }).2.2.2.2.2
     (Or.inr (Or.inl (by decide)))⟩

/-- C10. Pixel-format selection of `createSwapchain`: for a non-empty list of
supported formats a format is chosen; it is the first entry whose format is
8-bit BGRA UNORM when some entry has that format, the first entry of the list
otherwise; and the chosen (format, colour space) pair is an element of the
list. -/
theorem chosenFormat_selection (formats : List VkSurfaceFormatKHR) (hne : formats ≠ []) :
    ∃ chosen, chosenFormat formats = some chosen ∧
      ((∃ f ∈ formats, f.format = VK_FORMAT_B8G8R8A8_UNORM) →
        firstWithFormat VK_FORMAT_B8G8R8A8_UNORM formats = some chosen ∧
        chosen.format = VK_FORMAT_B8G8R8A8_UNORM) ∧
      ((∀ f ∈ formats, f.format ≠ VK_FORMAT_B8G8R8A8_UNORM) → formats.head? = some chosen) ∧
      chosen ∈ formats := by
  cases formats with
  | nil => exact absurd rfl hne
  | cons f0 rest =>
    refine ⟨scanFormats f0 (f0 :: rest), rfl, ?_, ?_, ?_⟩
    · rintro ⟨f, hf, hfmt⟩
      rw [scanFormats_eq]
      cases hfind : firstWithFormat VK_FORMAT_B8G8R8A8_UNORM (f0 :: rest) with
      | none =>
        unfold firstWithFormat at hfind
        rw [List.find?_eq_none] at hfind
        exact absurd (by simpa using hfmt) (hfind f hf)
      | some g =>
        refine ⟨rfl, ?_⟩
        unfold firstWithFormat at hfind
        simpa using List.find?_some hfind
    · intro hall
      rw [scanFormats_eq]
      have : firstWithFormat VK_FORMAT_B8G8R8A8_UNORM (f0 :: rest) = none := by
        unfold firstWithFormat
        rw [List.find?_eq_none]
        intro x hx
        simpa using hall x hx
      simp [this]
    · rw [scanFormats_eq]
      cases hfind : firstWithFormat VK_FORMAT_B8G8R8A8_UNORM (f0 :: rest) with
      | none => simp
      | some g =>
        unfold firstWithFormat at hfind
        simpa using List.mem_of_find?_eq_some hfind

/-- C10 on the list [(37,0), (44,0), (44,1)]: the chosen entry is (44,0). -/
theorem chosenFormat_selection_witness :
    ∃ chosen, chosenFormat [⟨37, 0⟩, ⟨44, 0⟩, ⟨44, 1⟩] = some chosen ∧
      ((∃ f ∈ [(⟨37, 0⟩ : VkSurfaceFormatKHR), ⟨44, 0⟩, ⟨44, 1⟩],
          f.format = VK_FORMAT_B8G8R8A8_UNORM) →
        firstWithFormat VK_FORMAT_B8G8R8A8_UNORM [⟨37, 0⟩, ⟨44, 0⟩, ⟨44, 1⟩] = some chosen ∧
        chosen.format = VK_FORMAT_B8G8R8A8_UNORM) ∧
      ((∀ f ∈ [(⟨37, 0⟩ : VkSurfaceFormatKHR), ⟨44, 0⟩, ⟨44, 1⟩],
          f.format ≠ VK_FORMAT_B8G8R8A8_UNORM) →
        [(⟨37, 0⟩ : VkSurfaceFormatKHR), ⟨44, 0⟩, ⟨44, 1⟩].head? = some chosen) ∧
      chosen ∈ [(⟨37, 0⟩ : VkSurfaceFormatKHR), ⟨44, 0⟩, ⟨44, 1⟩] :=
  chosenFormat_selection [⟨37, 0⟩, ⟨44, 0⟩, ⟨44, 1⟩] (by decide)

theorem vkResetFences_run (r : VkResult) (s : Renderer) :
    (vkResetFences r).run s =
      .ok r (afterResetFences r s) [Call.resetFences s.device_ s.inFlight_] := by
  unfold vkResetFences afterResetFences
  by_cases h : r = VK_SUCCESS
  · simp [h]
  · simp only [h, if_false, run_bind, run_get, run_call, run_pure, Res.bind_ok, Res.prepend_ok,
      List.nil_append, List.append_nil]

theorem vkQueueSubmit_run (cmd : Handle) (r : VkResult) (s : Renderer) :
    (vkQueueSubmit cmd r).run s =
      .ok r (afterQueueSubmit r s)
        [Call.queueSubmit s.queue_ cmd s.imageAvailable_ s.renderFinished_ s.inFlight_] := by
  unfold vkQueueSubmit afterQueueSubmit
  by_cases h : r = VK_SUCCESS
  · simp [h]
  · simp only [h, if_false, run_bind, run_get, run_call, run_pure, Res.bind_ok, Res.prepend_ok,
      List.nil_append, List.append_nil]

theorem vkDeviceWaitIdle_run (s : Renderer) :
    vkDeviceWaitIdle.run s = .ok () (afterDeviceWaitIdle s) [Call.deviceWaitIdle s.device_] := by
  unfold vkDeviceWaitIdle afterDeviceWaitIdle
  by_cases h : s.gpu.inFlight = .unsignaledPending
  · simp [h]
  · simp only [h, if_false, run_bind, run_get, run_call, run_pure, Res.bind_ok, Res.prepend_ok,
      List.nil_append, List.append_nil]

theorem vkWaitForFences_run (r : VkResult) (s : Renderer) :
    (vkWaitForFences r).run s =
      if s.gpu.inFlight = .unsignaledNoSubmit then
        .hang [Call.waitForFences s.device_ s.inFlight_]
      else
        .ok r { s with gpu := { s.gpu with inFlight := .signaled } }
          [Call.waitForFences s.device_ s.inFlight_] := by
  unfold vkWaitForFences
  cases hf : s.gpu.inFlight <;> simp [hf]
  cases s with
  | mk _ _ _ _ _ _ _ _ _ _ _ _ _ _ _ _ _ _ _ _ _ _ _ _ gpu =>
    cases gpu
    simp_all

theorem wp_vkResetFences (r : VkResult) (Q : VkResult → Renderer → List Call → Prop)
    (s : Renderer) :
    wp (vkResetFences r) Q s ↔
      Q r (afterResetFences r s) [Call.resetFences s.device_ s.inFlight_] :=
  wp_of_run_ok (vkResetFences_run r s)

theorem wp_vkQueueSubmit (cmd : Handle) (r : VkResult)
    (Q : VkResult → Renderer → List Call → Prop) (s : Renderer) :
    wp (vkQueueSubmit cmd r) Q s ↔
      Q r (afterQueueSubmit r s)
        [Call.queueSubmit s.queue_ cmd s.imageAvailable_ s.renderFinished_ s.inFlight_] :=
  wp_of_run_ok (vkQueueSubmit_run cmd r s)

theorem wp_vkWaitForFences (r : VkResult) (Q : VkResult → Renderer → List Call → Prop)
    (s : Renderer) :
    wp (vkWaitForFences r) Q s ↔
      (s.gpu.inFlight ≠ .unsignaledNoSubmit →
        Q r { s with gpu := { s.gpu with inFlight := .signaled } }
          [Call.waitForFences s.device_ s.inFlight_]) := by
  by_cases h : s.gpu.inFlight = .unsignaledNoSubmit
  · simp [wp, vkWaitForFences_run, h]
  · have hr := vkWaitForFences_run r s
    simp only [h, if_false] at hr
    simp [wp_of_run_ok hr, h]

/-- After `recordCommandBuffer` returns: the state is unchanged, the index was
in range, and the calls are begin, begin render pass, the callback if one is
set, end render pass, end. -/
theorem recordCommandBuffer_spec (env : FrameEnv) (imageIndex : Nat) (s : Renderer) :
    wp (recordCommandBuffer env imageIndex)
      (fun _ s1 l =>
        s1 = s ∧ ∃ cmd fb, s.commandBuffers_[imageIndex]? = some cmd ∧
          s.framebuffers_[imageIndex]? = some fb ∧ l = recordCalls s cmd fb) s := by
  unfold recordCommandBuffer recordCalls
  cases hcb : s.commandBuffers_[imageIndex]? <;>
  cases hfb : s.framebuffers_[imageIndex]? <;>
  cases hcbk : s.recordCallback_ <;>
  simp [hcb, hfb, hcbk]

theorem frame_eq (env : FrameEnv) :
    frame env = (do
      VK_CHECK (← vkWaitForFences env.waitResult)
      VK_CHECK (← vkResetFences env.resetResult)
      let s ← get
      call (.acquireNextImage s.device_ s.swapchain_ s.imageAvailable_)
      if env.acquireResult = VK_ERROR_OUT_OF_DATE_KHR then
        modify fun s => { s with swapchainDirty_ := true }
      else do
        if env.acquireResult ≠ VK_SUCCESS ∧ env.acquireResult ≠ VK_SUBOPTIMAL_KHR then
          VK_CHECK env.acquireResult
        submitAndPresent env s) := rfl

/-- After `submitAndPresent` returns: the fence has a pending submission, the
dirty flag is set when the present answered out-of-date or suboptimal and kept
otherwise, nothing else changed; the calls are the command-buffer reset, the
recording, the submit and the present, in this order. -/
theorem submitAndPresent_spec (env : FrameEnv) (s : Renderer) :
    wp (submitAndPresent env s)
      (fun _ s1 l =>
        s1 = { s with
                swapchainDirty_ :=
                  if env.presentResult = VK_ERROR_OUT_OF_DATE_KHR ∨
                     env.presentResult = VK_SUBOPTIMAL_KHR then true
                  else s.swapchainDirty_
                gpu := { s.gpu with inFlight := .unsignaledPending } } ∧
        ∃ cmd fb, s.commandBuffers_[env.imageIndex]? = some cmd ∧
          s.framebuffers_[env.imageIndex]? = some fb ∧
          l = [Call.resetCommandBuffer cmd] ++ recordCalls s cmd fb ++
              [Call.queueSubmit s.queue_ cmd s.imageAvailable_ s.renderFinished_ s.inFlight_,
               Call.queuePresent s.queue_ s.renderFinished_ s.swapchain_ env.imageIndex]) s := by
  unfold submitAndPresent
  cases hcb : s.commandBuffers_[env.imageIndex]? with
  | none => simp
  | some cmd =>
    simp only [wp_bind, wp_call, wp_VK_CHECK, wp_vkQueueSubmit]
    intro _
    refine wp_mono (recordCommandBuffer_spec _ _ _) ?_
    rintro _ s1 l1 ⟨rfl, cmd2, fb, hcmd2, hfb, rfl⟩ hsub
    rw [hcb] at hcmd2
    cases hcmd2
    by_cases hp : env.presentResult = VK_ERROR_OUT_OF_DATE_KHR ∨
        env.presentResult = VK_SUBOPTIMAL_KHR
    · simp [hp, hsub, afterQueueSubmit, hfb]
    · simp only [hp, if_false, wp_VK_CHECK]
      intro _
      simp [hsub, afterQueueSubmit, hfb]

/-- After the rest of the frame returns: only the dirty flag and the status of
the in-flight fence may have changed. The flag is set when the acquire answered
out-of-date or the present answered out-of-date or suboptimal, and kept
otherwise. -/
theorem frame_spec (env : FrameEnv) (s : Renderer) :
    wp (frame env)
      (fun _ s1 _ =>
        s1 = { s with
                swapchainDirty_ :=
                  if env.acquireResult = VK_ERROR_OUT_OF_DATE_KHR ∨
                     env.presentResult = VK_ERROR_OUT_OF_DATE_KHR ∨
                     env.presentResult = VK_SUBOPTIMAL_KHR then true
                  else s.swapchainDirty_
                gpu := { s.gpu with
                  inFlight :=
                    if env.acquireResult = VK_ERROR_OUT_OF_DATE_KHR then .unsignaledNoSubmit
                    else .unsignaledPending } }) s := by
  rw [frame_eq]
  simp only [wp_bind, wp_vkWaitForFences, wp_VK_CHECK, wp_vkResetFences, wp_get, wp_call]
  intro _ hw hr
  by_cases hacq : env.acquireResult = VK_ERROR_OUT_OF_DATE_KHR
  · simp [hacq, afterResetFences, hr]
  · simp only [hacq, if_false, wp_ite, wp_bind, wp_VK_CHECK, wp_pure]
    refine ⟨fun h1 h2 => absurd h2 h1.1, fun _ => ?_⟩
    refine wp_mono (submitAndPresent_spec _ _) ?_
    rintro _ s1 l1 ⟨rfl, _⟩
    simp [afterResetFences, hr, hacq]

theorem destroySyncObjects_run (s : Renderer) :
    destroySyncObjects.run s =
      .ok () { s with inFlight_ := VK_NULL_HANDLE, renderFinished_ := VK_NULL_HANDLE
                      imageAvailable_ := VK_NULL_HANDLE }
        (destroySyncObjectsCalls s) := by
  unfold destroySyncObjects destroySyncObjectsCalls
  obtain ⟨_, _, _, _, _, _, _, _, _, _, _, _, _, _, _, _, _, _, _, _, _, ia, rf, inf, _⟩ := s
  by_cases h1 : inf = VK_NULL_HANDLE <;> by_cases h2 : rf = VK_NULL_HANDLE <;>
    by_cases h3 : ia = VK_NULL_HANDLE <;> simp [h1, h2, h3]

theorem destroyCommandResources_run (s : Renderer) :
    destroyCommandResources.run s =
      .ok () { s with
                commandBuffers_ := if s.commandPool_ ≠ VK_NULL_HANDLE then [] else s.commandBuffers_
                commandPool_ := VK_NULL_HANDLE }
        (destroyCommandResourcesCalls s) := by
  unfold destroyCommandResources destroyCommandResourcesCalls
  obtain ⟨_, _, _, _, _, _, _, _, _, _, _, _, _, _, _, _, _, _, _, pool, cbs, _, _, _, _⟩ := s
  by_cases h1 : pool = VK_NULL_HANDLE <;> cases cbs <;> simp [h1]

/-- The function `shutdown` always returns; on an initialized renderer it
leaves `shutdownState` after the calls `shutdownCalls`, on a renderer that is
not initialized it does nothing. -/
theorem shutdown_run (s : Renderer) :
    shutdown.run s =
      if s.initialized_ = true then .ok () (shutdownState s) (shutdownCalls s)
      else .ok () s [] := by
  unfold shutdown
  by_cases hi : s.initialized_ = true
  · simp only [run_bind, run_get, Res.bind_ok, hi, Bool.not_true, Bool.false_eq_true, if_false,
      if_true, vkDeviceWaitIdle_run, destroySyncObjects_run, destroyCommandResources_run,
      destroySwapchain_run, Res.prepend_ok, List.nil_append, run_ite, run_pure]
    by_cases h1 : s.device_ = VK_NULL_HANDLE <;> by_cases h2 : s.surface_ = VK_NULL_HANDLE <;>
      by_cases h3 : s.instance_ = VK_NULL_HANDLE <;>
      simp [h1, h2, h3, shutdownState, shutdownCalls, destroySwapchainState, afterDeviceWaitIdle,
        destroySyncObjectsCalls, destroyCommandResourcesCalls, destroySwapchainCalls,
        destroyDeviceSurfaceInstanceCalls]
  · simp [hi]

theorem wp_of_forall {α : Type} {m : VkM α} {Q : α → Renderer → List Call → Prop}
    {s : Renderer} (h : ∀ a s1 l, Q a s1 l) : wp m Q s :=
  fun a s1 l _ => h a s1 l

/-- After `init` returns on a renderer that was not initialized: it is
initialized and the resource lists are aligned. -/
theorem init_spec (env : InitEnv) (nativeLayer width height : Nat) (s : Renderer)
    (hs : s.initialized_ = false) :
    wp (init env nativeLayer width height)
      (fun r s1 _ => r = true ∧ s1.initialized_ = true ∧ Aligned s1) s := by
  unfold init createInstanceForMetalSurface createSurfaceFromMetalLayer createDeviceAndQueues
    createSyncObjects
  simp only [wp_bind, wp_get, wp_call, wp_VK_CHECK, wp_modify, wp_pure, wp_ite, hs,
    Bool.false_eq_true, false_implies, true_and, not_false_eq_true, true_implies]
  intro _ _
  refine wp_of_forall fun _ s1 _ _ => ?_
  refine wp_mono (createSwapchain_spec _ _ _ _) ?_
  rintro _ s2 l2 ⟨chosen, views, fbs, lv, lf, _, hv, hf, rfl, _⟩
  refine wp_mono (createCommandResources_spec _ _) ?_
  rintro _ s3 l3 ⟨rfl, _⟩
  intro _ _ _
  simp [Aligned, hv, hf]

/-- A `drawFrame` call that returns keeps the resource lists aligned. -/
theorem drawFrame_aligned (env : FrameEnv) (s s1 : Renderer) (l : List Call)
    (ha : Aligned s) (hrun : (drawFrame env).run s = .ok () s1 l) : Aligned s1 := by
  rw [drawFrame_run] at hrun
  by_cases hi : s.initialized_ = true
  · by_cases hd : s.swapchainDirty_ = true
    · simp only [hi, hd, if_true] at hrun
      obtain ⟨_, s2, l2, l3, hrec, hfr, _⟩ := Res.bind_eq_ok hrun
      obtain ⟨chosen, views, fbs, lv, lf, _, hv, hf, rfl, _⟩ := recreate_spec env s _ s2 l2 hrec
      have := frame_spec env _ _ s1 l3 hfr
      subst this
      simp [Aligned, hv, hf]
    · simp only [hi, hd, if_true, if_false] at hrun
      have := frame_spec env _ _ s1 l hrun
      subst this
      exact ha
  · simp only [hi, if_false] at hrun
    cases hrun
    exact ha

/-- C4. Index-alignment invariant: in every state reachable from a successful
`init` by `resize` calls and `drawFrame` calls that return, the lists of
swapchain images, image views, framebuffers and command buffers all have the
same length, and that length is the number of images the driver holds for the
current swapchain. -/
theorem reachable_aligned (s : Renderer) (h : Reachable s) :
    s.swapchainImageViews_.length = s.swapchainImages_.length ∧
    s.framebuffers_.length = s.swapchainImages_.length ∧
    s.commandBuffers_.length = s.swapchainImages_.length ∧
    s.swapchainImages_.length = s.gpu.images.length ∧
    s.imageCount = s.gpu.images.length := by
  have ha : Aligned s := by
    induction h with
    | init env nativeLayer width height s l hrun =>
      exact (init_spec env nativeLayer width height {} rfl _ _ _ hrun).2.2
    | resize width height s s1 l _ hrun ih =>
      cases hrun
      exact ih
    | drawFrame env s s1 l _ hrun ih => exact drawFrame_aligned env s s1 l ih hrun
  exact ⟨ha.1, ha.2.1, ha.2.2.1, ha.2.2.2, ha.2.2.2⟩

theorem sampleRenderer_reachable : Reachable sampleRenderer :=
  Reachable.init sampleInitEnv 9 800 600 sampleRenderer sampleInitCalls (by decide)

theorem resizedRenderer_reachable : Reachable resizedRenderer :=
  Reachable.drawFrame (sampleFrameEnv 200 VK_SUCCESS VK_SUCCESS) _ resizedRenderer
    ((drawFrame (sampleFrameEnv 200 VK_SUCCESS VK_SUCCESS)).run
      { sampleRenderer with width_ := 1, height_ := 480, swapchainDirty_ := true }).log
    (Reachable.resize 0 480 sampleRenderer _ [] sampleRenderer_reachable rfl) (by decide)

/-- C4 on the renderer after `init`, a resize and a frame that recreated the
swapchain. -/
theorem reachable_aligned_witness :
    resizedRenderer.swapchainImageViews_.length = resizedRenderer.swapchainImages_.length ∧
    resizedRenderer.framebuffers_.length = resizedRenderer.swapchainImages_.length ∧
    resizedRenderer.commandBuffers_.length = resizedRenderer.swapchainImages_.length ∧
    resizedRenderer.swapchainImages_.length = resizedRenderer.gpu.images.length ∧
    resizedRenderer.imageCount = resizedRenderer.gpu.images.length :=
  reachable_aligned resizedRenderer resizedRenderer_reachable

/-- C3 as amended. For every width, height and driver: when `init` on a fresh
renderer returns, the `shutdown` that follows returns too, and afterwards the
getters `instance`, `device`, `renderPass` and `commandPool` return the null
handle and `imageCount` returns 0, while `physicalDevice` and `graphicsQueue`
still return the handles obtained by `init`. -/
theorem init_shutdown_getters (env : InitEnv) (nativeLayer width height : Nat) (s1 : Renderer)
    (l1 : List Call) (hinit : (init env nativeLayer width height).run {} = .ok true s1 l1) :
    ∃ s2 l2, shutdown.run s1 = .ok () s2 l2 ∧
      s2.instance = VK_NULL_HANDLE ∧ s2.device = VK_NULL_HANDLE ∧
      s2.renderPass = VK_NULL_HANDLE ∧ s2.commandPool = VK_NULL_HANDLE ∧
      s2.imageCount = 0 ∧
      s2.physicalDevice = s1.physicalDevice ∧ s2.graphicsQueue = s1.graphicsQueue := by
  have hi : s1.initialized_ = true :=
    (init_spec env nativeLayer width height {} rfl _ _ _ hinit).2.1
  refine ⟨shutdownState s1, shutdownCalls s1, by rw [shutdown_run, if_pos hi], ?_⟩
  simp [shutdownState, destroySwapchainState, Renderer.instance, Renderer.device,
    Renderer.renderPass, Renderer.commandPool, Renderer.imageCount, Renderer.physicalDevice,
    Renderer.graphicsQueue]

/-- C3 as amended, on the sample driver. -/
theorem init_shutdown_getters_witness :
    ∃ s2 l2, shutdown.run sampleRenderer = .ok () s2 l2 ∧
      s2.instance = VK_NULL_HANDLE ∧ s2.device = VK_NULL_HANDLE ∧
      s2.renderPass = VK_NULL_HANDLE ∧ s2.commandPool = VK_NULL_HANDLE ∧
      s2.imageCount = 0 ∧
      s2.physicalDevice = sampleRenderer.physicalDevice ∧
      s2.graphicsQueue = sampleRenderer.graphicsQueue :=
  init_shutdown_getters sampleInitEnv 9 800 600 sampleRenderer sampleInitCalls (by decide)

/-- C3 as stated fails: after `init` and `shutdown` with the sample driver,
`physicalDevice` still returns the adapter 3 and `graphicsQueue` the queue 5,
not the null handle. -/
theorem init_shutdown_stale_handles :
    (Res.state? ((init sampleInitEnv 9 800 600 >>= fun _ => shutdown).run {})).map
        (fun s => (s.physicalDevice, s.graphicsQueue)) = some (3, 5) ∧
    (3 : Handle) ≠ VK_NULL_HANDLE ∧ (5 : Handle) ≠ VK_NULL_HANDLE := by
  decide

/-! ## Claims about the negotiated image count -/

/-- When `createSwapchain` returns, the swapchain creations it issued are
exactly the one with the negotiated parameters. -/
theorem createSwapchain_calls (env : SwapchainEnv) (width height : Nat) (s s1 : Renderer)
    (l : List Call) (hrun : (createSwapchain env width height).run s = .ok () s1 l) :
    ∃ chosen, chosenFormat env.formats = some chosen ∧
      s1.swapchainMinImageCount_ = minImages env.caps ∧
      l.filter Call.isCreateSwapchain =
        [Call.createSwapchain s.device_ (swapchainCreateInfo s env.caps chosen width height)] := by
  obtain ⟨chosen, views, fbs, lv, lf, hch, _, _, rfl, rfl, hlv, hlf⟩ :=
    createSwapchain_spec env width height s _ s1 l hrun
  refine ⟨chosen, hch, rfl, ?_⟩
  have h1 : lv.filter Call.isCreateSwapchain = [] := by
    rw [List.filter_eq_nil_iff]
    intro c hc
    obtain ⟨d, i, f, rfl⟩ := hlv c hc
    simp [Call.isCreateSwapchain]
  have h2 : lf.filter Call.isCreateSwapchain = [] := by
    rw [List.filter_eq_nil_iff]
    intro c hc
    obtain ⟨d, r, v, e, rfl⟩ := hlf c hc
    simp [Call.isCreateSwapchain]
  by_cases hrp : s.renderPass_ = VK_NULL_HANDLE <;>
    simp [List.filter_append, List.filter_cons, Call.isCreateSwapchain, h1, h2, hrp]

theorem mem_of_filter_eq_singleton {p : Call → Bool} {l : List Call} {c0 c : Call}
    (h : l.filter p = [c0]) (hc : c ∈ l) (hp : p c = true) : c = c0 := by
  have : c ∈ l.filter p := List.mem_filter.mpr ⟨hc, hp⟩
  rw [h] at this
  simpa using this

/-- C9. Image-count negotiation: when `createSwapchain` returns, for a surface
with minimum count m and maximum count M, the image count requested in the
(one) swapchain creation it issued equals max(2, m) when M = 0 and
min(max(2, m), M) when M > 0, and `minImageCount()` returns that same value. -/
theorem createSwapchain_minImageCount (env : SwapchainEnv) (width height : Nat)
    (s s1 : Renderer) (l : List Call)
    (hrun : (createSwapchain env width height).run s = .ok () s1 l) :
    (∃ d sci, Call.createSwapchain d sci ∈ l) ∧
    (∀ d sci, Call.createSwapchain d sci ∈ l →
      sci.minImageCount =
        if env.caps.maxImageCount = 0 then max 2 env.caps.minImageCount
        else min (max 2 env.caps.minImageCount) env.caps.maxImageCount) ∧
    s1.minImageCount =
      (if env.caps.maxImageCount = 0 then max 2 env.caps.minImageCount
       else min (max 2 env.caps.minImageCount) env.caps.maxImageCount) := by
  obtain ⟨chosen, _, hmin, hl⟩ := createSwapchain_calls env width height s s1 l hrun
  refine ⟨⟨_, _, (List.mem_filter.mp (by rw [hl]; exact List.mem_singleton_self _)).1⟩, ?_, ?_⟩
  · intro d sci hmem
    have := mem_of_filter_eq_singleton hl hmem rfl
    cases this
    simp [swapchainCreateInfo, minImages_eq]
  · simp [Renderer.minImageCount, hmin, minImages_eq]

/-- C9 on the sample driver (m = 2, M = 3): 2 images are requested. -/
theorem createSwapchain_minImageCount_witness :
    (∃ d sci, Call.createSwapchain d sci ∈ swapchainOnlyCalls) ∧
    (∀ d sci, Call.createSwapchain d sci ∈ swapchainOnlyCalls →
      sci.minImageCount =
        if (sampleSwapchainEnv 100).caps.maxImageCount = 0 then
          max 2 (sampleSwapchainEnv 100).caps.minImageCount
        else min (max 2 (sampleSwapchainEnv 100).caps.minImageCount)
          (sampleSwapchainEnv 100).caps.maxImageCount) ∧
    swapchainOnly.minImageCount =
      (if (sampleSwapchainEnv 100).caps.maxImageCount = 0 then
        max 2 (sampleSwapchainEnv 100).caps.minImageCount
       else min (max 2 (sampleSwapchainEnv 100).caps.minImageCount)
        (sampleSwapchainEnv 100).caps.maxImageCount) :=
  createSwapchain_minImageCount (sampleSwapchainEnv 100) 800 600 {} swapchainOnly
    swapchainOnlyCalls (by decide)

/-- C5 as stated fails: for a surface with minimum and maximum image count 1,
`createSwapchain` returns and the negotiated count, which `minImageCount()`
returns, is 1, below 2. -/
theorem minImages_below_two :
    (Res.state? ((createSwapchain { sampleSwapchainEnv 100 with caps := singleImageCaps }
        800 600).run {})).map Renderer.minImageCount = some 1 ∧
    minImages singleImageCaps = 1 ∧ ¬ 2 ≤ minImages singleImageCaps := by
  decide

/-- C5 as amended. When `createSwapchain` returns, the image count it requested
from the driver, which `minImageCount()` returns, is at most the surface's
maximum image count when that maximum is bounded (non-zero), and at least 2
whenever the maximum is unbounded or at least 2. -/
theorem createSwapchain_imageCount_bounds (env : SwapchainEnv) (width height : Nat)
    (s s1 : Renderer) (l : List Call)
    (hrun : (createSwapchain env width height).run s = .ok () s1 l) :
    (∀ d sci, Call.createSwapchain d sci ∈ l → sci.minImageCount = s1.minImageCount) ∧
    (env.caps.maxImageCount ≠ 0 → s1.minImageCount ≤ env.caps.maxImageCount) ∧
    (env.caps.maxImageCount = 0 ∨ 2 ≤ env.caps.maxImageCount → 2 ≤ s1.minImageCount) := by
  obtain ⟨chosen, _, hmin, hl⟩ := createSwapchain_calls env width height s s1 l hrun
  refine ⟨?_, ?_, ?_⟩
  · intro d sci hmem
    have := mem_of_filter_eq_singleton hl hmem rfl
    cases this
    simp [swapchainCreateInfo, Renderer.minImageCount, hmin]
  · intro hM
    simp only [Renderer.minImageCount, hmin, minImages_eq, hM, if_false]
    exact Nat.min_le_right _ _
  · intro hM
    simp only [Renderer.minImageCount, hmin, minImages_eq]
    split <;> omega

/-- C5 as amended, on the sample driver (maximum 3) entered from a fresh
renderer. -/
theorem createSwapchain_imageCount_bounds_witness :
    (∀ d sci, Call.createSwapchain d sci ∈ swapchainOnlyCalls →
      sci.minImageCount = swapchainOnly.minImageCount) ∧
    ((sampleSwapchainEnv 100).caps.maxImageCount ≠ 0 →
      swapchainOnly.minImageCount ≤ (sampleSwapchainEnv 100).caps.maxImageCount) ∧
    ((sampleSwapchainEnv 100).caps.maxImageCount = 0 ∨
        2 ≤ (sampleSwapchainEnv 100).caps.maxImageCount →
      2 ≤ swapchainOnly.minImageCount) :=
  createSwapchain_imageCount_bounds (sampleSwapchainEnv 100) 800 600 {} swapchainOnly
    swapchainOnlyCalls (by decide)

/-- The loop of `hasInstanceExtension` and `hasDeviceExtension` finds a name
exactly when it is among the enumerated names. -/
theorem hasExtension_iff_mem (exts : List String) (name : String) :
    hasExtension exts name = true ↔ name ∈ exts := by
  unfold hasExtension
  rw [List.any_eq_true]
  constructor
  · rintro ⟨e, he, heq⟩
    rw [beq_iff_eq] at heq
    exact heq ▸ he
  · intro h
    exact ⟨name, h, beq_self_eq_true name⟩

/-- An adapter qualifies exactly when the extension test of `scanDevices`
succeeds on it and one of its families is suitable. -/
theorem qualifies_eq_hasExtension (pd : PhysicalDevice) :
    pd.qualifies =
      (hasExtension pd.extensions VK_KHR_SWAPCHAIN_EXTENSION_NAME &&
        pd.queueFamilies.any QueueFamily.suitable) := by
  unfold PhysicalDevice.qualifies
  congr 1
  rw [Bool.eq_iff_iff, decide_eq_true_iff, hasExtension_iff_mem]

theorem lowestSuitable_eq_none {qs : List QueueFamily} :
    lowestSuitable qs = none ↔ qs.any QueueFamily.suitable = false := by
  induction qs with
  | nil => simp [lowestSuitable]
  | cons q rest ih =>
    by_cases hq : q.suitable = true
    · simp [lowestSuitable, hq]
    · simp [lowestSuitable, hq, ih]

theorem lowestSuitable_eq_some {qs : List QueueFamily} {i : Nat}
    (h : lowestSuitable qs = some i) :
    (∃ q, qs[i]? = some q ∧ q.suitable = true) ∧
    ∀ j, j < i → ∀ q, qs[j]? = some q → q.suitable = false := by
  induction qs generalizing i with
  | nil => simp [lowestSuitable] at h
  | cons q rest ih =>
    by_cases hq : q.suitable = true
    · simp only [lowestSuitable, hq, if_true, Option.some.injEq] at h
      subst h
      exact ⟨⟨q, by simp, hq⟩, fun j hj => absurd hj (Nat.not_lt_zero j)⟩
    · simp only [lowestSuitable, hq, Bool.false_eq_true, if_false, Option.map_eq_some'] at h
      obtain ⟨k, hk, rfl⟩ := h
      obtain ⟨⟨q2, hq2, hs2⟩, hlow⟩ := ih hk
      refine ⟨⟨q2, by rw [List.getElem?_cons_succ]; exact hq2, hs2⟩, ?_⟩
      intro j hj q3 hq3
      cases j with
      | zero =>
        simp only [List.getElem?_cons_zero, Option.some.injEq] at hq3
        subst hq3
        simpa using hq
      | succ j =>
        simp only [List.getElem?_cons_succ] at hq3
        exact hlow j (by omega) q3 hq3

theorem selection_eq_none {devs : List PhysicalDevice} :
    selection devs = none ↔ ∀ pd ∈ devs, pd.qualifies = false := by
  induction devs with
  | nil => simp [selection]
  | cons pd rest ih =>
    by_cases hq : pd.qualifies = true
    · have hany : pd.queueFamilies.any QueueFamily.suitable = true := by
        simp only [qualifies_eq_hasExtension, Bool.and_eq_true] at hq
        exact hq.2
      have hne : lowestSuitable pd.queueFamilies ≠ none := by
        rw [Ne, lowestSuitable_eq_none, hany]
        exact Bool.noConfusion
      cases hl : lowestSuitable pd.queueFamilies with
      | none => exact absurd hl hne
      | some i => simp [selection, hq, hl]
    · simp only [Bool.not_eq_true] at hq
      simp [selection, hq, ih]

theorem selection_eq_some {devs : List PhysicalDevice} {h : Handle} {i : Nat}
    (hsel : selection devs = some (h, i)) :
    ∃ (k : Nat) (pd : PhysicalDevice) (q : QueueFamily),
      devs[k]? = some pd ∧ pd.handle = h ∧ pd.qualifies = true ∧
      (∀ j, j < k → ∀ pd2 : PhysicalDevice, devs[j]? = some pd2 → pd2.qualifies = false) ∧
      pd.queueFamilies[i]? = some q ∧ q.suitable = true ∧
      ∀ j, j < i → ∀ q2 : QueueFamily, pd.queueFamilies[j]? = some q2 → q2.suitable = false := by
  induction devs with
  | nil => simp [selection] at hsel
  | cons pd rest ih =>
    by_cases hq : pd.qualifies = true
    · simp only [selection, hq, if_true, Option.map_eq_some', Prod.mk.injEq] at hsel
      obtain ⟨i2, hi2, rfl, rfl⟩ := hsel
      obtain ⟨⟨q, hqi, hqs⟩, hlow⟩ := lowestSuitable_eq_some hi2
      exact ⟨0, pd, q, by simp, rfl, hq, fun j hj => absurd hj (Nat.not_lt_zero j), hqi, hqs, hlow⟩
    · simp only [Bool.not_eq_true] at hq
      simp only [selection, hq, Bool.false_eq_true, if_false] at hsel
      obtain ⟨k, pd2, q, hk, hh, hq2, hbefore, hrest⟩ := ih hsel
      refine ⟨k + 1, pd2, q, by rw [List.getElem?_cons_succ]; exact hk, hh, hq2, ?_, hrest⟩
      intro j hj pd3 hpd3
      cases j with
      | zero =>
        simp only [List.getElem?_cons_zero, Option.some.injEq] at hpd3
        subst hpd3
        exact hq
      | succ j =>
        simp only [List.getElem?_cons_succ] at hpd3
        exact hbefore j (by omega) pd3 hpd3

/-- The family scan when every surface-support query succeeds: it returns, and
selects the first suitable family if there is one. -/
theorem scanQueueFamilies_run (pd : Handle) (qs : List QueueFamily) (i0 : Nat) (s : Renderer)
    (hsupport : ∀ q ∈ qs, q.supportResult = VK_SUCCESS) :
    ∃ l, (∀ c ∈ l, ∃ f sf, c = Call.getPhysicalDeviceSurfaceSupport pd f sf) ∧
      (scanQueueFamilies pd i0 qs).run s =
        match lowestSuitable qs with
        | some k => .ok true { s with physicalDevice_ := pd, queueFamilyIndex_ := i0 + k } l
        | none => .ok false s l := by
  induction qs generalizing i0 with
  | nil => exact ⟨[], by simp, rfl⟩
  | cons q rest ih =>
    have hq := hsupport q (List.mem_cons_self _ _)
    obtain ⟨l, hl, hrun⟩ := ih (i0 + 1) (fun q2 h2 => hsupport q2 (List.mem_cons_of_mem _ h2))
    by_cases hg : q.queueFlags &&& VK_QUEUE_GRAPHICS_BIT = 0
    · refine ⟨l, hl, ?_⟩
      have hsu : q.suitable = false := by simp [QueueFamily.suitable, hg]
      simp only [scanQueueFamilies, hg, if_true, hrun, lowestSuitable, hsu, Bool.false_eq_true,
        if_false]
      cases lowestSuitable rest <;> simp [Nat.add_assoc, Nat.add_comm 1]
    · by_cases hp : q.presentSupported = true
      · refine ⟨[Call.getPhysicalDeviceSurfaceSupport pd i0 s.surface_], ?_, ?_⟩
        · intro c hc
          exact ⟨_, _, List.mem_singleton.mp hc⟩
        · have hsu : q.suitable = true := by simp [QueueFamily.suitable, hg, hp]
          simp [scanQueueFamilies, hg, hq, hp, lowestSuitable, hsu]
      · refine ⟨Call.getPhysicalDeviceSurfaceSupport pd i0 s.surface_ :: l, ?_, ?_⟩
        · intro c hc
          rcases List.mem_cons.mp hc with hc | hc
          · exact ⟨_, _, hc⟩
          · exact hl c hc
        · have hsu : q.suitable = false := by simp [QueueFamily.suitable, hp]
          simp only [scanQueueFamilies, hg, if_false, run_bind, run_get, Res.bind_ok, run_call,
            hq, run_VK_CHECK_success, hp, Bool.false_eq_true, hrun, lowestSuitable, hsu,
            Res.prepend_nil, Res.prepend_ok, List.nil_append]
          cases lowestSuitable rest <;> simp [Nat.add_assoc, Nat.add_comm 1]

/-- The adapter scan when every surface-support query succeeds: it returns, and
selects the first qualifying adapter with its first suitable family if there is
one. -/
theorem scanDevices_run (devs : List PhysicalDevice) (s : Renderer)
    (hsupport : ∀ pd ∈ devs, ∀ q ∈ pd.queueFamilies, q.supportResult = VK_SUCCESS) :
    ∃ l, (∀ c ∈ l, c.isAdapterQuery = true) ∧
      (scanDevices devs).run s =
        match selection devs with
        | some (h, i) => .ok true { s with physicalDevice_ := h, queueFamilyIndex_ := i } l
        | none => .ok false s l := by
  induction devs with
  | nil => exact ⟨[], by simp, rfl⟩
  | cons pd rest ih =>
    obtain ⟨l, hl, hrun⟩ := ih (fun pd2 h2 => hsupport pd2 (List.mem_cons_of_mem _ h2))
    by_cases hext : hasExtension pd.extensions VK_KHR_SWAPCHAIN_EXTENSION_NAME = true
    · obtain ⟨lq, hlq, hq⟩ :=
        scanQueueFamilies_run pd.handle pd.queueFamilies 0 s
          (hsupport pd (List.mem_cons_self _ _))
      have hlq2 : ∀ c ∈ lq, c.isAdapterQuery = true := by
        intro c hc
        obtain ⟨f, sf, rfl⟩ := hlq c hc
        rfl
      cases hlow : lowestSuitable pd.queueFamilies with
      | none =>
        have hqual : pd.qualifies = false := by
          simp [qualifies_eq_hasExtension, hext, lowestSuitable_eq_none.mp hlow]
        rw [hlow] at hq
        refine ⟨[Call.enumerateDeviceExtensionProperties pd.handle,
          Call.enumerateDeviceExtensionProperties pd.handle,
          Call.getPhysicalDeviceQueueFamilyProperties pd.handle,
          Call.getPhysicalDeviceQueueFamilyProperties pd.handle] ++ lq ++ l, ?_, ?_⟩
        · intro c hc
          simp only [List.mem_append, List.mem_cons, List.mem_singleton, List.not_mem_nil,
            or_false] at hc
          rcases hc with (((rfl | rfl | rfl | rfl) | hc) | hc)
          · rfl
          · rfl
          · rfl
          · rfl
          · exact hlq2 c hc
          · exact hl c hc
        · simp only [scanDevices, run_bind, run_call, Res.bind_ok, hext, Bool.not_true,
            Bool.false_eq_true, if_false, hq, hrun, selection, hqual]
          cases selection rest with
          | none => simp
          | some p => simp
      | some k =>
        have hqual : pd.qualifies = true := by
          have : pd.queueFamilies.any QueueFamily.suitable ≠ false := by
            intro h
            rw [lowestSuitable_eq_none.mpr h] at hlow
            cases hlow
          simp only [qualifies_eq_hasExtension, hext, Bool.true_and]
          simpa using this
        rw [hlow] at hq
        refine ⟨[Call.enumerateDeviceExtensionProperties pd.handle,
          Call.enumerateDeviceExtensionProperties pd.handle,
          Call.getPhysicalDeviceQueueFamilyProperties pd.handle,
          Call.getPhysicalDeviceQueueFamilyProperties pd.handle] ++ lq, ?_, ?_⟩
        · intro c hc
          simp only [List.mem_append, List.mem_cons, List.mem_singleton, List.not_mem_nil,
            or_false] at hc
          rcases hc with ((rfl | rfl | rfl | rfl) | hc)
          · rfl
          · rfl
          · rfl
          · rfl
          · exact hlq2 c hc
        · simp [scanDevices, hext, hq, selection, hqual, hlow]
    · have hqual : pd.qualifies = false := by
        simp only [Bool.not_eq_true] at hext
        simp [qualifies_eq_hasExtension, hext]
      refine ⟨[Call.enumerateDeviceExtensionProperties pd.handle,
        Call.enumerateDeviceExtensionProperties pd.handle] ++ l, ?_, ?_⟩
      · intro c hc
        simp only [List.mem_append, List.mem_cons, List.mem_singleton, List.not_mem_nil,
          or_false] at hc
        rcases hc with ((rfl | rfl) | hc)
        · rfl
        · rfl
        · exact hl c hc
      · simp only [Bool.not_eq_true] at hext
        simp only [scanDevices, run_bind, run_call, Res.bind_ok, hext, Bool.not_false, if_true,
          hrun, selection, hqual, Bool.false_eq_true, if_false]
        cases selection rest with
        | none => simp
        | some p => simp

/-- The function `pickPhysicalDevice` when every driver query succeeds: it
returns with the first qualifying adapter and its first suitable family
selected, or aborts when no adapter qualifies. -/
theorem pickPhysicalDevice_run (env : InitEnv) (s : Renderer)
    (hcount : env.deviceCountResult = VK_SUCCESS) (hdevices : env.devicesResult = VK_SUCCESS)
    (hsupport : ∀ pd ∈ env.devices, ∀ q ∈ pd.queueFamilies, q.supportResult = VK_SUCCESS) :
    ∃ l, (∀ c ∈ l, c.isAdapterQuery = true) ∧
      (pickPhysicalDevice env).run s =
        match selection env.devices with
        | some (h, i) => .ok () { s with physicalDevice_ := h, queueFamilyIndex_ := i } l
        | none => .abort l := by
  by_cases hlen : env.devices.length = 0
  · refine ⟨[Call.enumeratePhysicalDevices s.instance_], ?_, ?_⟩
    · intro c hc
      rw [List.mem_singleton.mp hc]
      rfl
    · have hnil : env.devices = [] := List.length_eq_zero.mp hlen
      simp [pickPhysicalDevice, hcount, hlen, hnil, selection]
  · obtain ⟨l, hl, hrun⟩ := scanDevices_run env.devices s hsupport
    refine ⟨[Call.enumeratePhysicalDevices s.instance_,
      Call.enumeratePhysicalDevices s.instance_] ++ l, ?_, ?_⟩
    · intro c hc
      simp only [List.mem_append, List.mem_cons, List.mem_singleton, List.not_mem_nil,
        or_false] at hc
      rcases hc with ((rfl | rfl) | hc)
      · rfl
      · rfl
      · exact hl c hc
    · simp only [pickPhysicalDevice, run_bind, run_get, Res.bind_ok, run_call, hcount,
        run_VK_CHECK_success, hlen, if_false, hdevices, hrun, Res.prepend_nil]
      cases selection env.devices with
      | none => simp
      | some p => simp

/-- C11. Device selection. For every enumerated list of adapters whose queries
the driver answers (the two enumerations and every surface-support query
succeed): when some adapter supports the presentation extension and has a queue
family supporting both graphics and presentation, `pickPhysicalDevice` returns
with the first such adapter in enumeration order selected, together with the
lowest-index such family of that adapter; and it aborts if and only if no
adapter qualifies. -/
theorem pickPhysicalDevice_selects (env : InitEnv) (s : Renderer)
    (hcount : env.deviceCountResult = VK_SUCCESS) (hdevices : env.devicesResult = VK_SUCCESS)
    (hsupport : ∀ pd ∈ env.devices, ∀ q ∈ pd.queueFamilies, q.supportResult = VK_SUCCESS) :
    ((∃ pd ∈ env.devices, pd.qualifies = true) →
      ∃ (k : Nat) (pd : PhysicalDevice) (i : Nat) (q : QueueFamily) (s1 : Renderer)
          (l : List Call),
        env.devices[k]? = some pd ∧ pd.qualifies = true ∧
        (∀ j, j < k → ∀ pd2 : PhysicalDevice, env.devices[j]? = some pd2 →
          pd2.qualifies = false) ∧
        pd.queueFamilies[i]? = some q ∧ q.suitable = true ∧
        (∀ j, j < i → ∀ q2 : QueueFamily, pd.queueFamilies[j]? = some q2 →
          q2.suitable = false) ∧
        (pickPhysicalDevice env).run s = .ok () s1 l ∧
        s1.physicalDevice_ = pd.handle ∧ s1.queueFamilyIndex_ = i) ∧
    ((∃ l, (pickPhysicalDevice env).run s = .abort l) ↔
      ∀ pd ∈ env.devices, pd.qualifies = false) := by
  obtain ⟨l, _, hrun⟩ := pickPhysicalDevice_run env s hcount hdevices hsupport
  cases hsel : selection env.devices with
  | none =>
    rw [hsel] at hrun
    have hnone := selection_eq_none.mp hsel
    refine ⟨?_, ?_⟩
    · rintro ⟨pd, hpd, hq⟩
      rw [hnone pd hpd] at hq
      cases hq
    · exact ⟨fun _ => hnone, fun _ => ⟨l, hrun⟩⟩
  | some p =>
    obtain ⟨h, i⟩ := p
    rw [hsel] at hrun
    obtain ⟨k, pd, q, hk, hh, hq, hbefore, hqi, hqs, hlow⟩ := selection_eq_some hsel
    refine ⟨fun _ => ⟨k, pd, i, q, _, l, hk, hq, hbefore, hqi, hqs, hlow, hrun, hh.symm, rfl⟩, ?_⟩
    constructor
    · rintro ⟨l2, hl2⟩
      rw [hrun] at hl2
      cases hl2
    · intro hall
      have := selection_eq_none.mpr hall
      rw [hsel] at this
      cases this

/-- C11 on four adapters: 31 lacks the swapchain extension; 32 has it but no
family with both graphics and present support; 33 has it and family 2 is its
first family with both; 34 qualifies too. The selection is adapter 33 (index 2
of the enumeration) with family 2, and the characterisation leaves no other
choice. -/
theorem pickPhysicalDevice_selects_witness :
    ∃ (k : Nat) (pd : PhysicalDevice) (i : Nat) (q : QueueFamily) (s1 : Renderer)
        (l : List Call),
      adapterEnv.devices[k]? = some pd ∧ pd.qualifies = true ∧
      (∀ j, j < k → ∀ pd2 : PhysicalDevice, adapterEnv.devices[j]? = some pd2 →
        pd2.qualifies = false) ∧
      pd.queueFamilies[i]? = some q ∧ q.suitable = true ∧
      (∀ j, j < i → ∀ q2 : QueueFamily, pd.queueFamilies[j]? = some q2 →
        q2.suitable = false) ∧
      (pickPhysicalDevice adapterEnv).run {} = .ok () s1 l ∧
      s1.physicalDevice_ = pd.handle ∧ s1.queueFamilyIndex_ = i ∧
      k = 2 ∧ s1.physicalDevice_ = 33 ∧ s1.queueFamilyIndex_ = 2 := by
  obtain ⟨k, pd, i, q, s1, l, hk, hq, hbefore, hqi, hqs, hlow, hrun, hpd, hi⟩ :=
    (pickPhysicalDevice_selects adapterEnv {} rfl rfl (by decide)).1
      ⟨⟨33, ["VK_KHR_maintenance1", VK_KHR_SWAPCHAIN_EXTENSION_NAME],
         [⟨2, VK_SUCCESS, true⟩, ⟨3, VK_SUCCESS, false⟩, ⟨7, VK_SUCCESS, true⟩,
          ⟨1, VK_SUCCESS, true⟩]⟩, by simp [adapterEnv, sampleAdapters], by decide⟩
  have hk2 : k = 2 := by
    rcases k with _ | _ | _ | _ | k
    · simp only [adapterEnv, sampleAdapters, List.getElem?_cons_zero, Option.some.injEq] at hk
      subst hk
      exact absurd hq (by decide)
    · simp only [adapterEnv, sampleAdapters, List.getElem?_cons_succ, List.getElem?_cons_zero,
        Option.some.injEq] at hk
      subst hk
      exact absurd hq (by decide)
    · rfl
    · have := hbefore 2 (by omega)
        ⟨33, ["VK_KHR_maintenance1", VK_KHR_SWAPCHAIN_EXTENSION_NAME],
          [⟨2, VK_SUCCESS, true⟩, ⟨3, VK_SUCCESS, false⟩, ⟨7, VK_SUCCESS, true⟩,
           ⟨1, VK_SUCCESS, true⟩]⟩ rfl
      exact absurd this (by decide)
    · simp [adapterEnv, sampleAdapters] at hk
  subst hk2
  simp only [adapterEnv, sampleAdapters, List.getElem?_cons_succ, List.getElem?_cons_zero,
    Option.some.injEq] at hk
  subst hk
  have hi2 : i = 2 := by
    rcases i with _ | _ | _ | _ | i
    · simp only [List.getElem?_cons_zero, Option.some.injEq] at hqi
      subst hqi
      exact absurd hqs (by decide)
    · simp only [List.getElem?_cons_succ, List.getElem?_cons_zero, Option.some.injEq] at hqi
      subst hqi
      exact absurd hqs (by decide)
    · rfl
    · have := hlow 2 (by omega) ⟨7, VK_SUCCESS, true⟩ rfl
      exact absurd this (by decide)
    · simp at hqi
  subst hi2
  exact ⟨2, _, 2, q, s1, l, by simp [adapterEnv, sampleAdapters], hq, hbefore, hqi, hqs, hlow,
    hrun, hpd, hi, rfl, hpd, hi⟩

/-- Whatever the driver answers, the family scan only assigns the selected
adapter and family and only issues adapter queries. -/
theorem scanQueueFamilies_frame (pd : Handle) (qs : List QueueFamily) (i0 : Nat) (s : Renderer) :
    wp (scanQueueFamilies pd i0 qs)
      (fun _ s1 l =>
        (∃ h i, s1 = { s with physicalDevice_ := h, queueFamilyIndex_ := i }) ∧
        ∀ c ∈ l, c.isAdapterQuery = true) s := by
  induction qs generalizing i0 with
  | nil =>
    simp only [scanQueueFamilies, wp_pure]
    exact ⟨⟨s.physicalDevice_, s.queueFamilyIndex_, rfl⟩, by simp⟩
  | cons q rest ih =>
    by_cases hg : q.queueFlags &&& VK_QUEUE_GRAPHICS_BIT = 0
    · simp only [scanQueueFamilies, hg, if_true]
      exact ih (i0 + 1)
    · simp only [scanQueueFamilies, hg, if_false, wp_bind, wp_get, wp_call, wp_VK_CHECK,
        List.nil_append]
      intro _
      by_cases hp : q.presentSupported = true
      · simp only [hp, if_true, wp_bind, wp_modify, wp_pure]
        exact ⟨⟨pd, i0, rfl⟩, by simp [Call.isAdapterQuery]⟩
      · simp only [hp, Bool.false_eq_true, if_false]
        refine wp_mono (ih (i0 + 1)) ?_
        rintro _ s1 l ⟨hs, hl⟩
        refine ⟨hs, ?_⟩
        intro c hc
        simp only [List.append_nil, List.mem_append, List.mem_singleton] at hc
        rcases hc with rfl | hc
        · rfl
        · exact hl c hc

theorem scanDevices_frame (devs : List PhysicalDevice) (s : Renderer) :
    wp (scanDevices devs)
      (fun _ s1 l =>
        (∃ h i, s1 = { s with physicalDevice_ := h, queueFamilyIndex_ := i }) ∧
        ∀ c ∈ l, c.isAdapterQuery = true) s := by
  induction devs generalizing s with
  | nil =>
    simp only [scanDevices, wp_pure]
    exact ⟨⟨s.physicalDevice_, s.queueFamilyIndex_, rfl⟩, by simp⟩
  | cons pd rest ih =>
    by_cases hext : hasExtension pd.extensions VK_KHR_SWAPCHAIN_EXTENSION_NAME = true
    · simp only [scanDevices, hext, Bool.not_true, Bool.false_eq_true, if_false, wp_bind,
        wp_call, List.nil_append]
      refine wp_mono (scanQueueFamilies_frame pd.handle pd.queueFamilies 0 s) ?_
      rintro found s1 l ⟨⟨h, i, rfl⟩, hl⟩
      have hpre : ∀ c ∈ [Call.enumerateDeviceExtensionProperties pd.handle,
          Call.enumerateDeviceExtensionProperties pd.handle,
          Call.getPhysicalDeviceQueueFamilyProperties pd.handle,
          Call.getPhysicalDeviceQueueFamilyProperties pd.handle] ++ l,
          c.isAdapterQuery = true := by
        intro c hc
        simp only [List.mem_append, List.mem_cons, List.mem_singleton, List.not_mem_nil,
          or_false] at hc
        rcases hc with (hc | hc | hc | hc) | hc
        · rw [hc]; rfl
        · rw [hc]; rfl
        · rw [hc]; rfl
        · rw [hc]; rfl
        · exact hl c hc
      cases found with
      | true =>
        simp only [if_true, wp_pure]
        exact ⟨⟨h, i, rfl⟩, by simpa using hpre⟩
      | false =>
        simp only [Bool.false_eq_true, if_false]
        refine wp_mono (ih _) ?_
        rintro _ s2 l2 ⟨⟨h2, i2, rfl⟩, hl2⟩
        refine ⟨⟨h2, i2, rfl⟩, ?_⟩
        intro c hc
        simp only [List.cons_append, List.nil_append, List.mem_cons, List.mem_append] at hc
        rcases hc with hc | hc | hc | hc | hc | hc
        · rw [hc]; rfl
        · rw [hc]; rfl
        · rw [hc]; rfl
        · rw [hc]; rfl
        · exact hl c hc
        · exact hl2 c hc
    · simp only [Bool.not_eq_true] at hext
      simp only [scanDevices, hext, Bool.not_false, if_true, wp_bind, wp_call, List.nil_append]
      refine wp_mono (ih _) ?_
      rintro _ s2 l2 ⟨hs, hl2⟩
      refine ⟨hs, ?_⟩
      intro c hc
      simp only [List.cons_append, List.nil_append, List.mem_cons, List.mem_append] at hc
      rcases hc with hc | hc | hc
      · rw [hc]; rfl
      · rw [hc]; rfl
      · exact hl2 c hc

/-- Whatever the driver answers, `pickPhysicalDevice` only assigns the selected
adapter and family and only issues adapter queries. -/
theorem pickPhysicalDevice_frame (env : InitEnv) (s : Renderer) :
    wp (pickPhysicalDevice env)
      (fun _ s1 l =>
        (∃ h i, s1 = { s with physicalDevice_ := h, queueFamilyIndex_ := i }) ∧
        ∀ c ∈ l, c.isAdapterQuery = true) s := by
  unfold pickPhysicalDevice
  by_cases hlen : env.devices.length = 0
  · simp [hlen]
  · simp only [wp_bind, wp_get, wp_call, wp_VK_CHECK, hlen, if_false, List.nil_append]
    intro _ _
    refine wp_mono (scanDevices_frame env.devices s) ?_
    rintro found s1 l ⟨hs, hl⟩
    cases found with
    | true =>
      simp only [if_true, wp_pure]
      refine ⟨hs, ?_⟩
      intro c hc
      simp only [List.cons_append, List.nil_append, List.append_nil, List.mem_cons,
        List.mem_append] at hc
      rcases hc with hc | hc | hc
      · rw [hc]; rfl
      · rw [hc]; rfl
      · exact hl c hc
    | false => simp

/-! ## Loops, iteration by iteration -/

theorem forEach_append {α : Type} (body : α → VkM Unit) (xs ys : List α) :
    forEach body (xs ++ ys) = (forEach body xs >>= fun _ => forEach body ys) := by
  induction xs with
  | nil => simp [forEach_nil]
  | cons x rest ih => simp [forEach_cons, ih]

theorem forIdx_succ (n : Nat) (body : Nat → VkM Unit) :
    forIdx (n + 1) body = (forIdx n body >>= fun _ => body n) := by
  unfold forIdx
  rw [List.range_succ, forEach_append]
  congr
  funext _
  simp [forEach_cons, forEach_nil]

/-- Counting loop rule: a property of the number of iterations done, the state
and the calls so far, that iteration `i` takes from `i` to `i + 1`. -/
theorem wp_forIdx_count {body : Nat → VkM Unit} (I : Nat → Renderer → List Call → Prop)
    (n : Nat)
    (hstep : ∀ i s l, i < n → I i s l → wp (body i) (fun _ s1 l1 => I (i + 1) s1 (l ++ l1)) s)
    (s : Renderer) (h0 : I 0 s []) :
    wp (forIdx n body) (fun _ s1 l1 => I n s1 l1) s := by
  have hk : ∀ k, k ≤ n → wp (forIdx k body) (fun _ s1 l1 => I k s1 l1) s := by
    intro k
    induction k with
    | zero =>
      intro _
      simpa [forIdx, forEach_nil] using h0
    | succ k ih =>
      intro hle
      rw [forIdx_succ, wp_bind]
      refine wp_mono (ih (by omega)) ?_
      intro _ s1 l1 h1
      exact hstep k s1 l1 (by omega) h1
  exact hk n (Nat.le_refl n)

theorem eq_map_range_of_getElem? {vs : List Handle} {n : Nat} {f : Nat → Handle}
    (hlen : vs.length = n) (h : ∀ i, i < n → vs[i]? = some (f i)) :
    vs = (List.range n).map f := by
  apply List.ext_getElem?
  intro i
  by_cases hi : i < n
  · rw [h i hi]
    simp [hi]
  · rw [List.getElem?_eq_none (by omega), List.getElem?_eq_none (by simp; omega)]

/-- The image-view loop of `createSwapchain`, exactly: from a state whose view
list has one slot per image, view `i` becomes the handle the driver hands out
for it, and the calls are one view creation per image, in index order. -/
theorem createImageViews_exact (env : SwapchainEnv) (s0 : Renderer)
    (hlen : s0.swapchainImageViews_.length = s0.swapchainImages_.length) :
    wp
      (forIdx s0.swapchainImages_.length fun i => do
        let s ← get
        match s.swapchainImages_[i]? with
        | none => undef
        | some image =>
          call (.createImageView s.device_ image s.swapchainFormat_)
          VK_CHECK (env.viewResult i)
          modify fun s =>
            { s with swapchainImageViews_ := s.swapchainImageViews_.set i (env.view i) })
      (fun _ s1 l =>
        s1 = { s0 with swapchainImageViews_ :=
                (List.range s0.swapchainImages_.length).map env.view } ∧
        l = (List.range s0.swapchainImages_.length).map fun i =>
              Call.createImageView s0.device_ (s0.swapchainImages_.getD i 0)
                s0.swapchainFormat_) s0 := by
  refine wp_mono
    (wp_forIdx_count
      (fun k s1 l =>
        (∃ vs : List Handle, vs.length = s0.swapchainImages_.length ∧
          (∀ i, i < k → vs[i]? = some (env.view i)) ∧
          s1 = { s0 with swapchainImageViews_ := vs }) ∧
        l = (List.range k).map fun i =>
              Call.createImageView s0.device_ (s0.swapchainImages_.getD i 0)
                s0.swapchainFormat_)
      _ ?_ s0 ⟨⟨_, hlen, fun i hi => absurd hi (Nat.not_lt_zero i), rfl⟩, rfl⟩) ?_
  · rintro i s1 l hi ⟨⟨vs, hvs, hset, rfl⟩, rfl⟩
    simp only [wp_bind, wp_get]
    cases himg : s0.swapchainImages_[i]? with
    | none => simp
    | some image =>
      simp only [wp_bind, wp_call, wp_VK_CHECK, wp_modify, List.nil_append, List.append_nil]
      intro _
      refine ⟨⟨vs.set i (env.view i), by simpa using hvs, ?_, rfl⟩, ?_⟩
      · intro j hj
        by_cases hji : j = i
        · subst hji
          simp [List.getElem?_set, hvs, hi]
        · rw [List.getElem?_set_ne (Ne.symm hji)]
          exact hset j (by omega)
      · simp [List.range_succ, List.getD_eq_getElem?_getD, himg]
  · rintro _ s1 l ⟨⟨vs, hvs, hset, rfl⟩, rfl⟩
    exact ⟨by rw [eq_map_range_of_getElem? hvs hset], rfl⟩

/-- The function `createFramebuffers`, exactly: one framebuffer per image view,
created in index order. -/
theorem createFramebuffers_exact (env : SwapchainEnv) (s : Renderer) :
    wp (createFramebuffers env)
      (fun _ s1 l =>
        s1 = { s with framebuffers_ :=
                (List.range s.swapchainImageViews_.length).map env.framebuffer } ∧
        l = (List.range s.swapchainImageViews_.length).map fun i =>
              Call.createFramebuffer s.device_ s.renderPass_ (s.swapchainImageViews_.getD i 0)
                s.swapchainExtent_) s := by
  unfold createFramebuffers
  simp only [wp_bind, wp_modify, wp_get, List.nil_append]
  refine wp_mono
    (wp_forIdx_count
      (fun k s1 l =>
        (∃ fbs : List Handle, fbs.length = s.swapchainImageViews_.length ∧
          (∀ i, i < k → fbs[i]? = some (env.framebuffer i)) ∧
          s1 = { s with framebuffers_ := fbs }) ∧
        l = (List.range k).map fun i =>
              Call.createFramebuffer s.device_ s.renderPass_ (s.swapchainImageViews_.getD i 0)
                s.swapchainExtent_)
      _ ?_ _ ⟨⟨_, length_vectorResize _ _, fun i hi => absurd hi (Nat.not_lt_zero i), rfl⟩, rfl⟩)
    ?_
  · rintro i s1 l hi ⟨⟨fbs, hfbs, hset, rfl⟩, rfl⟩
    simp only [wp_bind, wp_get]
    cases hview : s.swapchainImageViews_[i]? with
    | none => simp
    | some view =>
      simp only [wp_bind, wp_call, wp_VK_CHECK, wp_modify, List.nil_append, List.append_nil]
      intro _
      refine ⟨⟨fbs.set i (env.framebuffer i), by simpa using hfbs, ?_, rfl⟩, ?_⟩
      · intro j hj
        by_cases hji : j = i
        · subst hji
          simp [List.getElem?_set, hfbs, hi]
        · rw [List.getElem?_set_ne (Ne.symm hji)]
          exact hset j (by omega)
      · simp [List.range_succ, List.getD_eq_getElem?_getD, hview]
  · rintro _ s1 l ⟨⟨fbs, hfbs, hset, rfl⟩, rfl⟩
    exact ⟨by rw [eq_map_range_of_getElem? hfbs hset], rfl⟩

/-- The function `createSwapchain`, exactly, when it returns. -/
theorem createSwapchain_exact (env : SwapchainEnv) (width height : Nat) (s : Renderer) :
    wp (createSwapchain env width height)
      (fun _ s1 l =>
        ∃ chosen, chosenFormat env.formats = some chosen ∧
          s1 = createSwapchainState env chosen width height s ∧
          l = createSwapchainCalls env chosen width height s) s := by
  unfold createSwapchain
  cases hch : chosenFormat env.formats with
  | none => simp
  | some chosen =>
    simp only [wp_bind, wp_get, wp_call, wp_VK_CHECK, wp_modify, List.nil_append,
      List.append_nil, List.singleton_append, List.cons_append]
    intro _ _ _ _ _ _
    have himgs : writeInto (vectorResize s.swapchainImages_ env.images.length) env.images =
        env.images := writeInto_eq _ _ (length_vectorResize _ _)
    rw [himgs]
    have hloop := createImageViews_exact env
      { s with
          swapchain_ := env.swapchain
          gpu := { s.gpu with images := env.images }
          swapchainFormat_ := chosen.format
          swapchainExtent_ := extent env.caps width height
          swapchainMinImageCount_ := minImages env.caps
          swapchainImages_ := env.images
          swapchainImageViews_ := vectorResize s.swapchainImageViews_ env.images.length }
      (length_vectorResize _ _)
    refine wp_mono hloop ?_
    rintro _ s1 l1 ⟨rfl, rfl⟩
    refine wp_mono (createRenderPass_spec env _) ?_
    rintro _ s2 l2 ⟨rfl, rfl⟩
    refine wp_mono (createFramebuffers_exact env _) ?_
    rintro _ s3 l3 ⟨rfl, rfl⟩
    refine ⟨chosen, rfl, ?_, ?_⟩
    · simp [createSwapchainState]
    · clear hloop
      by_cases hrp : s.renderPass_ = VK_NULL_HANDLE <;>
        simp [createSwapchainCalls, swapchainCreateInfo, hrp, List.getD_eq_getElem?_getD] <;>
        intro i hi <;> simp [List.getElem?_range hi]

/-! ## Initialisation, exactly -/

/-- The function `init` on a renderer that is not initialized, exactly, when
it returns. -/
theorem init_exact (env : InitEnv) (nativeLayer width height : Nat) (s : Renderer)
    (hs : s.initialized_ = false) :
    wp (init env nativeLayer width height)
      (fun r s1 l =>
        r = true ∧
        ∃ chosen pd i lpick,
          chosenFormat env.swapchain.formats = some chosen ∧
          (∀ c ∈ lpick, Call.isAdapterQuery c = true) ∧
          s1 = initState env chosen pd i width height s ∧
          l = initCalls env chosen pd i nativeLayer width height s lpick) s := by
  unfold init createInstanceForMetalSurface createSurfaceFromMetalLayer createDeviceAndQueues
    createSyncObjects
  simp only [wp_bind, wp_get, wp_call, wp_VK_CHECK, wp_modify, wp_pure, wp_ite, hs,
    Bool.false_eq_true, false_implies, true_and, not_false_eq_true, true_implies]
  intro _ _
  refine wp_mono (pickPhysicalDevice_frame _ _) ?_
  rintro _ s1 l1 ⟨⟨pd, i, rfl⟩, hl1⟩
  intro _
  refine wp_mono (createSwapchain_exact _ _ _ _) ?_
  rintro _ s2 l2 ⟨chosen, hch, rfl, rfl⟩
  refine wp_mono (createCommandResources_spec _ _) ?_
  rintro _ s3 l3 ⟨rfl, rfl⟩
  intro _ _ _
  refine ⟨chosen, pd, i, l1, hch, hl1, ?_, ?_⟩
  · simp [initState, createSwapchainState, hs]
  · by_cases hp : s.commandPool_ = VK_NULL_HANDLE <;>
      simp [initCalls, createSwapchainCalls, createSwapchainState, swapchainCreateInfo, hp,
        enabledInstanceExtensions, instanceFlags, enabledDeviceExtensions]

/-! ## Claims about shutdown and resize -/

/-- C14. The function `shutdown` is idempotent: from every renderer state it
returns, and a second `shutdown` applied to the state it leaves returns with
that state unchanged and issues no call; on a renderer that is not initialized
(in particular one that never was) it changes nothing and issues no call. -/
theorem shutdown_idempotent (s : Renderer) :
    (∃ s1 l, shutdown.run s = .ok () s1 l ∧ shutdown.run s1 = .ok () s1 []) ∧
    (s.initialized_ = false → shutdown.run s = .ok () s []) ∧
    shutdown.run ({} : Renderer) = .ok () {} [] := by
  refine ⟨?_, ?_, rfl⟩
  · by_cases hi : s.initialized_ = true
    · refine ⟨shutdownState s, shutdownCalls s, by rw [shutdown_run, if_pos hi], ?_⟩
      rw [shutdown_run, if_neg (by simp [shutdownState])]
    · refine ⟨s, [], by rw [shutdown_run, if_neg hi], by rw [shutdown_run, if_neg hi]⟩
  · intro hi
    rw [shutdown_run, if_neg (by simp [hi])]

/-- C14 on the renderer after the sample `init`, and on the renderer that the
first `shutdown` leaves (which is not initialized). -/
theorem shutdown_idempotent_witness :
    (∃ s1 l, shutdown.run sampleRenderer = .ok () s1 l ∧ shutdown.run s1 = .ok () s1 []) ∧
    shutdown.run (shutdownState sampleRenderer) = .ok () (shutdownState sampleRenderer) [] :=
  ⟨(shutdown_idempotent sampleRenderer).1,
   (shutdown_idempotent (shutdownState sampleRenderer)).2.1 (by decide)⟩

/-- A `drawFrame` call that returns keeps the stored width and height. -/
theorem drawFrame_size (env : FrameEnv) (s s1 : Renderer) (l : List Call)
    (hrun : (drawFrame env).run s = .ok () s1 l) :
    s1.width_ = s.width_ ∧ s1.height_ = s.height_ := by
  rw [drawFrame_run] at hrun
  by_cases hi : s.initialized_ = true
  · by_cases hd : s.swapchainDirty_ = true
    · simp only [hi, hd, if_true] at hrun
      obtain ⟨_, s2, l2, l3, hrec, hfr, _⟩ := Res.bind_eq_ok hrun
      obtain ⟨chosen, views, fbs, lv, lf, _, hv, hf, rfl, _⟩ := recreate_spec env s _ s2 l2 hrec
      have := frame_spec env _ _ s1 l3 hfr
      subst this
      exact ⟨rfl, rfl⟩
    · simp only [hi, hd, if_true, if_false] at hrun
      have := frame_spec env _ _ s1 l hrun
      subst this
      exact ⟨rfl, rfl⟩
  · simp only [hi, if_false] at hrun
    cases hrun
    exact ⟨rfl, rfl⟩

/-- An `init` call that returns leaves a stored width and height of at least 1
when they were so before. -/
theorem init_size (env : InitEnv) (nativeLayer width height : Nat) (s s1 : Renderer) (r : Bool)
    (l : List Call) (hs : 1 ≤ s.width_ ∧ 1 ≤ s.height_)
    (hrun : (init env nativeLayer width height).run s = .ok r s1 l) :
    1 ≤ s1.width_ ∧ 1 ≤ s1.height_ := by
  by_cases hi : s.initialized_ = true
  · have : (init env nativeLayer width height).run s = .ok true s [] := by
      unfold init
      simp [hi]
    rw [this] at hrun
    cases hrun
    exact hs
  · obtain ⟨_, chosen, pd, i, lpick, _, _, rfl, _⟩ :=
      init_exact env nativeLayer width height s (by simpa using hi) _ _ _ hrun
    simp [initState]

/-- A `shutdown` call keeps the stored width and height. -/
theorem shutdown_size (s s1 : Renderer) (l : List Call) (hrun : shutdown.run s = .ok () s1 l) :
    s1.width_ = s.width_ ∧ s1.height_ = s.height_ := by
  rw [shutdown_run] at hrun
  by_cases hi : s.initialized_ = true
  · rw [if_pos hi] at hrun
    cases hrun
    exact ⟨rfl, rfl⟩
  · rw [if_neg hi] at hrun
    cases hrun
    exact ⟨rfl, rfl⟩

/-- C15. The function `resize(w, h)` only records plain state: from every
renderer state it returns with the stored width max(1, w), the stored height
max(1, h) and the dirty flag set, every other member unchanged, and issues no
call; consequently the stored width and height are at least 1 in every state of
the life of a renderer object. -/
theorem resize_records_state (w h : Nat) (s : Renderer) :
    (resize w h).run s =
      .ok () { s with width_ := max 1 w, height_ := max 1 h, swapchainDirty_ := true } [] ∧
    (Lifetime s → 1 ≤ s.width_ ∧ 1 ≤ s.height_) := by
  refine ⟨rfl, fun hl => ?_⟩
  induction hl with
  | fresh => exact ⟨Nat.le_refl 1, Nat.le_refl 1⟩
  | init env nativeLayer width height s s1 r l _ hrun ih =>
    exact init_size env nativeLayer width height s s1 r l ih hrun
  | resize width height s s1 l _ hrun ih =>
    cases hrun
    exact ⟨Nat.le_max_left 1 width, Nat.le_max_left 1 height⟩
  | setRecordCallback cb s s1 l _ hrun ih =>
    cases hrun
    exact ih
  | drawFrame env s s1 l _ hrun ih =>
    obtain ⟨hw, hh⟩ := drawFrame_size env s s1 l hrun
    rw [hw, hh]
    exact ih
  | shutdown s s1 l _ hrun ih =>
    obtain ⟨hw, hh⟩ := shutdown_size s s1 l hrun
    rw [hw, hh]
    exact ih

/-- C15 on the renderer after the sample `init`, `resize(0, 0)`, a frame that
recreates the swapchain, and `shutdown`. -/
theorem resize_records_state_witness :
    (resize 0 0).run sampleRenderer =
      .ok () { sampleRenderer with width_ := 1, height_ := 1, swapchainDirty_ := true } [] ∧
    1 ≤ (shutdownState resizedRenderer).width_ ∧ 1 ≤ (shutdownState resizedRenderer).height_ :=
  ⟨(resize_records_state 0 0 sampleRenderer).1,
   (resize_records_state 0 0 (shutdownState resizedRenderer)).2
     (Lifetime.shutdown resizedRenderer _ (shutdownCalls resizedRenderer)
       (Lifetime.drawFrame (sampleFrameEnv 200 VK_SUCCESS VK_SUCCESS) _ resizedRenderer
         ((drawFrame (sampleFrameEnv 200 VK_SUCCESS VK_SUCCESS)).run
           { sampleRenderer with width_ := 1, height_ := 480, swapchainDirty_ := true }).log
         (Lifetime.resize 0 480 sampleRenderer _ []
           (Lifetime.init sampleInitEnv 9 800 600 {} sampleRenderer true sampleInitCalls
             Lifetime.fresh (by decide))
           rfl)
         (by decide))
       (by decide))⟩

/-! ## A frame that reaches the present -/

theorem recordCommandBuffer_run (env : FrameEnv) (i : Nat) (s : Renderer) (cmd fb : Handle)
    (hcmd : s.commandBuffers_[i]? = some cmd) (hfb : s.framebuffers_[i]? = some fb)
    (hb : env.beginResult = VK_SUCCESS) :
    (recordCommandBuffer env i).run s =
      if env.endResult = VK_SUCCESS then .ok () s (recordCalls s cmd fb)
      else .abort (recordCalls s cmd fb) := by
  unfold recordCommandBuffer recordCalls
  by_cases he : env.endResult = VK_SUCCESS <;> cases hcb : s.recordCallback_ <;>
    simp [hcmd, hfb, hb, he, hcb, run_VK_CHECK]

theorem afterPresent_prepend (r : VkResult) (s : Renderer) (l1 l2 : List Call) :
    (afterPresent r s l2).prepend l1 = afterPresent r s (l1 ++ l2) := by
  unfold afterPresent
  split_ifs <;> rfl

/-- The part of `drawFrame` after the acquire when every step up to the
present succeeds. -/
theorem submitAndPresent_run (env : FrameEnv) (s : Renderer) (cmd fb : Handle)
    (hcb : s.commandBuffers_[env.imageIndex]? = some cmd)
    (h1 : env.resetCommandBufferResult = VK_SUCCESS) (h2 : env.beginResult = VK_SUCCESS)
    (hfb : s.framebuffers_[env.imageIndex]? = some fb)
    (h3 : env.endResult = VK_SUCCESS) (h4 : env.submitResult = VK_SUCCESS) :
    (submitAndPresent env s).run s =
      afterPresent env.presentResult (afterQueueSubmit VK_SUCCESS s)
        ([Call.resetCommandBuffer cmd] ++ recordCalls s cmd fb ++
         [Call.queueSubmit s.queue_ cmd s.imageAvailable_ s.renderFinished_ s.inFlight_,
          Call.queuePresent s.queue_ s.renderFinished_ s.swapchain_ env.imageIndex]) := by
  unfold submitAndPresent
  have hrec := recordCommandBuffer_run env env.imageIndex s cmd fb hcb hfb h2
  simp only [hcb, run_bind, run_call, Res.bind_ok, vkQueueSubmit_run, h1, h3, h4, hrec,
    run_VK_CHECK_success, Res.bind_ok, if_true, Res.prepend_ok]
  unfold afterPresent
  by_cases hp : env.presentResult = VK_ERROR_OUT_OF_DATE_KHR ∨
      env.presentResult = VK_SUBOPTIMAL_KHR
  · simp [hp]
  · rw [if_neg hp, if_neg hp]
    by_cases hs : env.presentResult = VK_SUCCESS <;> simp [hs, run_VK_CHECK]

/-- When the part of `drawFrame` after the acquire issues the present, every
step before it succeeded. -/
theorem submitAndPresent_reached (env : FrameEnv) (s : Renderer)
    (hreach : ∃ c ∈ ((submitAndPresent env s).run s).log, c.isPresent = true) :
    ∃ cmd fb, s.commandBuffers_[env.imageIndex]? = some cmd ∧
      env.resetCommandBufferResult = VK_SUCCESS ∧ env.beginResult = VK_SUCCESS ∧
      s.framebuffers_[env.imageIndex]? = some fb ∧
      env.endResult = VK_SUCCESS ∧ env.submitResult = VK_SUCCESS := by
  unfold submitAndPresent at hreach
  cases hcb : s.commandBuffers_[env.imageIndex]? with
  | none => simp [hcb, Call.isPresent] at hreach
  | some cmd =>
    simp only [hcb, run_bind, run_call, Res.bind_ok, vkQueueSubmit_run] at hreach
    by_cases h1 : env.resetCommandBufferResult = VK_SUCCESS
    swap
    · simp [h1, run_VK_CHECK, Call.isPresent] at hreach
    by_cases h2 : env.beginResult = VK_SUCCESS
    swap
    · simp [h1, h2, run_VK_CHECK, Call.isPresent, recordCommandBuffer, hcb] at hreach
    cases hfb : s.framebuffers_[env.imageIndex]? with
    | none => simp [h1, h2, run_VK_CHECK, Call.isPresent, recordCommandBuffer, hcb, hfb] at hreach
    | some fb =>
      have hrec := recordCommandBuffer_run env env.imageIndex s cmd fb hcb hfb h2
      by_cases h3 : env.endResult = VK_SUCCESS
      swap
      · simp [h1, h2, h3, hrec, run_VK_CHECK, Call.isPresent, recordCalls] at hreach
        cases hcbk : s.recordCallback_ <;> simp [hcbk] at hreach
      by_cases h4 : env.submitResult = VK_SUCCESS
      swap
      · simp [h1, h2, h3, h4, hrec, run_VK_CHECK, Call.isPresent, recordCalls] at hreach
        cases hcbk : s.recordCallback_ <;> simp [hcbk] at hreach
      exact ⟨cmd, fb, rfl, h1, h2, rfl, h3, h4⟩

/-- The part of `drawFrame` after the dirty check when every step up to the
present succeeds: the calls are `frameCalls`, a submission is pending on the
fence, and the present result decides how it ends. -/
theorem frame_run (env : FrameEnv) (s : Renderer) (cmd fb : Handle)
    (h : FrameReady env s cmd fb) :
    (frame env).run s =
      afterPresent env.presentResult
        { s with gpu := { s.gpu with inFlight := .unsignaledPending } }
        (frameCalls s cmd fb env.imageIndex) := by
  obtain ⟨h1, h2, h3, h5, hcb, h6, h7, hfb, h8, h9⟩ := h
  have h4 : ¬env.acquireResult = VK_ERROR_OUT_OF_DATE_KHR := by
    rcases h5 with h5 | h5 <;> rw [h5] <;> decide
  have h5c : ¬(env.acquireResult ≠ VK_SUCCESS ∧ env.acquireResult ≠ VK_SUBOPTIMAL_KHR) := by
    rintro ⟨ha, hb⟩
    exact h5.elim ha hb
  rw [frame_eq]
  simp only [run_bind, vkWaitForFences_run, vkResetFences_run, run_get, run_call,
    h1, h2, h3, h4, h5c, if_false, Res.bind_ok, run_VK_CHECK_success, Res.prepend_ok,
    Res.prepend_prepend, run_ite, run_bind, run_pure, Res.log_prepend, List.nil_append,
    List.append_nil]
  have hrun := submitAndPresent_run env
    (afterResetFences VK_SUCCESS { s with gpu := { s.gpu with inFlight := .signaled } }) cmd fb
    hcb h6 h7 hfb h8 h9
  rw [hrun, afterPresent_prepend]
  simp [frameCalls, afterResetFences, afterQueueSubmit, recordCalls]

/-- When the part of `drawFrame` after the dirty check issues the present,
every step before it succeeded. -/
theorem frame_present_reached (env : FrameEnv) (s : Renderer)
    (hreach : ∃ c ∈ ((frame env).run s).log, c.isPresent = true) :
    ∃ cmd fb, FrameReady env s cmd fb := by
  rw [frame_eq] at hreach
  simp only [run_bind, vkWaitForFences_run, vkResetFences_run, run_get, run_call] at hreach
  by_cases h1 : s.gpu.inFlight = .unsignaledNoSubmit
  · simp [h1, Call.isPresent] at hreach
  by_cases h2 : env.waitResult = VK_SUCCESS
  swap
  · simp [h1, h2, run_VK_CHECK, Call.isPresent] at hreach
  by_cases h3 : env.resetResult = VK_SUCCESS
  swap
  · simp [h1, h2, h3, run_VK_CHECK, Call.isPresent] at hreach
  by_cases h4 : env.acquireResult = VK_ERROR_OUT_OF_DATE_KHR
  · simp [h1, h2, h3, h4, run_VK_CHECK, Call.isPresent] at hreach
  by_cases h5 : env.acquireResult = VK_SUCCESS ∨ env.acquireResult = VK_SUBOPTIMAL_KHR
  swap
  · have h5a : env.acquireResult ≠ VK_SUCCESS := fun h => h5 (Or.inl h)
    have h5b : env.acquireResult ≠ VK_SUBOPTIMAL_KHR := fun h => h5 (Or.inr h)
    simp [h1, h2, h3, h4, h5a, h5b, run_VK_CHECK, Call.isPresent] at hreach
  have h5c : ¬(env.acquireResult ≠ VK_SUCCESS ∧ env.acquireResult ≠ VK_SUBOPTIMAL_KHR) := by
    rintro ⟨ha, hb⟩
    exact h5.elim ha hb
  simp only [h1, h2, h3, h4, h5c, if_false, Res.bind_ok, run_VK_CHECK_success, Res.prepend_ok,
    Res.prepend_prepend, run_ite, run_bind, run_pure, Res.log_prepend, List.nil_append,
    List.append_nil] at hreach
  generalize hsx : afterResetFences VK_SUCCESS
    { s with gpu := { s.gpu with inFlight := .signaled } } = sx at hreach
  have hr2 : ∃ c ∈ ((submitAndPresent env sx).run sx).log, c.isPresent = true := by
    obtain ⟨c, hc, hp⟩ := hreach
    simp only [List.mem_append, List.mem_singleton] at hc
    rcases hc with (rfl | rfl | rfl) | hc
    · simp [Call.isPresent] at hp
    · simp [Call.isPresent] at hp
    · simp [Call.isPresent] at hp
    · exact ⟨c, hc, hp⟩
  obtain ⟨cmd, fb, hcmd, h6, h7, hfb, h8, h9⟩ := submitAndPresent_reached env sx hr2
  subst hsx
  exact ⟨cmd, fb, h1, h2, h3, h5, hcmd, h6, h7, hfb, h8, h9⟩

/-! ## Present-result handling -/

theorem Call.not_present_of_isRecreation {c : Call} (h : c.isRecreation = true) :
    c.isPresent = false := by
  cases c <;> first | rfl | exact absurd h Bool.false_ne_true

theorem frameCalls_beforePresent (s : Renderer) (cmd fb : Handle) :
    ∀ c ∈ [Call.waitForFences s.device_ s.inFlight_, Call.resetFences s.device_ s.inFlight_,
        Call.acquireNextImage s.device_ s.swapchain_ s.imageAvailable_,
        Call.resetCommandBuffer cmd] ++ recordCalls s cmd fb ++
        [Call.queueSubmit s.queue_ cmd s.imageAvailable_ s.renderFinished_ s.inFlight_],
      c.isPresent = false := by
  unfold recordCalls
  cases s.recordCallback_ <;> simp [Call.isPresent]

/-- The function `drawFrame` once it got to the fence wait. -/
theorem drawFrame_run_entry (env : FrameEnv) (s sp : Renderer) (lp : List Call)
    (h : FrameEntry env s sp lp) :
    (drawFrame env).run s = ((frame env).run sp).prepend lp := by
  obtain ⟨hi, h⟩ := h
  rw [drawFrame_run, if_pos hi]
  rcases h with ⟨hd, hrec⟩ | ⟨hd, rfl, rfl⟩
  · rw [if_pos hd, hrec, Res.bind_ok]
  · rw [if_neg (by simp [hd]), Res.prepend_nil]

/-- The dirty flag is clear at the fence wait, and the calls before it are
calls of the dirty path. -/
theorem FrameEntry.clean {env : FrameEnv} {s sp : Renderer} {lp : List Call}
    (h : FrameEntry env s sp lp) :
    sp.swapchainDirty_ = false ∧ ∀ c ∈ lp, c.isRecreation = true := by
  obtain ⟨_, ⟨_, hrec⟩ | ⟨hd, rfl, rfl⟩⟩ := h
  · constructor
    · obtain ⟨_, _, _, _, _, _, _, _, rfl, _⟩ := recreate_spec env s _ sp lp hrec
      rfl
    · have := recreate_onlyRecreation env s s
      rw [hrec] at this
      exact this
  · exact ⟨hd, fun c hc => absurd hc (List.not_mem_nil c)⟩

/-- When `drawFrame` issues the present, it got to the fence wait and every
step of the frame before the present succeeded. -/
theorem drawFrame_present_reached (env : FrameEnv) (s : Renderer)
    (hreach : ∃ c ∈ ((drawFrame env).run s).log, c.isPresent = true) :
    ∃ sp lp cmd fb, FrameEntry env s sp lp ∧ FrameReady env sp cmd fb := by
  rw [drawFrame_run] at hreach
  by_cases hi : s.initialized_ = true
  swap
  · simp [hi] at hreach
  by_cases hd : s.swapchainDirty_ = true
  · simp only [hi, hd, if_true] at hreach
    have hlog := recreate_onlyRecreation env s s
    obtain ⟨_, sp, lp, hrec, h1⟩ :=
      Res.exists_log_bind (P := fun c => c.isPresent = true)
        (fun c hc => by simp [Call.not_present_of_isRecreation (hlog c hc)]) hreach
    obtain ⟨cmd, fb, hready⟩ := frame_present_reached env sp h1
    exact ⟨sp, lp, cmd, fb, ⟨hi, Or.inl ⟨hd, hrec⟩⟩, hready⟩
  · simp only [hi, hd, if_true, if_false] at hreach
    obtain ⟨cmd, fb, hready⟩ := frame_present_reached env s hreach
    exact ⟨s, [], cmd, fb, ⟨hi, Or.inr ⟨by simpa using hd, rfl, rfl⟩⟩, hready⟩

/-- C12. Present-result handling. When a `drawFrame` call issues the present,
let `sp` be the renderer state at that point (its dirty flag is clear) and `l`
the calls up to and including the present. Then for every result code `r` of
the present call: if `r` is out-of-date or suboptimal, `drawFrame` returns
(no abort) with the dirty flag set and nothing else changed; if `r` is success
it returns with the state `sp` unchanged, so the flag is left as it was; for
every other `r` the process aborts. -/
theorem drawFrame_present_result (env : FrameEnv) (s : Renderer)
    (hreach : ∃ c ∈ ((drawFrame env).run s).log, c.isPresent = true) :
    ∃ sp l, sp.swapchainDirty_ = false ∧
      (∃ pre c, l = pre ++ [c] ∧ c.isPresent = true ∧ ∀ c2 ∈ pre, c2.isPresent = false) ∧
      ∀ r : VkResult,
        (r = VK_ERROR_OUT_OF_DATE_KHR ∨ r = VK_SUBOPTIMAL_KHR →
          (drawFrame { env with presentResult := r }).run s =
            .ok () { sp with swapchainDirty_ := true } l) ∧
        (r = VK_SUCCESS →
          (drawFrame { env with presentResult := r }).run s = .ok () sp l) ∧
        (r ≠ VK_ERROR_OUT_OF_DATE_KHR → r ≠ VK_SUBOPTIMAL_KHR → r ≠ VK_SUCCESS →
          (drawFrame { env with presentResult := r }).run s = .abort l) := by
  obtain ⟨sp, lp, cmd, fb, hentry, hready⟩ := drawFrame_present_reached env s hreach
  obtain ⟨hclean, hlp⟩ := hentry.clean
  refine ⟨{ sp with gpu := { sp.gpu with inFlight := .unsignaledPending } },
    lp ++ frameCalls sp cmd fb env.imageIndex, hclean, ?_, fun r => ?_⟩
  · refine ⟨lp ++ ([Call.waitForFences sp.device_ sp.inFlight_,
        Call.resetFences sp.device_ sp.inFlight_,
        Call.acquireNextImage sp.device_ sp.swapchain_ sp.imageAvailable_,
        Call.resetCommandBuffer cmd] ++ recordCalls sp cmd fb ++
        [Call.queueSubmit sp.queue_ cmd sp.imageAvailable_ sp.renderFinished_ sp.inFlight_]),
      Call.queuePresent sp.queue_ sp.renderFinished_ sp.swapchain_ env.imageIndex, ?_, rfl, ?_⟩
    · simp [frameCalls]
    · intro c hc
      rcases List.mem_append.mp hc with hc | hc
      · exact Call.not_present_of_isRecreation (hlp c hc)
      · exact frameCalls_beforePresent sp cmd fb c hc
  · have hentry2 : FrameEntry { env with presentResult := r } s sp lp := hentry
    have hready2 : FrameReady { env with presentResult := r } sp cmd fb := hready
    rw [drawFrame_run_entry _ s sp lp hentry2, frame_run _ sp cmd fb hready2,
      afterPresent_prepend]
    unfold afterPresent
    refine ⟨fun h => ?_, fun h => ?_, fun h1 h2 h3 => ?_⟩
    · rw [if_pos h]
    · subst h
      rfl
    · rw [if_neg (by simp [h1, h2]), if_neg h3]

/-- C12 on the renderer after the sample `init`, with a driver that answers
success to every call before the present. -/
theorem drawFrame_present_result_witness :
    ∃ sp l, sp.swapchainDirty_ = false ∧
      (∃ pre c, l = pre ++ [c] ∧ c.isPresent = true ∧ ∀ c2 ∈ pre, c2.isPresent = false) ∧
      ∀ r : VkResult,
        (r = VK_ERROR_OUT_OF_DATE_KHR ∨ r = VK_SUBOPTIMAL_KHR →
          (drawFrame { sampleFrameEnv 200 VK_SUCCESS VK_SUCCESS with presentResult := r }).run
              sampleRenderer =
            .ok () { sp with swapchainDirty_ := true } l) ∧
        (r = VK_SUCCESS →
          (drawFrame { sampleFrameEnv 200 VK_SUCCESS VK_SUCCESS with presentResult := r }).run
              sampleRenderer = .ok () sp l) ∧
        (r ≠ VK_ERROR_OUT_OF_DATE_KHR → r ≠ VK_SUBOPTIMAL_KHR → r ≠ VK_SUCCESS →
          (drawFrame { sampleFrameEnv 200 VK_SUCCESS VK_SUCCESS with presentResult := r }).run
              sampleRenderer = .abort l) :=
  drawFrame_present_result (sampleFrameEnv 200 VK_SUCCESS VK_SUCCESS) sampleRenderer
    ⟨Call.queuePresent 5 7 100 0, by decide, rfl⟩

/-! ## Frame order -/

theorem callbacksInside_append (st : Option Handle) (l1 l2 : List Call) :
    callbacksInside st (l1 ++ l2) =
      (callbacksInside st l1 && callbacksInside (openPass st l1) l2) := by
  induction l1 generalizing st with
  | nil => simp [callbacksInside, openPass]
  | cons c rest ih =>
    rw [List.cons_append]
    simp only [callbacksInside]
    rw [ih]
    simp [openPass, Bool.and_assoc]

theorem openPass_append (st : Option Handle) (l1 l2 : List Call) :
    openPass st (l1 ++ l2) = openPass (openPass st l1) l2 := by
  simp [openPass, List.foldl_append]

theorem bracketed_bind {m : VkM α} {f : α → VkM β}
    (hm : Bracketed m) (hf : ∀ a, Bracketed (f a)) : Bracketed (m >>= f) := by
  intro s
  have h1 := hm s
  rw [run_bind]
  cases hr : m.run s with
  | ok a s1 l1 =>
    rw [hr] at h1
    have h2 := hf a s1
    simp only [Res.bind_ok, Res.log_prepend, callbacksInside_append, openPass_append]
    simp only [Res.log_ok] at h1
    rw [h1.1, h1.2, h2.1, h2.2]
    exact ⟨rfl, rfl⟩
  | abort l => rw [hr] at h1; exact h1
  | hang l => rw [hr] at h1; exact h1
  | undef l => rw [hr] at h1; exact h1

theorem bracketed_nil {m : VkM α} (h : ∀ s, (m.run s).log = []) : Bracketed m := by
  intro s
  rw [h s]
  exact ⟨rfl, rfl⟩

theorem bracketed_pure (a : α) : Bracketed (pure a : VkM α) := bracketed_nil fun _ => rfl

theorem bracketed_get : Bracketed get := bracketed_nil fun _ => rfl

theorem bracketed_modify (f : Renderer → Renderer) : Bracketed (modify f) :=
  bracketed_nil fun _ => rfl

theorem bracketed_abort : Bracketed (abort : VkM α) := bracketed_nil fun _ => rfl

theorem bracketed_hang : Bracketed (hang : VkM α) := bracketed_nil fun _ => rfl

theorem bracketed_undef : Bracketed (undef : VkM α) := bracketed_nil fun _ => rfl

theorem bracketed_VK_CHECK (r : VkResult) : Bracketed (VK_CHECK r) := by
  apply bracketed_nil
  intro s
  rw [run_VK_CHECK]
  split <;> rfl

theorem bracketed_call {c : Call} (h1 : callbackAllowed none c = true)
    (h2 : passStep none c = none) : Bracketed (call c) := by
  intro s
  simp [callbacksInside, openPass, h1, h2]

theorem bracketed_ite {c : Prop} [Decidable c] {m1 m2 : VkM α}
    (h1 : Bracketed m1) (h2 : Bracketed m2) : Bracketed (if c then m1 else m2) := by
  split
  · exact h1
  · exact h2

/-- Calls other than recording calls neither invoke the callback nor begin or
end a render pass. -/
theorem callbacksInside_of_noRecord {l : List Call}
    (h : ∀ c ∈ l, c.isRecordSubmitPresent = false) (st : Option Handle) :
    callbacksInside st l = true ∧ openPass st l = st := by
  induction l with
  | nil => exact ⟨rfl, rfl⟩
  | cons c rest ih =>
    have hc := h c (List.mem_cons_self c rest)
    have ih2 := ih fun c2 hc2 => h c2 (List.mem_cons_of_mem c hc2)
    have h1 : callbackAllowed st c = true := by
      cases c <;> first | rfl | simp [Call.isRecordSubmitPresent] at hc
    have h2 : passStep st c = st := by
      cases c <;> first | rfl | simp [Call.isRecordSubmitPresent] at hc
    simp only [callbacksInside, openPass, List.foldl_cons, h1, h2, Bool.true_and]
    exact ih2

theorem recordCommandBuffer_bracketed (env : FrameEnv) (i : Nat) :
    Bracketed (recordCommandBuffer env i) := by
  intro s
  unfold recordCommandBuffer
  cases hcb : s.commandBuffers_[i]? <;> cases hfb : s.framebuffers_[i]? <;>
    cases hcbk : s.recordCallback_ <;>
    by_cases hb : env.beginResult = VK_SUCCESS <;>
    by_cases he : env.endResult = VK_SUCCESS <;>
    simp [hcb, hfb, hcbk, hb, he, run_VK_CHECK, callbacksInside, openPass, passStep,
      callbackAllowed]

theorem frame_bracketed (env : FrameEnv) : Bracketed (frame env) := by
  unfold frame vkWaitForFences vkResetFences vkQueueSubmit
  repeat' first
    | with_reducible apply recordCommandBuffer_bracketed
    | with_reducible apply bracketed_bind
    | with_reducible apply bracketed_get
    | with_reducible apply bracketed_modify
    | with_reducible apply bracketed_pure
    | with_reducible apply bracketed_VK_CHECK
    | with_reducible apply bracketed_undef
    | with_reducible apply bracketed_hang
    | with_reducible apply bracketed_ite
    | ((with_reducible apply bracketed_call) <;> rfl)
    | split
    | intro _

theorem drawFrame_bracketed (env : FrameEnv) (s : Renderer) :
    callbacksInside none ((drawFrame env).run s).log = true := by
  rw [drawFrame_run]
  by_cases hi : s.initialized_ = true
  swap
  · simp [hi, callbacksInside]
  by_cases hd : s.swapchainDirty_ = true
  · simp only [hi, hd, if_true]
    have hlog := recreate_noFrameCalls env s s
    cases hr : (recreate env s).run s with
    | ok a s1 l1 =>
      rw [hr] at hlog
      have h1 := callbacksInside_of_noRecord (fun c hc => (hlog c hc).2.2) none
      simp only [Res.log_ok] at h1
      simp only [Res.bind_ok, Res.log_prepend, callbacksInside_append, h1.1, h1.2,
        (frame_bracketed env s1).1, Bool.and_self]
    | abort l =>
      rw [hr] at hlog
      exact (callbacksInside_of_noRecord (fun c hc => (hlog c hc).2.2) none).1
    | hang l =>
      rw [hr] at hlog
      exact (callbacksInside_of_noRecord (fun c hc => (hlog c hc).2.2) none).1
    | undef l =>
      rw [hr] at hlog
      exact (callbacksInside_of_noRecord (fun c hc => (hlog c hc).2.2) none).1
  · simp only [hi, hd, if_true, if_false]
    exact (frame_bracketed env s).1

/-- When the part of `drawFrame` after the dirty check returns after an acquire
that did not answer out-of-date, it issued the present. -/
theorem frame_returns_present (env : FrameEnv) (s : Renderer) :
    wp (frame env)
      (fun _ _ l =>
        env.acquireResult ≠ VK_ERROR_OUT_OF_DATE_KHR → ∃ c ∈ l, c.isPresent = true) s := by
  rw [frame_eq]
  simp only [wp_bind, wp_vkWaitForFences, wp_VK_CHECK, wp_vkResetFences, wp_get, wp_call]
  intro _ hw hr
  by_cases hacq : env.acquireResult = VK_ERROR_OUT_OF_DATE_KHR
  · simp [hacq]
  · simp only [hacq, if_false, wp_ite, wp_bind, wp_VK_CHECK, wp_pure]
    refine ⟨fun h1 h2 => absurd h2 h1.1, fun _ => ?_⟩
    refine wp_mono (submitAndPresent_spec _ _) ?_
    rintro _ s1 l1 ⟨_, cmd, fb, _, _, hl1⟩ _
    have hmem : ∃ c ∈ l1, c.isPresent = true := by
      rw [hl1]
      exact ⟨_, List.mem_append_right _ (List.mem_cons_of_mem _ (List.mem_singleton_self _)), rfl⟩
    obtain ⟨c, hc, hp⟩ := hmem
    exact ⟨c, by simp [hc], hp⟩

/-- C16. Frame order. For a `drawFrame` call on an initialized renderer whose
dirty flag is clear and whose acquire answers success or suboptimal, when the
call returns (or at least gets as far as the present), the calls it issued are
exactly, in this order: fence wait, fence reset, acquire, command-buffer reset,
begin recording, begin render pass, one invocation of the record callback with
that command buffer if a callback is set (none if not), end render pass, end
recording, queue submit with the in-flight fence, queue present. And in every
`drawFrame` call, however it ends, each callback invocation lies between a
begin-render-pass on its command buffer and the end-render-pass that follows. -/
theorem drawFrame_order (env : FrameEnv) (s : Renderer) :
    (s.initialized_ = true → s.swapchainDirty_ = false →
      (env.acquireResult = VK_SUCCESS ∨ env.acquireResult = VK_SUBOPTIMAL_KHR) →
      ((∃ s1 l, (drawFrame env).run s = .ok () s1 l) ∨
        ∃ c ∈ ((drawFrame env).run s).log, c.isPresent = true) →
      ∃ cmd fb, s.commandBuffers_[env.imageIndex]? = some cmd ∧
        s.framebuffers_[env.imageIndex]? = some fb ∧
        ((drawFrame env).run s).log =
          [Call.waitForFences s.device_ s.inFlight_,
           Call.resetFences s.device_ s.inFlight_,
           Call.acquireNextImage s.device_ s.swapchain_ s.imageAvailable_,
           Call.resetCommandBuffer cmd,
           Call.beginCommandBuffer cmd,
           Call.cmdBeginRenderPass cmd s.renderPass_ fb s.swapchainExtent_] ++
          (match s.recordCallback_ with
           | some cb => [Call.recordCallback cb cmd]
           | none => []) ++
          [Call.cmdEndRenderPass cmd,
           Call.endCommandBuffer cmd,
           Call.queueSubmit s.queue_ cmd s.imageAvailable_ s.renderFinished_ s.inFlight_,
           Call.queuePresent s.queue_ s.renderFinished_ s.swapchain_ env.imageIndex]) ∧
    callbacksInside none ((drawFrame env).run s).log = true := by
  refine ⟨fun hi hd hacq hret => ?_, drawFrame_bracketed env s⟩
  have hentry : FrameEntry env s s [] := ⟨hi, Or.inr ⟨hd, rfl, rfl⟩⟩
  have hrun := drawFrame_run_entry env s s [] hentry
  rw [Res.prepend_nil] at hrun
  have hreach : ∃ c ∈ ((frame env).run s).log, c.isPresent = true := by
    rcases hret with ⟨s1, l, hok⟩ | hp
    · rw [hrun] at hok
      have hne : env.acquireResult ≠ VK_ERROR_OUT_OF_DATE_KHR := by
        rcases hacq with h | h <;> rw [h] <;> decide
      have := frame_returns_present env s _ s1 l hok hne
      rw [hok]
      exact this
    · rw [hrun] at hp
      exact hp
  obtain ⟨cmd, fb, hready⟩ := frame_present_reached env s hreach
  refine ⟨cmd, fb, hready.2.2.2.2.1, hready.2.2.2.2.2.2.2.1, ?_⟩
  rw [hrun, frame_run env s cmd fb hready]
  have hlog : ∀ (r : VkResult) (s2 : Renderer) (l : List Call), (afterPresent r s2 l).log = l := by
    intro r s2 l
    unfold afterPresent
    split_ifs <;> rfl
  rw [hlog]
  unfold frameCalls recordCalls
  cases s.recordCallback_ <;> simp

/-- C16 on the renderer after the sample `init` with the record callback 77
set: the eleven calls of the frame, in order. -/
theorem drawFrame_order_witness :
    (∃ cmd fb, ({ sampleRenderer with recordCallback_ := some 77 } : Renderer).commandBuffers_[0]?
        = some cmd ∧
      ({ sampleRenderer with recordCallback_ := some 77 } : Renderer).framebuffers_[0]? = some fb ∧
      ((drawFrame (sampleFrameEnv 200 VK_SUCCESS VK_SUCCESS)).run
          { sampleRenderer with recordCallback_ := some 77 }).log =
        [Call.waitForFences 4 8, Call.resetFences 4 8, Call.acquireNextImage 4 100 6,
         Call.resetCommandBuffer cmd, Call.beginCommandBuffer cmd,
         Call.cmdBeginRenderPass cmd 120 fb ⟨800, 600⟩] ++
        [Call.recordCallback 77 cmd] ++
        [Call.cmdEndRenderPass cmd, Call.endCommandBuffer cmd,
         Call.queueSubmit 5 cmd 6 7 8, Call.queuePresent 5 7 100 0]) ∧
    callbacksInside none
      ((drawFrame (sampleFrameEnv 200 VK_SUCCESS VK_SUCCESS)).run
        { sampleRenderer with recordCallback_ := some 77 }).log = true :=
  ⟨(drawFrame_order (sampleFrameEnv 200 VK_SUCCESS VK_SUCCESS)
      { sampleRenderer with recordCallback_ := some 77 }).1
      (by decide) (by decide) (Or.inl rfl) (Or.inr ⟨Call.queuePresent 5 7 100 0, by decide, rfl⟩),
   (drawFrame_order (sampleFrameEnv 200 VK_SUCCESS VK_SUCCESS)
      { sampleRenderer with recordCallback_ := some 77 }).2⟩

/-! ## Dirty-path recreation -/

theorem filterMap_map_const {β γ : Type} {f : Call → Option γ} (g : β → Call) (k : γ)
    (h : ∀ x, f (g x) = some k) (l : List β) :
    (l.map g).filterMap f = List.replicate l.length k := by
  induction l with
  | nil => rfl
  | cons x rest ih => simp [List.filterMap_cons, h, ih, List.replicate_succ]

theorem filterMap_map_some {β γ : Type} {f : Call → Option γ} (g : β → Call) (k : β → γ)
    (h : ∀ x, f (g x) = some (k x)) (l : List β) :
    (l.map g).filterMap f = l.map k := by
  induction l with
  | nil => rfl
  | cons x rest ih => simp [List.filterMap_cons, h, ih]

theorem filterMap_map_none {β γ : Type} {f : Call → Option γ} (g : β → Call)
    (h : ∀ x, f (g x) = none) (l : List β) :
    (l.map g).filterMap f = [] := by
  induction l with
  | nil => rfl
  | cons x rest ih => simp [List.filterMap_cons, h, ih]

theorem filterMap_eq_nil_of_forall {γ : Type} {f : Call → Option γ} {l : List Call}
    (h : ∀ c ∈ l, f c = none) : l.filterMap f = [] := by
  induction l with
  | nil => rfl
  | cons c rest ih =>
    rw [List.filterMap_cons, h c (List.mem_cons_self c rest)]
    exact ih fun c2 hc2 => h c2 (List.mem_cons_of_mem c hc2)

theorem Call.creates_of_isAdapterQuery {c : Call} (h : c.isAdapterQuery = true) :
    c.creates = none := by
  cases c <;> first | rfl | exact absurd h Bool.false_ne_true

theorem filter_ne_null_map_range (f : Nat → Handle) (n : Nat)
    (h : ∀ i, i < n → f i ≠ VK_NULL_HANDLE) :
    ((List.range n).map f).filter (fun v => decide (v ≠ VK_NULL_HANDLE)) = (List.range n).map f := by
  rw [List.filter_eq_self]
  intro v hv
  obtain ⟨i, hi, rfl⟩ := List.mem_map.mp hv
  simpa using h i (List.mem_range.mp hi)

/-- The kinds of the objects `init` creates on a fresh renderer, in call order:
the reverse of `teardownKinds`. -/
theorem initCalls_creates (env : InitEnv) (chosen : VkSurfaceFormatKHR) (pd : Handle) (i : Nat)
    (nativeLayer width height : Nat) (lpick : List Call)
    (hl : ∀ c ∈ lpick, c.isAdapterQuery = true) :
    (initCalls env chosen pd i nativeLayer width height {} lpick).filterMap Call.creates =
      (teardownKinds env.swapchain.images.length).reverse := by
  have hpick : lpick.filterMap Call.creates = [] :=
    filterMap_eq_nil_of_forall fun c hc => Call.creates_of_isAdapterQuery (hl c hc)
  have hv := filterMap_map_const (f := Call.creates)
    (fun i => Call.createImageView env.device (env.swapchain.images.getD i 0) chosen.format)
    Kind.vkImageView (fun _ => rfl) (List.range env.swapchain.images.length)
  have hf := filterMap_map_const (f := Call.creates)
    (fun i => Call.createFramebuffer env.device env.swapchain.renderPass (env.swapchain.view i)
      (extent env.swapchain.caps (max 1 width) (max 1 height)))
    Kind.vkFramebuffer (fun _ => rfl) (List.range env.swapchain.images.length)
  simp only [List.length_range] at hv hf
  simp [-List.filterMap_map, -List.getD_eq_getElem?_getD, initCalls, createSwapchainCalls,
    teardownKinds, List.filterMap_append, hpick, hv, hf, Call.creates, VK_NULL_HANDLE]

/-- The calls of `shutdown` on the renderer that `init` leaves, when the driver
returned valid handles. -/
theorem shutdownCalls_init (env : InitEnv) (chosen : VkSurfaceFormatKHR) (pd : Handle) (i : Nat)
    (width height : Nat) (hv : env.valid) :
    shutdownCalls (initState env chosen pd i width height {}) = teardownCalls env := by
  obtain ⟨h1, h2, h3, h4, h5, h6, h7, h8, h9, h10, h11, h12⟩ := hv
  have hn : env.swapchain.images.length ≠ 0 := fun h => h5 (List.length_eq_zero.mp h)
  have hfb := filter_ne_null_map_range env.swapchain.framebuffer _ h8
  have hvw := filter_ne_null_map_range env.swapchain.view _ h6
  unfold shutdownCalls destroySyncObjectsCalls destroyCommandResourcesCalls destroySwapchainCalls
    destroyDeviceSurfaceInstanceCalls teardownCalls initState
  simp only [hfb, hvw]
  simp [-List.map_map, h1, h2, h3, h4, h7, h9, h10, h11, h12, hn]
  simp [List.map_map, Function.comp_def]

theorem teardownCalls_destroys (env : InitEnv) :
    (teardownCalls env).tail.filterMap Call.destroys =
      teardownKinds env.swapchain.images.length := by
  have hf := filterMap_map_const (f := Call.destroys)
    (fun i => Call.destroyFramebuffer env.device (env.swapchain.framebuffer i))
    Kind.vkFramebuffer (fun _ => rfl) (List.range env.swapchain.images.length)
  have hv := filterMap_map_const (f := Call.destroys)
    (fun i => Call.destroyImageView env.device (env.swapchain.view i))
    Kind.vkImageView (fun _ => rfl) (List.range env.swapchain.images.length)
  simp only [List.length_range] at hv hf
  simp [-List.filterMap_map, teardownCalls, teardownKinds, List.filterMap_append, hv, hf,
    Call.destroys]

theorem teardownCalls_framebuffers (env : InitEnv) :
    (teardownCalls env).filterMap Call.destroyedFramebuffer =
      (List.range env.swapchain.images.length).map env.swapchain.framebuffer := by
  have hf := filterMap_map_some (f := Call.destroyedFramebuffer)
    (fun i => Call.destroyFramebuffer env.device (env.swapchain.framebuffer i))
    env.swapchain.framebuffer (fun _ => rfl) (List.range env.swapchain.images.length)
  have hv := filterMap_map_none (f := Call.destroyedFramebuffer)
    (fun i => Call.destroyImageView env.device (env.swapchain.view i))
    (fun _ => rfl) (List.range env.swapchain.images.length)
  simp [-List.filterMap_map, teardownCalls, List.filterMap_append, hv, hf,
    Call.destroyedFramebuffer]

theorem teardownCalls_imageViews (env : InitEnv) :
    (teardownCalls env).filterMap Call.destroyedImageView =
      (List.range env.swapchain.images.length).map env.swapchain.view := by
  have hf := filterMap_map_none (f := Call.destroyedImageView)
    (fun i => Call.destroyFramebuffer env.device (env.swapchain.framebuffer i))
    (fun _ => rfl) (List.range env.swapchain.images.length)
  have hv := filterMap_map_some (f := Call.destroyedImageView)
    (fun i => Call.destroyImageView env.device (env.swapchain.view i))
    env.swapchain.view (fun _ => rfl) (List.range env.swapchain.images.length)
  simp [-List.filterMap_map, teardownCalls, List.filterMap_append, hv, hf,
    Call.destroyedImageView]

/-- C13 as stated fails at the level of the objects: with the sample driver
`init` creates the framebuffers 121, 122, 123 in this order (the answers to the
first, second and third framebuffer creation, for the views 111, 112, 113), and
the `shutdown` that follows destroys them in the same order 121, 122, 123, not
in the reverse order: 121 is destroyed while 122 and 123, created after it, are
still live. -/
theorem shutdown_framebuffers_not_reversed :
    (init sampleInitEnv 9 800 600).run {} = .ok true sampleRenderer sampleInitCalls ∧
    sampleInitCalls.filter (fun c => decide (c.creates = some Kind.vkFramebuffer)) =
      [Call.createFramebuffer 4 120 111 ⟨800, 600⟩, Call.createFramebuffer 4 120 112 ⟨800, 600⟩,
       Call.createFramebuffer 4 120 113 ⟨800, 600⟩] ∧
    (List.range 3).map sampleInitEnv.swapchain.framebuffer = [121, 122, 123] ∧
    sampleRenderer.framebuffers_ = [121, 122, 123] ∧
    (shutdown.run sampleRenderer).log.filterMap Call.destroyedFramebuffer = [121, 122, 123] ∧
    (shutdown.run sampleRenderer).log.filterMap Call.destroyedFramebuffer ≠
      sampleRenderer.framebuffers_.reverse := by
  decide

/-- C13 as amended. Teardown reverses creation kind by kind. For every driver
that returns valid handles and at least one swapchain image: when `init` on a
fresh renderer returns, the `shutdown` that follows issues the device idle-wait
and then only destroy calls, and the sequence of the kinds of object these
destroy (fence, semaphore, semaphore, command buffers, command pool, one
framebuffer per image, render pass, one image view per image, swapchain,
device, surface, instance) is the reverse of the sequence of the kinds of
object the create calls of `init` created. The framebuffers among themselves,
and the image views among themselves, are destroyed in the order they were
created (index order), not in reverse. -/
theorem shutdown_reverses_init_kinds (env : InitEnv) (nativeLayer width height : Nat)
    (s1 : Renderer) (l : List Call) (hvalid : env.valid)
    (hinit : (init env nativeLayer width height).run {} = .ok true s1 l) :
    ∃ calls,
      shutdown.run s1 = .ok () (shutdownState s1) (Call.deviceWaitIdle s1.device_ :: calls) ∧
      calls.map Call.destroys = (teardownKinds s1.imageCount).map some ∧
      calls.filterMap Call.destroys = (l.filterMap Call.creates).reverse ∧
      s1.framebuffers_ = (List.range s1.imageCount).map env.swapchain.framebuffer ∧
      calls.filterMap Call.destroyedFramebuffer = s1.framebuffers_ ∧
      s1.swapchainImageViews_ = (List.range s1.imageCount).map env.swapchain.view ∧
      calls.filterMap Call.destroyedImageView = s1.swapchainImageViews_ := by
  obtain ⟨_, chosen, pd, i, lpick, _, hpick, rfl, rfl⟩ :=
    init_exact env nativeLayer width height {} rfl _ _ _ hinit
  have hrun := shutdown_run (initState env chosen pd i width height {})
  rw [if_pos (by simp [initState]), shutdownCalls_init env chosen pd i width height hvalid] at hrun
  have hkinds := teardownCalls_destroys env
  refine ⟨(teardownCalls env).tail, hrun, ?_, ?_, ?_, ?_, ?_, ?_⟩
  · simp [teardownCalls, teardownKinds, initState, Renderer.imageCount, Call.destroys,
      Function.comp_def]
  · rw [initCalls_creates env chosen pd i nativeLayer width height lpick hpick, List.reverse_reverse]
    exact hkinds
  · simp [initState, Renderer.imageCount]
  · have := teardownCalls_framebuffers env
    simpa [teardownCalls, initState, Call.destroyedFramebuffer] using this
  · simp [initState, Renderer.imageCount]
  · have := teardownCalls_imageViews env
    simpa [teardownCalls, initState, Call.destroyedImageView] using this

theorem sampleInitEnv_valid : sampleInitEnv.valid := by
  unfold InitEnv.valid
  decide

/-- C13 as amended, on the sample driver (three swapchain images). -/
theorem shutdown_reverses_init_kinds_witness :
    ∃ calls,
      shutdown.run sampleRenderer =
        .ok () (shutdownState sampleRenderer) (Call.deviceWaitIdle sampleRenderer.device_ :: calls) ∧
      calls.map Call.destroys = (teardownKinds sampleRenderer.imageCount).map some ∧
      calls.filterMap Call.destroys = (sampleInitCalls.filterMap Call.creates).reverse ∧
      sampleRenderer.framebuffers_ =
        (List.range sampleRenderer.imageCount).map sampleInitEnv.swapchain.framebuffer ∧
      calls.filterMap Call.destroyedFramebuffer = sampleRenderer.framebuffers_ ∧
      sampleRenderer.swapchainImageViews_ =
        (List.range sampleRenderer.imageCount).map sampleInitEnv.swapchain.view ∧
      calls.filterMap Call.destroyedImageView = sampleRenderer.swapchainImageViews_ :=
  shutdown_reverses_init_kinds sampleInitEnv 9 800 600 sampleRenderer sampleInitCalls
    sampleInitEnv_valid (by decide)

end VkRenderer
